import Mathlib

/-!
GearVRf native core: hierarchical culler and deferred GL reclaimer.

A shallow embedding of two pieces of the native renderer:

* `Renderer::frustum_cull` (engine/renderer/renderer.cpp), the recursive walk
  over the scene tree that fills the visible-object list;
* `RunOnGlThread` (engine/memory/run_on_gl_thread.cpp), the queues of GL
  handles and runnables that are flushed on the GL thread.

Pointers are modelled by natural-number addresses, `std::vector` by `List`,
the mutex-protected sections by atomic state transformers, and calls that
leave the process (GL entry points, `runOnGlThread`, logging) by events
appended to a trace carried in the state.
-/

namespace gvr

/-! ## Scene tree -/

/-- A scene object as the culler sees it: its address (the identity of the
`SceneObject*`), the value of `enabled()` and the vector `children()`. -/
inductive SceneObject where
  | mk (addr : Nat) (enabled : Bool) (children : List SceneObject)

namespace SceneObject

/-- Address of the object, the identity of the pointer. -/
def addr : SceneObject → Nat
  | mk a _ _ => a

/-- Value of `object->enabled()`. -/
def enabled : SceneObject → Bool
  | mk _ e _ => e

/-- Value of `object->children()`. -/
def children : SceneObject → List SceneObject
  | mk _ _ c => c

mutual
/-- Pre-order listing of a subtree: the object, then the subtrees of its
children from the first child to the last. -/
def preorder : SceneObject → List SceneObject
  | mk a e ch => mk a e ch :: preorderAll ch
/-- Pre-order listing of a forest, tree after tree. -/
def preorderAll : List SceneObject → List SceneObject
  | [] => []
  | c :: rest => preorder c ++ preorderAll rest
end

mutual
/-- Pre-order listing of a subtree in which every object comes with the chain
of its proper ancestors inside the subtree, outermost first. -/
def lineage : SceneObject → List (List SceneObject × SceneObject)
  | mk a e ch =>
    ([], mk a e ch) :: (lineageAll ch).map (fun x => (mk a e ch :: x.1, x.2))
/-- The same listing for a forest. -/
def lineageAll : List SceneObject → List (List SceneObject × SceneObject)
  | [] => []
  | c :: rest => lineage c ++ lineageAll rest
end

/-- A scene is a tree of distinct objects: no address occurs twice in it. -/
def WellFormed (root : SceneObject) : Prop :=
  ((preorder root).map addr).Nodup

instance (root : SceneObject) : Decidable (WellFormed root) :=
  inferInstanceAs (Decidable ((preorder root).map addr).Nodup)

end SceneObject

/-! ## Renderer::frustum_cull -/

/-- What one run of the culler has done so far. `scene_objects` is the output
vector of the source. `entered` and `classified` are observation traces: the
objects `frustum_cull` was called on, and the objects whose `frustumCull`
classification was evaluated, both in call order. -/
structure CullRun where
  scene_objects : List SceneObject
  entered : List SceneObject
  classified : List SceneObject

namespace CullRun

/-- The state before anything happened: `scene_objects.clear()` and empty traces. -/
def empty : CullRun := ⟨[], [], []⟩

/-- Append three lists to the three components. -/
def extend (run : CullRun) (out ent cls : List SceneObject) : CullRun :=
  ⟨run.scene_objects ++ out, run.entered ++ ent, run.classified ++ cls⟩

end CullRun

namespace Renderer

mutual
/-- `Renderer::frustum_cull` (renderer.cpp, lines 62-98).

`SceneObject::frustumCull` is declared outside this file, so it is the
parameter `frustumCull`: given the object, the camera position, the frustum
and the plane mask it returns the classification `cullVal` together with the
plane mask after the call (equal to the mask passed in when the callee takes
it by value). The types of the camera position and of the frustum are left
open, the walk only hands them on. -/
def frustum_cull {Pos Planes : Type}
    (frustumCull : SceneObject → Pos → Planes → Int → Int × Int)
    (camera_position : Pos) (object : SceneObject) (frustum : Planes)
    (run : CullRun) (need_cull : Bool) (planeMask : Int) : CullRun :=
  match object with
  | .mk a en ch =>
    let run := { run with entered := run.entered ++ [.mk a en ch] }
    if !en then
      run
    else if need_cull then
      let r := frustumCull (.mk a en ch) camera_position frustum planeMask
      let run := { run with classified := run.classified ++ [.mk a en ch] }
      if r.1 = 0 then
        run
      else
        let run :=
          if r.1 ≥ 2 then
            { run with scene_objects := run.scene_objects ++ [.mk a en ch] }
          else run
        let need_cull := if r.1 = 3 then false else need_cull
        frustum_cull_children frustumCull camera_position ch frustum run need_cull r.2
    else
      let run := { run with scene_objects := run.scene_objects ++ [.mk a en ch] }
      frustum_cull_children frustumCull camera_position ch frustum run need_cull planeMask
/-- The loop over `children` at the end of `frustum_cull` (lines 94-97). -/
def frustum_cull_children {Pos Planes : Type}
    (frustumCull : SceneObject → Pos → Planes → Int → Int × Int)
    (camera_position : Pos) (children : List SceneObject) (frustum : Planes)
    (run : CullRun) (need_cull : Bool) (planeMask : Int) : CullRun :=
  match children with
  | [] => run
  | c :: rest =>
    frustum_cull_children frustumCull camera_position rest frustum
      (frustum_cull frustumCull camera_position c frustum run need_cull planeMask)
      need_cull planeMask
end

/-- The part of `Renderer::cullFromCamera` (lines 146-172) that produces
`scene_objects`: the vector is cleared and `frustum_cull` is called on the
scene root with `scene->get_frustum_culling()` and plane mask `0`. -/
def cullFromCamera {Pos Planes : Type}
    (frustumCull : SceneObject → Pos → Planes → Int → Int × Int)
    (camera_position : Pos) (frustum : Planes)
    (root : SceneObject) (get_frustum_culling : Bool) : List SceneObject :=
  (frustum_cull frustumCull camera_position root frustum CullRun.empty
    get_frustum_culling 0).scene_objects

/-- One level of descent: the pair (need_cull, planeMask) that `frustum_cull`,
called on `a` with the pair `(nc, m)`, hands to the children of `a`, or `none`
when it returns before its loop (`a` disabled, or classified 0 under active
culling). -/
def descend {Pos Planes : Type}
    (frustumCull : SceneObject → Pos → Planes → Int → Int × Int)
    (camera_position : Pos) (frustum : Planes)
    (a : SceneObject) (nc : Bool) (m : Int) : Option (Bool × Int) :=
  if !a.enabled then none
  else if nc then
    if (frustumCull a camera_position frustum m).1 = 0 then none
    else if (frustumCull a camera_position frustum m).1 = 3 then
      some (false, (frustumCull a camera_position frustum m).2)
    else some (true, (frustumCull a camera_position frustum m).2)
  else some (false, m)

/-- Reachability along a chain of ancestors (outermost first): the pair
(need_cull, planeMask) with which the walk arrives below the whole chain, or
`none` when some ancestor in the chain is disabled or was classified 0 while
culling was still active. -/
def arrive {Pos Planes : Type}
    (frustumCull : SceneObject → Pos → Planes → Int → Int × Int)
    (camera_position : Pos) (frustum : Planes) :
    List SceneObject → Bool → Int → Option (Bool × Int)
  | [], nc, m => some (nc, m)
  | a :: rest, nc, m =>
    match descend frustumCull camera_position frustum a nc m with
    | none => none
    | some s => arrive frustumCull camera_position frustum rest s.1 s.2

/-- A test on an object listed with its ancestor chain: the walk arrives at
the object, and `q` holds of the pair (need_cull, planeMask) it arrives with
and of the object. -/
def onArrival {Pos Planes : Type}
    (frustumCull : SceneObject → Pos → Planes → Int → Int × Int)
    (camera_position : Pos) (frustum : Planes)
    (q : Bool × Int → SceneObject → Bool) (nc : Bool) (m : Int)
    (x : List SceneObject × SceneObject) : Bool :=
  match arrive frustumCull camera_position frustum x.1 nc m with
  | none => false
  | some s => q s x.2

/-- An object with ancestor chain `x.1` is reachable by the walk: every proper
ancestor is enabled and none was classified 0 while culling was active. -/
def reaches {Pos Planes : Type}
    (frustumCull : SceneObject → Pos → Planes → Int → Int × Int)
    (camera_position : Pos) (frustum : Planes) (nc : Bool) (m : Int)
    (x : List SceneObject × SceneObject) : Bool :=
  onArrival frustumCull camera_position frustum (fun _ _ => true) nc m x

/-- An object with ancestor chain `x.1` is reachable, enabled and reached with
culling still active, so that its classification is evaluated. -/
def tested {Pos Planes : Type}
    (frustumCull : SceneObject → Pos → Planes → Int → Int × Int)
    (camera_position : Pos) (frustum : Planes) (nc : Bool) (m : Int)
    (x : List SceneObject × SceneObject) : Bool :=
  onArrival frustumCull camera_position frustum (fun s n => n.enabled && s.1) nc m x

/-- An object with ancestor chain `x.1` is reachable, enabled and either
reached with culling switched off or classified 2 or more. -/
def emitted {Pos Planes : Type}
    (frustumCull : SceneObject → Pos → Planes → Int → Int × Int)
    (camera_position : Pos) (frustum : Planes) (nc : Bool) (m : Int)
    (x : List SceneObject × SceneObject) : Bool :=
  onArrival frustumCull camera_position frustum
    (fun s n => n.enabled &&
      (!s.1 || decide ((frustumCull n camera_position frustum s.2).1 ≥ 2))) nc m x

/-- Every object of an ancestor chain is enabled, and so is the object itself. -/
def enabledPath (x : List SceneObject × SceneObject) : Bool :=
  x.1.all SceneObject.enabled && x.2.enabled

/-- The run after a walk over the listing `l` of a subtree: the emitted objects
appended to the output, the reachable ones to `entered`, the tested ones to
`classified`. -/
def walked {Pos Planes : Type}
    (frustumCull : SceneObject → Pos → Planes → Int → Int × Int)
    (camera_position : Pos) (frustum : Planes) (nc : Bool) (m : Int)
    (l : List (List SceneObject × SceneObject)) (run : CullRun) : CullRun :=
  run.extend
    ((l.filter (emitted frustumCull camera_position frustum nc m)).map Prod.snd)
    ((l.filter (reaches frustumCull camera_position frustum nc m)).map Prod.snd)
    ((l.filter (tested frustumCull camera_position frustum nc m)).map Prod.snd)

end Renderer

/-! ## Sample scenes and classifications -/

/-- A classification that answers `v` for every object and keeps the mask. -/
def constantCull (v : Int) : SceneObject → Unit → Unit → Int → Int × Int :=
  fun _ _ _ m => (v, m)

/-- A classification that answers by address: `table a` for the object at
address `a`, keeping the mask. -/
def cullByAddr (table : Nat → Int) : SceneObject → Unit → Unit → Int → Int × Int :=
  fun o _ _ m => (table o.addr, m)

/-- An enabled object at address 2 without children. -/
def hiddenLeaf : SceneObject := .mk 2 true []

/-- An enabled object at address 0 whose only child, at address 1, is disabled
and has the enabled child `hiddenLeaf`. -/
def sceneWithDisabledChild : SceneObject :=
  .mk 0 true [.mk 1 false [hiddenLeaf]]

/-- First child of `sceneTwoChildren`: enabled, address 1, with an enabled
child at address 3 and a disabled one at address 4. -/
def childA : SceneObject := .mk 1 true [.mk 3 true [], .mk 4 false []]

/-- Second child of `sceneTwoChildren`: enabled, address 2, with an enabled
child at address 5. -/
def childB : SceneObject := .mk 2 true [.mk 5 true []]

/-- An enabled root at address 0 with the two children `childA` and `childB`. -/
def sceneTwoChildren : SceneObject := .mk 0 true [childA, childB]

/-- Classification for `sceneTwoChildren`: the root intersects (1), `childA`
is fully inside (3), everything else is outside (0). -/
def cullTwoChildren : SceneObject → Unit → Unit → Int → Int × Int :=
  cullByAddr (fun a => if a = 0 then 1 else if a = 1 then 3 else 0)

/-! ## RunOnGlThread -/

/-- Calls that leave the reclaimer on the GL thread: the GL deletion entry
points with their arguments (a count and the array for the plural ones) and
the invocation of a runnable, identified by its address. -/
inductive GlEvent where
  | glDeleteBuffers (n : Nat) (buffers : List Nat)
  | glDeleteFramebuffers (n : Nat) (framebuffers : List Nat)
  | glDeleteProgram (program : Nat)
  | glDeleteRenderbuffers (n : Nat) (renderbuffers : List Nat)
  | glDeleteShader (shader : Nat)
  | glDeleteTextures (n : Nat) (textures : List Nat)
  | glDeleteVertexArrays (n : Nat) (arrays : List Nat)
  | runOnGlThread (runnable : Nat)
deriving DecidableEq

/-- The seven kinds of GL handle the reclaimer queues. -/
inductive ResourceKind where
  | buffer
  | framebuffer
  | program
  | renderbuffer
  | shader
  | texture
  | vertexArray
deriving DecidableEq

/-- The members of `RunOnGlThread`: seven vectors of `GLuint` handles, the
vector of runnables (by address) and the `dirty` flag. `issued` is the trace of
the calls made on the GL thread, `warnings` the function names passed to
`logInvalidParameter`. -/
structure RunOnGlThread where
  buffers_ : List Nat
  frame_buffers_ : List Nat
  programs_ : List Nat
  render_buffers_ : List Nat
  shaders_ : List Nat
  textures_ : List Nat
  vertex_arrays_ : List Nat
  runnables_ : List Nat
  dirty : Bool
  issued : List GlEvent
  warnings : List String
deriving DecidableEq

/-- `std::remove(first, last, value)` followed by `erase` of the tail: the
elements that differ from `value` are moved to the front in their order and
the rest is cut off. -/
def std_remove : List Nat → Nat → List Nat
  | [], _ => []
  | x :: rest, value =>
    if x = value then std_remove rest value else x :: std_remove rest value

namespace RunOnGlThread

/-- `RunOnGlThread::logInvalidParameter` (lines 25-28): a warning is logged. -/
def logInvalidParameter (s : RunOnGlThread) (funcName : String) : RunOnGlThread :=
  { s with warnings := s.warnings ++ [funcName] }

/-- `RunOnGlThread::queueBuffer` (lines 30-43). `GVR_INVALID` is a constant
of a header outside this file and is a parameter here. -/
def queueBuffer (s : RunOnGlThread) (GVR_INVALID buffer : Nat) : RunOnGlThread :=
  if buffer = GVR_INVALID then
    s.logInvalidParameter "queueBuffer"
  else
    { s with buffers_ := s.buffers_ ++ [buffer], dirty := true }

/-- `RunOnGlThread::queueFrameBuffer` (lines 45-59). -/
def queueFrameBuffer (s : RunOnGlThread) (GVR_INVALID buffer : Nat) : RunOnGlThread :=
  if buffer = GVR_INVALID then
    s.logInvalidParameter "queueFrameBuffer"
  else
    { s with frame_buffers_ := s.frame_buffers_ ++ [buffer], dirty := true }

/-- `RunOnGlThread::queueProgram` (lines 61-74). -/
def queueProgram (s : RunOnGlThread) (GVR_INVALID program : Nat) : RunOnGlThread :=
  if program = GVR_INVALID then
    s.logInvalidParameter "queueProgram"
  else
    { s with programs_ := s.programs_ ++ [program], dirty := true }

/-- `RunOnGlThread::queueRenderBuffer` (lines 76-90). -/
def queueRenderBuffer (s : RunOnGlThread) (GVR_INVALID buffer : Nat) : RunOnGlThread :=
  if buffer = GVR_INVALID then
    s.logInvalidParameter "queueRenderBuffer"
  else
    { s with render_buffers_ := s.render_buffers_ ++ [buffer], dirty := true }

/-- `RunOnGlThread::queueShader` (lines 92-105). -/
def queueShader (s : RunOnGlThread) (GVR_INVALID shader : Nat) : RunOnGlThread :=
  if shader = GVR_INVALID then
    s.logInvalidParameter "queueShader"
  else
    { s with shaders_ := s.shaders_ ++ [shader], dirty := true }

/-- `RunOnGlThread::queueTexture` (lines 107-120). -/
def queueTexture (s : RunOnGlThread) (GVR_INVALID texture : Nat) : RunOnGlThread :=
  if texture = GVR_INVALID then
    s.logInvalidParameter "queueTexture"
  else
    { s with textures_ := s.textures_ ++ [texture], dirty := true }

/-- `RunOnGlThread::queueVertexArray` (lines 122-136). -/
def queueVertexArray (s : RunOnGlThread) (GVR_INVALID vertex_array : Nat) :
    RunOnGlThread :=
  if vertex_array = GVR_INVALID then
    s.logInvalidParameter "queueVertexArray"
  else
    { s with vertex_arrays_ := s.vertex_arrays_ ++ [vertex_array], dirty := true }

/-- `RunOnGlThread::processQueues` (lines 138-193). The plural GL entry points
receive the size and the data of the vector, programs and shaders are deleted
one call per handle, in index order. -/
def processQueues (s : RunOnGlThread) : RunOnGlThread :=
  if s.dirty then
    let s :=
      if s.buffers_.length > 0 then
        { s with
          issued := s.issued ++ [.glDeleteBuffers s.buffers_.length s.buffers_],
          buffers_ := [] }
      else s
    let s :=
      if s.frame_buffers_.length > 0 then
        { s with
          issued := s.issued ++
            [.glDeleteFramebuffers s.frame_buffers_.length s.frame_buffers_],
          frame_buffers_ := [] }
      else s
    let s :=
      if s.programs_.length > 0 then
        { s with
          issued := s.issued ++ s.programs_.map GlEvent.glDeleteProgram,
          programs_ := [] }
      else s
    let s :=
      if s.render_buffers_.length > 0 then
        { s with
          issued := s.issued ++
            [.glDeleteRenderbuffers s.render_buffers_.length s.render_buffers_],
          render_buffers_ := [] }
      else s
    let s :=
      if s.shaders_.length > 0 then
        { s with
          issued := s.issued ++ s.shaders_.map GlEvent.glDeleteShader,
          shaders_ := [] }
      else s
    let s :=
      if s.textures_.length > 0 then
        { s with
          issued := s.issued ++ [.glDeleteTextures s.textures_.length s.textures_],
          textures_ := [] }
      else s
    let s :=
      if s.vertex_arrays_.length > 0 then
        { s with
          issued := s.issued ++
            [.glDeleteVertexArrays s.vertex_arrays_.length s.vertex_arrays_],
          vertex_arrays_ := [] }
      else s
    let s := { s with issued := s.issued ++ s.runnables_.map GlEvent.runOnGlThread }
    let s := { s with runnables_ := [] }
    { s with dirty := false }
  else s

/-- `RunOnGlThread::cancelRunnable` (lines 195-199). -/
def cancelRunnable (s : RunOnGlThread) (runnable : Nat) : RunOnGlThread :=
  { s with runnables_ := std_remove s.runnables_ runnable }

/-- `RunOnGlThread::queueRunnable` (lines 201-206). -/
def queueRunnable (s : RunOnGlThread) (runnable : Nat) : RunOnGlThread :=
  { s with runnables_ := s.runnables_ ++ [runnable], dirty := true }

/-- The queue operation of a resource kind. -/
def queue (s : RunOnGlThread) (GVR_INVALID : Nat) :
    ResourceKind → Nat → RunOnGlThread
  | .buffer, h => s.queueBuffer GVR_INVALID h
  | .framebuffer, h => s.queueFrameBuffer GVR_INVALID h
  | .program, h => s.queueProgram GVR_INVALID h
  | .renderbuffer, h => s.queueRenderBuffer GVR_INVALID h
  | .shader, h => s.queueShader GVR_INVALID h
  | .texture, h => s.queueTexture GVR_INVALID h
  | .vertexArray, h => s.queueVertexArray GVR_INVALID h

/-- The vector that holds the queued handles of a resource kind. -/
def pending (s : RunOnGlThread) : ResourceKind → List Nat
  | .buffer => s.buffers_
  | .framebuffer => s.frame_buffers_
  | .program => s.programs_
  | .renderbuffer => s.render_buffers_
  | .shader => s.shaders_
  | .texture => s.textures_
  | .vertexArray => s.vertex_arrays_

/-- Queue the handles `hs`, one call of the queue operation of kind `k` each,
in order. -/
def queueAll (s : RunOnGlThread) (GVR_INVALID : Nat) (k : ResourceKind)
    (hs : List Nat) : RunOnGlThread :=
  hs.foldl (fun st h => st.queue GVR_INVALID k h) s

/-- A reclaimer with nothing queued and nothing issued. -/
def fresh (dirty : Bool) : RunOnGlThread :=
  ⟨[], [], [], [], [], [], [], [], dirty, [], []⟩

end RunOnGlThread

namespace GlEvent

/-- The handles of kind `k` that a call of the reclaimer deletes: the first `n`
entries of the array for the plural entry points, the argument for the singular
ones. Running a runnable is no deletion by the reclaimer itself. -/
def deletes : GlEvent → ResourceKind → List Nat
  | glDeleteBuffers n l, .buffer => l.take n
  | glDeleteFramebuffers n l, .framebuffer => l.take n
  | glDeleteProgram h, .program => [h]
  | glDeleteRenderbuffers n l, .renderbuffer => l.take n
  | glDeleteShader h, .shader => [h]
  | glDeleteTextures n l, .texture => l.take n
  | glDeleteVertexArrays n l, .vertexArray => l.take n
  | _, _ => []

/-- The call is the deletion entry point of kind `k`. -/
def isDeletionOf : GlEvent → ResourceKind → Bool
  | glDeleteBuffers _ _, .buffer => true
  | glDeleteFramebuffers _ _, .framebuffer => true
  | glDeleteProgram _, .program => true
  | glDeleteRenderbuffers _ _, .renderbuffer => true
  | glDeleteShader _, .shader => true
  | glDeleteTextures _ _, .texture => true
  | glDeleteVertexArrays _ _, .vertexArray => true
  | _, _ => false

end GlEvent

/-- The calls of one plural deletion entry point for a vector. -/
def bulk (call : Nat → List Nat → GlEvent) (l : List Nat) : List GlEvent :=
  if l.length > 0 then [call l.length l] else []

/-- The calls that one flush issues, in order. -/
def flushCalls (s : RunOnGlThread) : List GlEvent :=
  bulk GlEvent.glDeleteBuffers s.buffers_ ++
    bulk GlEvent.glDeleteFramebuffers s.frame_buffers_ ++
    s.programs_.map GlEvent.glDeleteProgram ++
    bulk GlEvent.glDeleteRenderbuffers s.render_buffers_ ++
    s.shaders_.map GlEvent.glDeleteShader ++
    bulk GlEvent.glDeleteTextures s.textures_ ++
    bulk GlEvent.glDeleteVertexArrays s.vertex_arrays_ ++
    s.runnables_.map GlEvent.runOnGlThread

/-! ## RunOnGlThread::getInstance -/

/-- The null pointer. -/
def nullptr : Nat := 0

/-- `RunOnGlThread::getInstance` (lines 212-220). `tls thread` is the value of
`pthread_getspecific(deleter_key)` on the calling thread, a pointer. The result
is the returned pointer, or the message logged before `std::terminate()` ends
the process. -/
def RunOnGlThread.getInstance (tls : Nat → Nat) (thread : Nat) : Except String Nat :=
  if nullptr = tls thread then
    .error "fatal error: no deleter associated with this thread!"
  else
    .ok (tls thread)

/-! ## Renderer::build_frustum -/

/-- One row `frustum[i]` of the frustum array: the coefficients A, B, C, D. -/
structure Plane (K : Type) where
  a : K
  b : K
  c : K
  d : K
deriving DecidableEq

namespace Renderer

/-- The four assignments that extract one plane from `vp_matrix`, for each of
the six planes in the order of the source: right, left, bottom, top, far, near
(lines 438-441, 453-456, 468-471, 483-486, 498-501, 513-516). -/
def extract_planes {K : Type} [Add K] [Sub K] (vp_matrix : Nat → K) : List (Plane K) :=
  [ ⟨vp_matrix 3 - vp_matrix 0, vp_matrix 7 - vp_matrix 4,
      vp_matrix 11 - vp_matrix 8, vp_matrix 15 - vp_matrix 12⟩,
    ⟨vp_matrix 3 + vp_matrix 0, vp_matrix 7 + vp_matrix 4,
      vp_matrix 11 + vp_matrix 8, vp_matrix 15 + vp_matrix 12⟩,
    ⟨vp_matrix 3 + vp_matrix 1, vp_matrix 7 + vp_matrix 5,
      vp_matrix 11 + vp_matrix 9, vp_matrix 15 + vp_matrix 13⟩,
    ⟨vp_matrix 3 - vp_matrix 1, vp_matrix 7 - vp_matrix 5,
      vp_matrix 11 - vp_matrix 9, vp_matrix 15 - vp_matrix 13⟩,
    ⟨vp_matrix 3 - vp_matrix 2, vp_matrix 7 - vp_matrix 6,
      vp_matrix 11 - vp_matrix 10, vp_matrix 15 - vp_matrix 14⟩,
    ⟨vp_matrix 3 + vp_matrix 2, vp_matrix 7 + vp_matrix 6,
      vp_matrix 11 + vp_matrix 10, vp_matrix 15 + vp_matrix 14⟩ ]

/-- The divisor `t` of one plane: `sqrt(A * A + B * B + C * C)`. -/
def plane_norm {K : Type} [Add K] [Mul K] (sqrt : K → K) (p : Plane K) : K :=
  sqrt (p.a * p.a + p.b * p.b + p.c * p.c)

/-- The block "Normalize the result" that follows each extraction: `t` is
computed from the extracted A, B, C and all four coefficients are divided by
it. No test on `t` precedes the divisions. -/
def normalize_plane {K : Type} [Add K] [Mul K] [Div K] (sqrt : K → K)
    (p : Plane K) : Plane K :=
  ⟨p.a / plane_norm sqrt p, p.b / plane_norm sqrt p, p.c / plane_norm sqrt p,
    p.d / plane_norm sqrt p⟩

/-- `Renderer::build_frustum` (lines 434-526) over a field `K` in place of
`float`, with the square root as a parameter: the six rows of `frustum`. -/
def build_frustum {K : Type} [Add K] [Sub K] [Mul K] [Div K] (sqrt : K → K)
    (vp_matrix : Nat → K) : List (Plane K) :=
  (extract_planes vp_matrix).map (normalize_plane sqrt)

/-- The 4x4 identity matrix as 16 consecutive entries. -/
def identity_matrix {K : Type} [Zero K] [One K] (i : Nat) : K :=
  if i = 0 ∨ i = 5 ∨ i = 10 ∨ i = 15 then 1 else 0

/-- The planes of the clip cube, in the order right, left, bottom, top, far, near. -/
def clip_cube_planes {K : Type} [Zero K] [One K] [Neg K] : List (Plane K) :=
  [⟨-1, 0, 0, 1⟩, ⟨1, 0, 0, 1⟩, ⟨0, 1, 0, 1⟩, ⟨0, -1, 0, 1⟩, ⟨0, 0, -1, 1⟩, ⟨0, 0, 1, 1⟩]

end Renderer

/-! ## Materials, meshes and render data -/

/-- A `Mesh` as the renderer reads it. -/
structure Mesh where
  addr : Nat
  getNumTriangles : Int
  indices_size : Nat
  vertices_size : Nat
  getVAOId : Nat
deriving DecidableEq

/-- A `Material` as the renderer reads it: the shader type tag, the value of
`isMainTextureReady()`, the shader feature set, and the uniform `line_width`
when `hasUniform("line_width")` holds. -/
structure Material where
  addr : Nat
  shader_type : Int
  isMainTextureReady : Bool
  get_shader_feature_set : Int
  line_width : Option ℚ
deriving DecidableEq

/-- A `RenderPass` as the renderer reads it. -/
structure RenderPass where
  cull_face : Int
  material : Option Material
deriving DecidableEq

/-- A `RenderData` as the renderer reads it, one field per accessor that
renderer.cpp calls. `material0` is the value of `material(0)`, `passes` holds
`pass(0)` to `pass(pass_count() - 1)`, `owner_transform` is the value of
`owner_object()->transform()`; `none` stands for a null pointer. The `float`
accessors are rationals. -/
structure RenderData where
  addr : Nat
  material0 : Option Material
  passes : List RenderPass
  enabled : Bool
  mesh : Option Mesh
  render_mask : Int
  rendering_order : Int
  camera_distance : ℚ
  offset : Bool
  offset_factor : ℚ
  offset_units : ℚ
  depth_test : Bool
  alpha_blend : Bool
  alpha_to_coverage : Bool
  sample_coverage : ℚ
  invert_coverage_mask : Bool
  cull_face : Int
  draw_mode : Nat
  owner_transform : Option Nat
  owner_name : String
deriving DecidableEq

/-- The shader type of the first pass material, the value logged by
`state_sort` as `material(0)->shader_type()`; 0 stands in when there is no such
material, which `addRenderData` keeps out of the batch list. -/
def RenderData.shader_type0 (r : RenderData) : Int :=
  match r.material0 with
  | some m => m.shader_type
  | none => 0

/-! ## addRenderData and Renderer::occlusion_cull -/

/-- `addRenderData` (lines 326-341) on the static `render_data_vector`. -/
def addRenderData (render_data : Option RenderData)
    (render_data_vector : List RenderData) : List RenderData :=
  match render_data with
  | none => render_data_vector
  | some rd =>
    if rd.material0.isNone || !rd.enabled then render_data_vector
    else if rd.mesh.isNone then render_data_vector
    else if rd.render_mask = 0 then render_data_vector
    else render_data_vector ++ [rd]

/-- The test that `addRenderData` applies before it appends. -/
def RenderData.accepted (rd : RenderData) : Bool :=
  rd.material0.isSome && rd.enabled && rd.mesh.isSome && decide (rd.render_mask ≠ 0)

/-- The filter that the specification gives for the batch list: material,
mesh and enabled flag, nothing else. -/
def RenderData.acceptedBySpec (rd : RenderData) : Bool :=
  rd.material0.isSome && rd.mesh.isSome && rd.enabled

/-- A `SceneObject` as the occlusion culler reads and writes it: its address,
the value of `render_data()`, the flags behind `is_query_issued()` /
`set_query_issued()` and `set_visible()`, and the query name
`get_occlusion_array()[0]`. -/
structure OcclusionObject where
  addr : Nat
  render_data : Option RenderData
  query_issued : Bool
  visible : Bool
  query : Nat
deriving DecidableEq

/-- Calls of `occlusion_cull` that leave the function: the scene hooks and
the GL entry points, with the arguments that matter. -/
inductive OcclusionEvent where
  | lockColliders
  | clearVisibleColliders
  | unlockColliders
  | pick (scene_object : Nat)
  | createBoundingBox (scene_object : Nat)
  | glDepthFunc_LEQUAL
  | glEnable_DEPTH_TEST
  | glColorMask (write : Bool)
  | glBeginQuery (query : Nat)
  | boundingBoxShaderRender (scene_object : Nat)
  | glEndQuery
  | deleteBoundingBox (scene_object : Nat)
  | glGetQueryObjectuiv_AVAILABLE (query : Nat)
  | glGetQueryObjectuiv_RESULT (query : Nat)
deriving DecidableEq

/-- The state that one pass of `occlusion_cull` works on: the static batch
list, the scene objects of the candidate list (in order, with their flags) that
the loop has passed, and the trace of calls. -/
structure OcclusionPass where
  render_data_vector : List RenderData
  objects : List OcclusionObject
  trace : List OcclusionEvent
deriving DecidableEq

/-- The answers of the GL to `glGetQueryObjectuiv`, by query name: the value
stored for `GL_QUERY_RESULT_AVAILABLE` and the one for `GL_QUERY_RESULT`. -/
structure QueryResults where
  available : Nat → Nat
  result : Nat → Nat

/-- The value of `GL_TRUE`. -/
def GL_TRUE : Nat := 1

namespace Renderer

/-- The block of lines 379-413, guarded by `if (!is_query_issued)`: an
occlusion query that draws the bounding box with colour writes off, after
which the object is marked as having a query in flight. -/
def issue_query (o : OcclusionObject) (trace : List OcclusionEvent) :
    OcclusionObject × List OcclusionEvent :=
  ({ o with query_issued := true },
    trace ++ [.createBoundingBox o.addr, .glDepthFunc_LEQUAL, .glEnable_DEPTH_TEST,
      .glColorMask false, .glBeginQuery o.query, .boundingBoxShaderRender o.addr,
      .glEndQuery, .glColorMask true, .deleteBoundingBox o.addr])

/-- The body of the second loop of `occlusion_cull` (lines 360-430), for one
scene object, with occlusion culling on. -/
def occlusion_cull_object (gl : QueryResults) (scene_object : OcclusionObject)
    (p : OcclusionPass) : OcclusionPass :=
  match scene_object.render_data with
  | none => { p with objects := p.objects ++ [scene_object] }
  | some render_data =>
    if render_data.material0.isNone then
      { p with objects := p.objects ++ [scene_object] }
    else if !scene_object.query_issued then
      { p with objects := p.objects ++ [scene_object] }
    else
      let is_query_issued := scene_object.query_issued
      let issued :=
        if !is_query_issued then issue_query scene_object p.trace
        else (scene_object, p.trace)
      let scene_object := issued.1
      let trace := issued.2 ++ [.glGetQueryObjectuiv_AVAILABLE scene_object.query]
      let query_result := gl.available scene_object.query
      if query_result ≠ 0 then
        let trace := trace ++ [.glGetQueryObjectuiv_RESULT scene_object.query]
        let pixel_count := gl.result scene_object.query
        let visibility := decide (pixel_count &&& GL_TRUE = GL_TRUE)
        let scene_object := { scene_object with visible := visibility }
        let scene_object := { scene_object with query_issued := false }
        { render_data_vector := addRenderData scene_object.render_data p.render_data_vector,
          objects := p.objects ++ [scene_object],
          trace := trace ++ [.pick scene_object.addr] }
      else
        { p with objects := p.objects ++ [scene_object], trace := trace }

/-- `Renderer::occlusion_cull` (lines 343-432). `get_occlusion_culling` is the
value of `scene->get_occlusion_culling()`. -/
def occlusion_cull (get_occlusion_culling : Bool) (gl : QueryResults)
    (scene_objects : List OcclusionObject) (render_data_vector : List RenderData) :
    OcclusionPass :=
  let p : OcclusionPass :=
    ⟨render_data_vector, [], [.lockColliders, .clearVisibleColliders]⟩
  let do_culling := get_occlusion_culling
  if !do_culling then
    let p := scene_objects.foldl
      (fun p scene_object =>
        { render_data_vector := addRenderData scene_object.render_data p.render_data_vector,
          objects := p.objects ++ [scene_object],
          trace := p.trace ++ [.pick scene_object.addr] }) p
    { p with trace := p.trace ++ [.unlockColliders] }
  else
    let p := scene_objects.foldl (fun p scene_object =>
      occlusion_cull_object gl scene_object p) p
    { p with trace := p.trace ++ [.unlockColliders] }

end Renderer

/-! ## Sample render data -/

/-- A material of shader type 7 whose main texture is ready. -/
def sampleMaterial : Material := ⟨500, 7, true, 0, none⟩

/-- A mesh with two triangles. -/
def sampleMesh : Mesh := ⟨600, 2, 6, 4, 9⟩

/-- An enabled render data at address `addr` with `sampleMaterial`,
`sampleMesh`, the given render mask, rendering order and camera distance. -/
def sampleRenderData (addr : Nat) (render_mask : Int) (order : Int) (dist : ℚ) :
    RenderData :=
  { addr := addr, material0 := some sampleMaterial,
    passes := [⟨0, some sampleMaterial⟩], enabled := true, mesh := some sampleMesh,
    render_mask := render_mask, rendering_order := order, camera_distance := dist,
    offset := false, offset_factor := 0, offset_units := 0, depth_test := true,
    alpha_blend := true, alpha_to_coverage := false, sample_coverage := 1,
    invert_coverage_mask := false, cull_face := 0, draw_mode := 4,
    owner_transform := some 700, owner_name := "node" }

/-- A GL in which the result of every query is available and reports that no
sample passed. -/
def noSamplesPassed : QueryResults := ⟨fun _ => 1, fun _ => 0⟩

/-! ## Renderer::state_sort -/

/-- Modelled from the spec: `compareRenderDataByOrderShaderDistance`, the
comparison that `state_sort` hands to `std::sort`, is declared outside
renderer.cpp. Following section 4.4 and the comment in `state_sort` it is
"less than" on the composite key: rendering order first, shader type second,
camera distance last. -/
def compareRenderDataByOrderShaderDistance (i j : RenderData) : Bool :=
  if i.rendering_order = j.rendering_order then
    if i.shader_type0 = j.shader_type0 then
      decide (i.camera_distance < j.camera_distance)
    else decide (i.shader_type0 < j.shader_type0)
  else decide (i.rendering_order < j.rendering_order)

/-- The composite key of a batch in the lexicographic order on triples. -/
def RenderData.sortKey (r : RenderData) : Lex (Int × Lex (Int × ℚ)) :=
  toLex (r.rendering_order, toLex (r.shader_type0, r.camera_distance))

/-- `std::sort(first, last, comp)` as the C++ standard specifies it: the range
is rearranged (a permutation of the input) so that no later element compares
less than an earlier one. The standard leaves the order of equivalent elements
open, so this is a relation between input and output, not a function. -/
def std_sort {α : Type} (comp : α → α → Bool) (input output : List α) : Prop :=
  output.Perm input ∧ output.Pairwise (fun a b => comp b a = false)

instance {α : Type} [DecidableEq α] (comp : α → α → Bool) (input output : List α) :
    Decidable (std_sort comp input output) :=
  inferInstanceAs (Decidable (_ ∧ _))

/-- `Renderer::state_sort` (lines 100-123) on the static `render_data_vector`:
`result` is a content of the vector after the call. The logging under
`DEBUG_RENDERER` changes nothing. -/
def Renderer.state_sort (render_data_vector result : List RenderData) : Prop :=
  std_sort compareRenderDataByOrderShaderDistance render_data_vector result

instance (render_data_vector result : List RenderData) :
    Decidable (Renderer.state_sort render_data_vector result) :=
  inferInstanceAs (Decidable (std_sort _ _ _))

/-! ## The per-batch render step -/

/-- The enumerators of `Material::ShaderType`, the feature bit
`AS_DIFFUSE_TEXTURE` and the macro `ISSET` that renderer.cpp uses; they are
declared in headers outside this file and are parameters here. -/
structure MaterialDecls where
  UNLIT_HORIZONTAL_STEREO_SHADER : Int
  UNLIT_VERTICAL_STEREO_SHADER : Int
  OES_SHADER : Int
  OES_HORIZONTAL_STEREO_SHADER : Int
  OES_VERTICAL_STEREO_SHADER : Int
  CUBEMAP_SHADER : Int
  CUBEMAP_REFLECTION_SHADER : Int
  TEXTURE_SHADER : Int
  EXTERNAL_RENDERER_SHADER : Int
  ASSIMP_SHADER : Int
  LIGHTMAP_SHADER : Int
  UNLIT_FBO_SHADER : Int
  BUILTIN_SHADER_SIZE : Int
  BEING_GENERATED : Int
  AS_DIFFUSE_TEXTURE : Int
  ISSET : Int → Int → Bool

/-- The enumerators of `RenderData` that renderer.cpp uses, parameters for the
same reason. -/
structure RenderDataDecls where
  CullBack : Int
  CullFront : Int
  CullNone : Int
  RenderMaskBit_Right : Int

/-- Capabilities passed to `glEnable` and `glDisable` by the render step. -/
inductive GlCap where
  | GL_DEPTH_TEST
  | GL_CULL_FACE
  | GL_BLEND
  | GL_POLYGON_OFFSET_FILL
  | GL_SAMPLE_ALPHA_TO_COVERAGE
deriving DecidableEq

/-- Faces passed to `glCullFace`. -/
inductive GlFace where
  | GL_FRONT
  | GL_BACK
deriving DecidableEq

/-- The value of `GL_LINES`. -/
def GL_LINES : Nat := 1

/-- The value of `GL_LINE_LOOP`. -/
def GL_LINE_LOOP : Nat := 2

/-- The value of `GL_LINE_STRIP`. -/
def GL_LINE_STRIP : Nat := 3

/-- What the render step does outside its own state: graphics-state changes,
the dispatch of a shader (`shader->render`), draw calls and error logs. -/
inductive RenderEvent where
  | glEnable (cap : GlCap)
  | glDisable (cap : GlCap)
  | glPolygonOffset (factor units : ℚ)
  | glSampleCoverage (value : ℚ) (invert : Bool)
  | glCullFace (face : GlFace)
  | glLineWidth (width : ℚ)
  | generateVAO (mesh : Nat)
  | LOGE (message : String)
  | shaderRender (shader render_data material : Nat)
  | glBindVertexArray (array : Nat)
  | glDrawElements (mode count : Nat)
  | glDrawArrays (mode first count : Nat)
  | checkGlError
deriving DecidableEq

/-- The call dispatches a shader. -/
def RenderEvent.isDispatch : RenderEvent → Bool
  | shaderRender _ _ _ => true
  | _ => false

/-- The call is a draw call. -/
def RenderEvent.isDraw : RenderEvent → Bool
  | glDrawElements _ _ => true
  | glDrawArrays _ _ _ => true
  | _ => false

/-- What an exception carries: a `std::string`, the only type the renderer
catches, or anything else. -/
inductive Thrown where
  | string (error : String)
  | other
deriving DecidableEq

/-- The uniforms of `RenderState` as far as the control flow shows them: the
transform from whose model matrix `u_model`, `u_mv`, `u_mv_it` and `u_mvp`
were last computed, whether `u_view_inv` was computed, and `u_right`. The
matrix arithmetic itself is left out. -/
structure Uniforms where
  u_model_from : Option Nat
  u_view_inv_computed : Bool
  u_right : Int
deriving DecidableEq

/-- The fields of `RenderState` that the render step reads or writes. The
shader manager, which is only read, is passed next to it. -/
structure RenderState where
  render_mask : Int
  material_override : Option Material
  uniforms : Uniforms
deriving DecidableEq

/-- Everything the render step can change: the `RenderState`, the two static
counters and the trace of calls. -/
structure Frame where
  rstate : RenderState
  numberDrawCalls : Int
  numberTriangles : Int
  trace : List RenderEvent
deriving DecidableEq

/-- Append one call to the trace. -/
def Frame.emit (f : Frame) (e : RenderEvent) : Frame :=
  { f with trace := f.trace ++ [e] }

/-- How a function of the render step ends: it returns, an exception leaves
it, or it dereferences a null pointer. -/
inductive Result where
  | done (f : Frame)
  | thrown (e : Thrown) (f : Frame)
  | fault (f : Frame)
deriving DecidableEq

/-- The shader manager: the shader (by address, `none` for `NULL`) that each
accessor returns, and for each shader what its `render` does when called with
a render data and a material: return (`none`) or throw. -/
structure ShaderManager where
  getUnlitHorizontalStereoShader : Option Nat
  getUnlitVerticalStereoShader : Option Nat
  getOESShader : Option Nat
  getOESHorizontalStereoShader : Option Nat
  getOESVerticalStereoShader : Option Nat
  getCubemapShader : Option Nat
  getCubemapReflectionShader : Option Nat
  getTextureShader : Option Nat
  getExternalRendererShader : Option Nat
  getAssimpShader : Option Nat
  getLightMapShader : Option Nat
  getUnlitFboShader : Option Nat
  getCustomShader : Int → Option Nat
  getErrorShader : Nat
  render : Nat → RenderData → Material → Option Thrown

/-- The case labels of the `switch` in `renderMaterialShader`. -/
inductive ShaderCase where
  | unlitHorizontalStereo
  | unlitVerticalStereo
  | oes
  | oesHorizontalStereo
  | oesVerticalStereo
  | cubemap
  | cubemapReflection
  | texture
  | externalRenderer
  | assimp
  | lightmap
  | unlitFbo
  | custom
deriving DecidableEq

namespace Renderer

/-- `Renderer::checkTextureReady` (lines 776-797). -/
def checkTextureReady (M : MaterialDecls) (material : Material) : Bool :=
  let shaderType := material.shader_type
  if shaderType < 0 ∨ shaderType ≥ M.BUILTIN_SHADER_SIZE then
    true
  else if shaderType ≠ M.ASSIMP_SHADER then
    material.isMainTextureReady
  else if M.ISSET material.get_shader_feature_set M.AS_DIFFUSE_TEXTURE then
    material.isMainTextureReady
  else
    true

/-- `Renderer::set_face_culling` (lines 833-850). -/
def set_face_culling (R : RenderDataDecls) (cull_face : Int) (f : Frame) : Frame :=
  if cull_face = R.CullFront then
    (f.emit (.glEnable .GL_CULL_FACE)).emit (.glCullFace .GL_FRONT)
  else if cull_face = R.CullNone then
    f.emit (.glDisable .GL_CULL_FACE)
  else
    (f.emit (.glEnable .GL_CULL_FACE)).emit (.glCullFace .GL_BACK)

/-- The label that the `switch` on the shader type selects (lines 698-739). -/
def shaderCase (M : MaterialDecls) (shader_type : Int) : ShaderCase :=
  if shader_type = M.UNLIT_HORIZONTAL_STEREO_SHADER then .unlitHorizontalStereo
  else if shader_type = M.UNLIT_VERTICAL_STEREO_SHADER then .unlitVerticalStereo
  else if shader_type = M.OES_SHADER then .oes
  else if shader_type = M.OES_HORIZONTAL_STEREO_SHADER then .oesHorizontalStereo
  else if shader_type = M.OES_VERTICAL_STEREO_SHADER then .oesVerticalStereo
  else if shader_type = M.CUBEMAP_SHADER then .cubemap
  else if shader_type = M.CUBEMAP_REFLECTION_SHADER then .cubemapReflection
  else if shader_type = M.TEXTURE_SHADER then .texture
  else if shader_type = M.EXTERNAL_RENDERER_SHADER then .externalRenderer
  else if shader_type = M.ASSIMP_SHADER then .assimp
  else if shader_type = M.LIGHTMAP_SHADER then .lightmap
  else if shader_type = M.UNLIT_FBO_SHADER then .unlitFbo
  else .custom

/-- The shader that the selected case assigns. -/
def selectShader (sm : ShaderManager) (shader_type : Int) : ShaderCase → Option Nat
  | .unlitHorizontalStereo => sm.getUnlitHorizontalStereoShader
  | .unlitVerticalStereo => sm.getUnlitVerticalStereoShader
  | .oes => sm.getOESShader
  | .oesHorizontalStereo => sm.getOESHorizontalStereoShader
  | .oesVerticalStereo => sm.getOESVerticalStereoShader
  | .cubemap => sm.getCubemapShader
  | .cubemapReflection => sm.getCubemapReflectionShader
  | .texture => sm.getTextureShader
  | .externalRenderer => sm.getExternalRendererShader
  | .assimp => sm.getAssimpShader
  | .lightmap => sm.getLightMapShader
  | .unlitFbo => sm.getUnlitFboShader
  | .custom => sm.getCustomShader shader_type

/-- The end of `renderMaterialShader` after the `try` block (lines 764-772):
the draw call between the two `glBindVertexArray`. -/
def drawMesh (render_data : RenderData) (mesh : Mesh) (f : Frame) : Frame :=
  let f := f.emit (.glBindVertexArray mesh.getVAOId)
  let f :=
    if mesh.indices_size > 0 then
      f.emit (.glDrawElements render_data.draw_mode mesh.indices_size)
    else
      f.emit (.glDrawArrays render_data.draw_mode 0 mesh.vertices_size)
  let f := f.emit (.glBindVertexArray 0)
  f.emit .checkGlError

/-- The `catch` block of `renderMaterialShader` (lines 757-763) followed by
the draw: the error is logged and the error shader renders; an exception of
the error shader leaves the function. -/
def catchAndDraw (sm : ShaderManager) (render_data : RenderData)
    (curr_material : Material) (mesh : Mesh) (error : String) (f : Frame) : Result :=
  let f := f.emit (.LOGE ("Error detected in Renderer::renderRenderData; name : " ++
    render_data.owner_name ++ ", error : " ++ error))
  let f := f.emit (.shaderRender sm.getErrorShader render_data.addr curr_material.addr)
  match sm.render sm.getErrorShader render_data curr_material with
  | none => .done (drawMesh render_data mesh f)
  | some e => .thrown e f

/-- `Renderer::renderMaterialShader` (lines 670-774). -/
def renderMaterialShader (M : MaterialDecls) (R : RenderDataDecls)
    (sm : ShaderManager) (render_data : RenderData) (curr_material : Material)
    (f : Frame) : Result :=
  if M.BEING_GENERATED = curr_material.shader_type then
    .done f
  else if !checkTextureReady M curr_material then
    .done f
  else
    match render_data.owner_transform with
    | none => .done f
    | some t =>
      let f := { f with rstate := { f.rstate with uniforms :=
        { f.rstate.uniforms with
          u_model_from := some t,
          u_right := Int.land f.rstate.render_mask R.RenderMaskBit_Right } } }
      match render_data.mesh with
      | none => .fault f
      | some mesh =>
        let f := f.emit (.generateVAO mesh.addr)
        let curr_material :=
          match f.rstate.material_override with
          | some m => m
          | none => curr_material
        let label := shaderCase M curr_material.shader_type
        let f :=
          if label = .cubemapReflection then
            { f with rstate := { f.rstate with uniforms :=
              { f.rstate.uniforms with u_view_inv_computed := true } } }
          else f
        match selectShader sm curr_material.shader_type label with
        | none =>
          let f := f.emit
            (.LOGE "Rendering error: GVRRenderData shader cannot be determined")
          let f := f.emit
            (.shaderRender sm.getErrorShader render_data.addr curr_material.addr)
          match sm.render sm.getErrorShader render_data curr_material with
          | none => .done f
          | some (.string error) =>
            catchAndDraw sm render_data curr_material mesh error f
          | some e => .thrown e f
        | some shader =>
          let f :=
            if render_data.draw_mode = GL_LINE_STRIP ∨ render_data.draw_mode = GL_LINES ∨
                render_data.draw_mode = GL_LINE_LOOP then
              match curr_material.line_width with
              | some lineWidth => f.emit (.glLineWidth lineWidth)
              | none => f.emit (.glLineWidth 1)
            else f
          let f := f.emit (.shaderRender shader render_data.addr curr_material.addr)
          match sm.render shader render_data curr_material with
          | none => .done (drawMesh render_data mesh f)
          | some (.string error) =>
            catchAndDraw sm render_data curr_material mesh error f
          | some e => .thrown e f

/-- `Renderer::renderMesh` (lines 652-668): the loop over the passes
`pass(curr_pass)`, from the pass `curr_pass` on. -/
def renderMesh (M : MaterialDecls) (R : RenderDataDecls) (sm : ShaderManager)
    (render_data : RenderData) : List RenderPass → Frame → Result
  | [], f => .done f
  | pass :: rest, f =>
    match render_data.mesh with
    | none => .fault f
    | some mesh =>
      let f := { f with
        numberTriangles := f.numberTriangles + mesh.getNumTriangles,
        numberDrawCalls := f.numberDrawCalls + 1 }
      let f := set_face_culling R pass.cull_face f
      let curr_material :=
        match f.rstate.material_override with
        | some m => some m
        | none => pass.material
      match curr_material with
      | none => renderMesh M R sm render_data rest f
      | some m =>
        match renderMaterialShader M R sm render_data m f with
        | .done f => renderMesh M R sm render_data rest f
        | r => r

/-- The second half of `renderRenderData`, "Restoring to Default" (lines
630-649). -/
def restoreDefaults (R : RenderDataDecls) (render_data : RenderData) (f : Frame) :
    Frame :=
  let f :=
    if render_data.cull_face ≠ R.CullBack then
      (f.emit (.glEnable .GL_CULL_FACE)).emit (.glCullFace .GL_BACK)
    else f
  let f := if render_data.offset then f.emit (.glDisable .GL_POLYGON_OFFSET_FILL) else f
  let f := if !render_data.depth_test then f.emit (.glEnable .GL_DEPTH_TEST) else f
  let f := if !render_data.alpha_blend then f.emit (.glEnable .GL_BLEND) else f
  if render_data.alpha_to_coverage then
    f.emit (.glDisable .GL_SAMPLE_ALPHA_TO_COVERAGE)
  else f

/-- `Renderer::renderRenderData` (lines 608-650). -/
def renderRenderData (M : MaterialDecls) (R : RenderDataDecls) (sm : ShaderManager)
    (render_data : RenderData) (f : Frame) : Result :=
  if Int.land f.rstate.render_mask render_data.render_mask = 0 then
    .done f
  else
    let f :=
      if render_data.offset then
        (f.emit (.glEnable .GL_POLYGON_OFFSET_FILL)).emit
          (.glPolygonOffset render_data.offset_factor render_data.offset_units)
      else f
    let f := if !render_data.depth_test then f.emit (.glDisable .GL_DEPTH_TEST) else f
    let f := if !render_data.alpha_blend then f.emit (.glDisable .GL_BLEND) else f
    let f :=
      if render_data.alpha_to_coverage then
        (f.emit (.glEnable .GL_SAMPLE_ALPHA_TO_COVERAGE)).emit
          (.glSampleCoverage render_data.sample_coverage
            render_data.invert_coverage_mask)
      else f
    let r :=
      match render_data.mesh with
      | some _ => renderMesh M R sm render_data render_data.passes f
      | none => .done f
    match r with
    | .done f => .done (restoreDefaults R render_data f)
    | r => r

end Renderer

/-! ## Sample declarations for the render step -/

/-- Shader type enumerators numbered from 0 in the order of the `switch`, 12
built-in types, `BEING_GENERATED` = -1, feature bits tested by `&`. -/
def sampleMaterialDecls : MaterialDecls :=
  { UNLIT_HORIZONTAL_STEREO_SHADER := 0, UNLIT_VERTICAL_STEREO_SHADER := 1,
    OES_SHADER := 2, OES_HORIZONTAL_STEREO_SHADER := 3,
    OES_VERTICAL_STEREO_SHADER := 4, CUBEMAP_SHADER := 5,
    CUBEMAP_REFLECTION_SHADER := 6, TEXTURE_SHADER := 7,
    EXTERNAL_RENDERER_SHADER := 8, ASSIMP_SHADER := 9, LIGHTMAP_SHADER := 10,
    UNLIT_FBO_SHADER := 11, BUILTIN_SHADER_SIZE := 12, BEING_GENERATED := -1,
    AS_DIFFUSE_TEXTURE := 1,
    ISSET := fun features bit => decide (Int.land features bit ≠ 0) }

/-- Cull face enumerators 0, 1, 2 and the right-eye mask bit 2. -/
def sampleRenderDataDecls : RenderDataDecls :=
  { CullBack := 0, CullFront := 1, CullNone := 2, RenderMaskBit_Right := 2 }

/-- A shader manager whose accessors all return a shader and whose shaders
all render without throwing. -/
def sampleShaderManager : ShaderManager :=
  { getUnlitHorizontalStereoShader := some 100,
    getUnlitVerticalStereoShader := some 101, getOESShader := some 102,
    getOESHorizontalStereoShader := some 103,
    getOESVerticalStereoShader := some 104, getCubemapShader := some 105,
    getCubemapReflectionShader := some 106, getTextureShader := some 107,
    getExternalRendererShader := some 108, getAssimpShader := some 109,
    getLightMapShader := some 110, getUnlitFboShader := some 111,
    getCustomShader := fun _ => some 112, getErrorShader := 199,
    render := fun _ _ _ => none }

/-- A frame for a camera with the given render mask, counters 3 and 8. -/
def sampleFrame (render_mask : Int) : Frame :=
  { rstate := ⟨render_mask, none, ⟨none, false, 0⟩⟩, numberDrawCalls := 3,
    numberTriangles := 8, trace := [] }

/-- A material of built-in shader type 7 whose main texture is not ready. -/
def unreadyMaterial : Material := ⟨501, 7, false, 0, none⟩

/-! ## Sequences of reclaimer operations -/

/-- One call on a `RunOnGlThread`: a queue operation of some kind with a
handle, `queueRunnable`, `cancelRunnable` or `processQueues`. -/
inductive ReclaimerOp where
  | queue (k : ResourceKind) (handle : Nat)
  | queueRunnable (runnable : Nat)
  | cancelRunnable (runnable : Nat)
  | processQueues
deriving DecidableEq

/-- The effect of one call. -/
def RunOnGlThread.step (GVR_INVALID : Nat) (s : RunOnGlThread) :
    ReclaimerOp → RunOnGlThread
  | .queue k handle => s.queue GVR_INVALID k handle
  | .queueRunnable runnable => s.queueRunnable runnable
  | .cancelRunnable runnable => s.cancelRunnable runnable
  | .processQueues => s.processQueues

/-- The effect of a sequence of calls, one after the other. -/
def RunOnGlThread.runOps (GVR_INVALID : Nat) (s : RunOnGlThread)
    (ops : List ReclaimerOp) : RunOnGlThread :=
  ops.foldl (RunOnGlThread.step GVR_INVALID) s

/-- When `dirty` is false nothing is queued. -/
def RunOnGlThread.CleanIsEmpty (s : RunOnGlThread) : Prop :=
  s.dirty = false → (∀ k, s.pending k = []) ∧ s.runnables_ = []

/-! ## GL enable flags along a trace -/

/-- The enable flags of the GL that the render step switches. -/
structure EnableFlags where
  depth_test : Bool
  cull_face : Bool
  blend : Bool
  polygon_offset_fill : Bool
  sample_alpha_to_coverage : Bool
deriving DecidableEq

namespace EnableFlags

/-- Set the flag of one capability. -/
def set (s : EnableFlags) (cap : GlCap) (value : Bool) : EnableFlags :=
  match cap with
  | .GL_DEPTH_TEST => { s with depth_test := value }
  | .GL_CULL_FACE => { s with cull_face := value }
  | .GL_BLEND => { s with blend := value }
  | .GL_POLYGON_OFFSET_FILL => { s with polygon_offset_fill := value }
  | .GL_SAMPLE_ALPHA_TO_COVERAGE => { s with sample_alpha_to_coverage := value }

/-- The effect of one call of the render step on the flags: `glEnable` and
`glDisable` set a flag, no other call of the step touches one (what a shader
does inside its `render` is not looked into). -/
def apply (s : EnableFlags) : RenderEvent → EnableFlags
  | .glEnable cap => s.set cap true
  | .glDisable cap => s.set cap false
  | _ => s

/-- The flags after a sequence of calls. -/
def run (s : EnableFlags) (trace : List RenderEvent) : EnableFlags :=
  trace.foldl apply s

/-- The four flags that `renderRenderData` overrides per batch: depth test,
blend, polygon offset fill, sample alpha to coverage. -/
def four (s : EnableFlags) : Bool × Bool × Bool × Bool :=
  (s.depth_test, s.blend, s.polygon_offset_fill, s.sample_alpha_to_coverage)

end EnableFlags

/-- A shader manager whose texture shader (address 107) throws the given
exception from `render`, while every other shader, the error shader included,
renders without throwing. -/
def throwingShaderManager (e : Thrown) : ShaderManager :=
  { sampleShaderManager with
    render := fun shader _ _ => if shader = 107 then some e else none }

/-- The four per-batch flags are the same after the calls of `f1` as after
the calls of `f`, from whatever flags the trace started. -/
def KeepsFour (f f1 : Frame) : Prop :=
  ∀ s : EnableFlags, (s.run f1.trace).four = (s.run f.trace).four

/-- The first half of `renderRenderData` (lines 611-625): the per-batch
overrides of polygon offset, depth test, blending and alpha to coverage. -/
def Renderer.applyOverrides (render_data : RenderData) (f : Frame) : Frame :=
  let f :=
    if render_data.offset then
      (f.emit (.glEnable .GL_POLYGON_OFFSET_FILL)).emit
        (.glPolygonOffset render_data.offset_factor render_data.offset_units)
    else f
  let f := if !render_data.depth_test then f.emit (.glDisable .GL_DEPTH_TEST) else f
  let f := if !render_data.alpha_blend then f.emit (.glDisable .GL_BLEND) else f
  if render_data.alpha_to_coverage then
    (f.emit (.glEnable .GL_SAMPLE_ALPHA_TO_COVERAGE)).emit
      (.glSampleCoverage render_data.sample_coverage render_data.invert_coverage_mask)
  else f

/-! ## RenderPass: the shared dirty flag -/

/-- A render pass together with the part of the heap its two setters touch.
`material_` and `renderdata_dirty_flag_` are the members of the pass: the
address of the material and the `shared_ptr<bool>`, given by the address of the
`bool` cell it owns (`none` for a null pointer). `cells` holds the values of
the `bool` cells, `material_flag` the dirty flag that each material holds. -/
structure PassLink where
  material_ : Option Nat
  renderdata_dirty_flag_ : Option Nat
  material_flag : Nat → Option Nat
  cells : Nat → Bool

namespace PassLink

/-- Modelled from the spec: `Material::set_dirty_flag` is declared outside
render_pass.cpp; it is the setter of the dirty flag that the material shares
with its render pass (section 3, RenderPass): the material `material` holds
`flag` from then on. -/
def material_set_dirty_flag (s : PassLink) (material : Nat) (flag : Option Nat) :
    PassLink :=
  { s with material_flag := fun m => if m = material then flag else s.material_flag m }

/-- `RenderPass::set_material` (render_pass.cpp, lines 21-25). The result is
`none` when `*renderdata_dirty_flag_ = true` writes through a null pointer. -/
def set_material (s : PassLink) (material : Nat) : Option PassLink :=
  let s := { s with material_ := some material }
  let s := s.material_set_dirty_flag material s.renderdata_dirty_flag_
  match s.renderdata_dirty_flag_ with
  | none => none
  | some cell => some { s with cells := fun c => if c = cell then true else s.cells c }

/-- `RenderPass::set_dirty_flag` (render_pass.cpp, lines 27-32). -/
def set_dirty_flag (s : PassLink) (renderdata_dirty_flag : Option Nat) : PassLink :=
  let s := { s with renderdata_dirty_flag_ := renderdata_dirty_flag }
  match s.material_ with
  | some material => s.material_set_dirty_flag material s.renderdata_dirty_flag_
  | none => s

/-- The pass and its material hold the same flag. -/
def Linked (s : PassLink) (material : Nat) : Prop :=
  s.material_ = some material ∧ s.material_flag material = s.renderdata_dirty_flag_

/-- A pass without material whose dirty flag is the cell at address `cell`,
which holds false; material 9 holds the flag cell 77 of some other pass. -/
def sample (cell : Nat) : PassLink :=
  ⟨none, some cell, fun m => if m = 9 then some 77 else none, fun _ => false⟩

end PassLink

/-! ## Renderer::renderCamera -/

/-- A `RenderTexture` as `renderCamera` reads it. -/
structure RenderTexture where
  addr : Nat
  getFrameBufferId : Int
  width : Int
  height : Int
deriving DecidableEq

/-- A `PostEffectData` as the renderer reads it. -/
structure PostEffectData where
  addr : Nat
  shader_type : Int
deriving DecidableEq

/-- The enumerators of `PostEffectData::ShaderType` that renderer.cpp uses;
they are declared in a header outside this file and are parameters here. -/
structure PostEffectDecls where
  COLOR_BLEND_SHADER : Int
  HORIZONTAL_FLIP_SHADER : Int

/-- A `Camera` as `renderCamera` reads it; the view and projection matrices
are left out. -/
structure Camera where
  background_color_r : ℚ
  background_color_g : ℚ
  background_color_b : ℚ
  background_color_a : ℚ
  render_mask : Int
  post_effect_data : List PostEffectData
deriving DecidableEq

/-- The post-effect shader that `renderPostEffectData` selects. -/
inductive PostEffectShader where
  | colorBlend
  | horizontalFlip
  | custom (shader_type : Int)
deriving DecidableEq

/-- The post-effect shader manager: what the `render` of the selected shader
does for a source texture and a post-effect, return (`none`) or throw. -/
structure PostEffectShaderManager where
  render : PostEffectShader → Nat → Nat → Option Thrown

/-- The calls of `renderCamera`: the GL entry points it calls itself, the
calls of the per-batch render step (`batch`), the `render` of a post-effect
shader with the source texture and the post-effect, and error logs. -/
inductive CameraEvent where
  | glEnable (cap : GlCap)
  | glDisable (cap : GlCap)
  | glDepthFunc_LEQUAL
  | glFrontFace_CCW
  | glCullFace_BACK
  | glBlendEquation_FUNC_ADD
  | glBlendFunc_ONE_ONE_MINUS_SRC_ALPHA
  | glLineWidth_1
  | glBindFramebuffer (framebuffer : Int)
  | glViewport (x y width height : Int)
  | glClearColor (r g b a : ℚ)
  | glClear
  | batch (e : RenderEvent)
  | postEffectRender (shader : PostEffectShader) (render_texture post_effect_data : Nat)
  | LOGE (message : String)
deriving DecidableEq

/-- What `renderCamera` changes: the `RenderState` it builds, the two static
counters and the trace of calls. -/
structure CameraFrame where
  rstate : RenderState
  numberDrawCalls : Int
  numberTriangles : Int
  trace : List CameraEvent
deriving DecidableEq

/-- Append calls to the trace. -/
def CameraFrame.emit (c : CameraFrame) (es : List CameraEvent) : CameraFrame :=
  { c with trace := c.trace ++ es }

/-- How `renderCamera` ends: it returns, or an exception or a null pointer
dereference leaves it. -/
inductive CameraResult where
  | done (c : CameraFrame)
  | thrown (e : Thrown) (c : CameraFrame)
  | fault (c : CameraFrame)
deriving DecidableEq

namespace Renderer

/-- One call `renderRenderData(rstate, render_data)` from `renderCamera`: the
render step runs on the state and counters of the camera frame and its calls
are appended to the trace. -/
def renderBatch (M : MaterialDecls) (R : RenderDataDecls) (sm : ShaderManager)
    (render_data : RenderData) (c : CameraFrame) : CameraResult :=
  let lift := fun (f : Frame) =>
    ({ rstate := f.rstate, numberDrawCalls := f.numberDrawCalls,
       numberTriangles := f.numberTriangles,
       trace := c.trace ++ f.trace.map CameraEvent.batch } : CameraFrame)
  match renderRenderData M R sm render_data
      ⟨c.rstate, c.numberDrawCalls, c.numberTriangles, []⟩ with
  | .done f => .done (lift f)
  | .thrown e f => .thrown e (lift f)
  | .fault f => .fault (lift f)

/-- The loop over `render_data_vector` that calls `renderRenderData` for each
batch (lines 222-225 and 239-242). -/
def renderBatches (M : MaterialDecls) (R : RenderDataDecls) (sm : ShaderManager) :
    List RenderData → CameraFrame → CameraResult
  | [], c => .done c
  | render_data :: rest, c =>
    match renderBatch M R sm render_data c with
    | .done c => renderBatches M R sm rest c
    | r => r

/-- `Renderer::renderPostEffectData` (lines 799-831): the shader is selected
by the type of the post-effect and renders from `render_texture`; a
`std::string` thrown by it is caught and logged. -/
def renderPostEffectData (P : PostEffectDecls) (pm : PostEffectShaderManager)
    (render_texture : RenderTexture) (post_effect_data : PostEffectData)
    (c : CameraFrame) : CameraResult :=
  let shader :=
    if post_effect_data.shader_type = P.COLOR_BLEND_SHADER then PostEffectShader.colorBlend
    else if post_effect_data.shader_type = P.HORIZONTAL_FLIP_SHADER then
      PostEffectShader.horizontalFlip
    else PostEffectShader.custom post_effect_data.shader_type
  let c := c.emit [.postEffectRender shader render_texture.addr post_effect_data.addr]
  match pm.render shader render_texture.addr post_effect_data.addr with
  | none => .done c
  | some (.string error) =>
    .done (c.emit
      [.LOGE ("Error detected in Renderer::renderPostEffectData; error : " ++ error)])
  | some e => .thrown e c

/-- The loop of lines 247-261 over the post-effects but the last, from index
`i` on: `texture_render_texture` and `target_render_texture` are assigned by
the parity of `i`, the framebuffer `framebufferId` is bound (the source does
not read `target_render_texture` after assigning it), and the post-effect `i`
is rendered from `texture_render_texture`. The result carries the value of
`texture_render_texture` after the loop. -/
def postEffectLoop (P : PostEffectDecls) (pm : PostEffectShaderManager)
    (framebufferId viewportX viewportY viewportWidth viewportHeight : Int)
    (post_effect_render_texture_a post_effect_render_texture_b : RenderTexture) :
    List PostEffectData → Nat → RenderTexture → CameraFrame →
      RenderTexture × CameraResult
  | [], _, texture_render_texture, c => (texture_render_texture, .done c)
  | post_effect :: rest, i, _, c =>
    let texture_render_texture :=
      if i % 2 = 0 then post_effect_render_texture_a else post_effect_render_texture_b
    let _target_render_texture :=
      if i % 2 = 0 then post_effect_render_texture_b else post_effect_render_texture_a
    let c := c.emit [.glBindFramebuffer framebufferId,
      .glViewport viewportX viewportY viewportWidth viewportHeight, .glClear]
    match renderPostEffectData P pm texture_render_texture post_effect c with
    | .done c =>
      postEffectLoop P pm framebufferId viewportX viewportY viewportWidth viewportHeight
        post_effect_render_texture_a post_effect_render_texture_b rest (i + 1)
        texture_render_texture c
    | r => (texture_render_texture, r)

/-- `Renderer::renderCamera` (lines 175-272), the overload with the
framebuffer and the viewport. `render_data_vector` is the static batch list. -/
def renderCamera (M : MaterialDecls) (R : RenderDataDecls) (P : PostEffectDecls)
    (camera : Camera) (framebufferId viewportX viewportY viewportWidth
      viewportHeight : Int)
    (sm : ShaderManager) (pm : PostEffectShaderManager)
    (post_effect_render_texture_a post_effect_render_texture_b : RenderTexture)
    (render_data_vector : List RenderData) : CameraResult :=
  let rstate : RenderState :=
    { render_mask := camera.render_mask, material_override := none,
      uniforms := ⟨none, false, Int.land camera.render_mask R.RenderMaskBit_Right⟩ }
  let c : CameraFrame := ⟨rstate, 0, 0, []⟩
  let post_effects := camera.post_effect_data
  let c := c.emit [.glEnable .GL_DEPTH_TEST, .glDepthFunc_LEQUAL,
    .glEnable .GL_CULL_FACE, .glFrontFace_CCW, .glCullFace_BACK, .glEnable .GL_BLEND,
    .glDisable .GL_SAMPLE_ALPHA_TO_COVERAGE, .glBlendEquation_FUNC_ADD,
    .glBlendFunc_ONE_ONE_MINUS_SRC_ALPHA, .glDisable .GL_POLYGON_OFFSET_FILL,
    .glLineWidth_1]
  let clearColor := CameraEvent.glClearColor camera.background_color_r
    camera.background_color_g camera.background_color_b camera.background_color_a
  let finish := fun (c : CameraFrame) =>
    c.emit [.glDisable .GL_DEPTH_TEST, .glDisable .GL_CULL_FACE, .glDisable .GL_BLEND]
  if post_effects.length = 0 then
    let c := c.emit [.glBindFramebuffer framebufferId,
      .glViewport viewportX viewportY viewportWidth viewportHeight, clearColor, .glClear]
    match renderBatches M R sm render_data_vector c with
    | .done c => .done (finish c)
    | r => r
  else
    let texture_render_texture := post_effect_render_texture_a
    let c := c.emit [.glBindFramebuffer texture_render_texture.getFrameBufferId,
      .glViewport 0 0 texture_render_texture.width texture_render_texture.height,
      clearColor, .glClear]
    match renderBatches M R sm render_data_vector c with
    | .done c =>
      let c := c.emit [.glDisable .GL_DEPTH_TEST, .glDisable .GL_CULL_FACE]
      match postEffectLoop P pm framebufferId viewportX viewportY viewportWidth
          viewportHeight post_effect_render_texture_a post_effect_render_texture_b
          post_effects.dropLast 0 texture_render_texture c with
      | (texture_render_texture, .done c) =>
        let c := c.emit [.glBindFramebuffer framebufferId,
          .glViewport viewportX viewportY viewportWidth viewportHeight, .glClear]
        match post_effects.getLast? with
        | none => .fault c
        | some last =>
          match renderPostEffectData P pm texture_render_texture last c with
          | .done c => .done (finish c)
          | r => r
      | (_, r) => r
    | r => r

end Renderer

/-! ## Sample camera set-up -/

/-- Intermediate texture A: address 1, framebuffer 11. -/
def textureA : RenderTexture := ⟨1, 11, 64, 64⟩

/-- Intermediate texture B: address 2, framebuffer 12. -/
def textureB : RenderTexture := ⟨2, 12, 64, 64⟩

/-- The post-effect type enumerators 0 and 1. -/
def samplePostEffectDecls : PostEffectDecls := ⟨0, 1⟩

/-- A post-effect shader manager whose shaders never throw. -/
def samplePostEffectShaderManager : PostEffectShaderManager := ⟨fun _ _ _ => none⟩

/-- A camera with render mask 1, black background and two post-effects: a
colour blend at address 31 and a horizontal flip at address 32. -/
def cameraTwoEffects : Camera :=
  ⟨0, 0, 0, 1, 1, [⟨31, 0⟩, ⟨32, 1⟩]⟩

/-! ## CustomShader -/

/-- A `Texture` as the custom shader reads it: the member `ready`, the id of
its GL texture (`none` when `gl_texture_` is null) and the value of
`getTarget()`. -/
structure Texture where
  addr : Nat
  ready : Bool
  gl_texture_ : Option Nat
  getTarget : Nat
deriving DecidableEq

/-- `Texture::isReady` (texture.cpp, lines 76-78). -/
def Texture.isReady (t : Texture) : Bool := t.ready

/-- `Texture::getId` (texture.cpp, lines 31-41): 0 when the GL texture is
gone, its id otherwise. -/
def Texture.getId (t : Texture) : Nat :=
  match t.gl_texture_ with
  | none => 0
  | some id => id

/-- A descriptor of the sets `textureVariables_`, `uniformVariables_` and
`attributeVariables_`: the name of the shader variable, the key into the
material or mesh, and the resolved location (-1 while unresolved). -/
structure Descriptor where
  variable_ : String
  key : String
  location : Int
deriving DecidableEq

/-- The members of `CustomShader`. `program_` is the id of the GL program
(`none` while `program_` is null); the three sets are lists in iteration
order. -/
structure CustomShader where
  program_ : Option Nat
  vertexShader_ : String
  fragmentShader_ : String
  u_mvp_ : Int
  u_right_ : Int
  u_view_ : Int
  u_mv_ : Int
  u_mv_it_ : Int
  textureVariables_ : List Descriptor
  textureVariablesDirty_ : Bool
  uniformVariables_ : List Descriptor
  uniformVariablesDirty_ : Bool
  attributeVariables_ : List Descriptor
  attributeVariablesDirty_ : Bool
deriving DecidableEq

/-- The GL as the custom shader queries it: the id of the program that
`new GLProgram` creates, and the answers of `glGetUniformLocation` and
`glGetAttribLocation` for a program id and a name (-1 when the program does
not declare the name). -/
structure ProgramQueries where
  createProgram : Nat
  glGetUniformLocation : Nat → String → Int
  glGetAttribLocation : Nat → String → Int

/-- A `Material` as the custom shader reads it: the textures by key (what
`getTextureNoError` finds) and, for a uniform descriptor, what the bind
function of that descriptor does on this material: upload (`none`) or
throw. -/
structure ShaderMaterial where
  textures : List (String × Texture)
  uniformBind : Descriptor → Option Thrown

/-- `material->getTextureNoError(key)`: the texture under `key`, if any. -/
def ShaderMaterial.getTextureNoError (m : ShaderMaterial) (key : String) :
    Option Texture :=
  m.textures.lookup key

/-- A `Mesh` as the custom shader reads it. -/
structure ShaderMesh where
  addr : Nat
  getNumBones : Int
  isVaoDirty : Bool
  indices_size : Nat
  getVAOId : Nat
deriving DecidableEq

/-- The values that the custom shader uploads with `glUniformMatrix4fv`: one
of the four matrices of the per-object uniforms, or the final transform of
bone `i`. -/
inductive UniformValue where
  | u_mvp
  | u_view
  | u_mv
  | u_mv_it
  | bone (i : Nat)
deriving DecidableEq

/-- The calls of `CustomShader::render`. -/
inductive ShaderEvent where
  | createProgram (program : Nat)
  | glUseProgram (program : Nat)
  | lightRender (light program : Nat)
  | setBoneLoc (a_bone_indices a_bone_weights : Int)
  | generateBoneArrayBuffers
  | glUniformMatrix4fv (location : Int) (value : UniformValue)
  | bindVertexAttributes (program : Nat)
  | unSetVaoDirty
  | generateVAO
  | uniformBind (key : String) (location : Int)
  | glUniform1i (location : Int) (value : Int)
  | glActiveTexture (texture : Nat)
  | glBindTexture (target id : Nat)
  | glBindVertexArray (array : Nat)
  | glDrawElements (mode count : Nat)
  | checkGlError
deriving DecidableEq

/-- The state after `CustomShader::render`: the shader, the mesh and the
trace of calls. -/
structure ShaderRun where
  shader : CustomShader
  mesh : Option ShaderMesh
  trace : List ShaderEvent
deriving DecidableEq

/-- How `CustomShader::render` ends: it returns, an exception leaves it, or it
dereferences a null mesh. -/
inductive ShaderOutcome where
  | done (r : ShaderRun)
  | thrown (e : Thrown) (r : ShaderRun)
  | fault (r : ShaderRun)
deriving DecidableEq

/-- The run that an outcome carries. -/
def ShaderOutcome.run : ShaderOutcome → ShaderRun
  | done r => r
  | thrown _ r => r
  | fault r => r

/-- The value of `GL_TEXTURE0`. -/
def GL_TEXTURE0 : Nat := 33984

namespace CustomShader

/-- The loop that resolves the locations still at -1 in one of the three sets
(lines 56-62, 68-74, 80-86). -/
def resolveLocations (getLocation : String → Int) (l : List Descriptor) :
    List Descriptor :=
  l.map (fun d => if -1 = d.location then { d with location := getLocation d.variable_ }
    else d)

/-- `CustomShader::initializeOnDemand` (lines 40-89). -/
def initializeOnDemand (gl : ProgramQueries) (s : CustomShader) : CustomShader :=
  let s :=
    match s.program_ with
    | none =>
      { s with
        program_ := some gl.createProgram, vertexShader_ := "", fragmentShader_ := "",
        u_mvp_ := gl.glGetUniformLocation gl.createProgram "u_mvp",
        u_right_ := gl.glGetUniformLocation gl.createProgram "u_right",
        u_view_ := gl.glGetUniformLocation gl.createProgram "u_view",
        u_mv_ := gl.glGetUniformLocation gl.createProgram "u_mv",
        u_mv_it_ := gl.glGetUniformLocation gl.createProgram "u_mv_it" }
    | some _ => s
  let program := s.program_.getD gl.createProgram
  let s :=
    if s.textureVariablesDirty_ then
      { s with
        textureVariables_ :=
          resolveLocations (gl.glGetUniformLocation program) s.textureVariables_,
        textureVariablesDirty_ := false }
    else s
  let s :=
    if s.uniformVariablesDirty_ then
      { s with
        uniformVariables_ :=
          resolveLocations (gl.glGetUniformLocation program) s.uniformVariables_,
        uniformVariablesDirty_ := false }
    else s
  if s.attributeVariablesDirty_ then
    { s with
      attributeVariables_ :=
        resolveLocations (gl.glGetAttribLocation program) s.attributeVariables_,
      attributeVariablesDirty_ := false }
  else s

/-- The test of lines 233-239 for one descriptor: the material has no texture
under the key, or the texture is not ready. -/
def textureUnusable (material : ShaderMaterial) (d : Descriptor) : Bool :=
  match material.getTextureNoError d.key with
  | none => true
  | some texture => !texture.isReady

/-- `CustomShader::getGLTexture` (lines 331-358). -/
def getGLTexture (n : Int) : Nat :=
  if 0 ≤ n ∧ n ≤ 10 then GL_TEXTURE0 + n.toNat else GL_TEXTURE0

/-- The loop over the lights (lines 249-255); a null light is skipped. -/
def lightCalls (program : Nat) (lightList : List (Option Nat)) : List ShaderEvent :=
  lightList.filterMap (fun light => light.map (fun l => ShaderEvent.lightRender l program))

/-- The block "Update the bone matrices" (lines 259-275) for the program id
and the bone count of the mesh. -/
def boneCalls (gl : ProgramQueries) (MAX_BONES : Int) (program : Nat)
    (getNumBones : Int) : List ShaderEvent :=
  let a_bone_indices := gl.glGetAttribLocation program "a_bone_indices"
  let a_bone_weights := gl.glGetAttribLocation program "a_bone_weights"
  let u_bone_matrices := gl.glGetUniformLocation program "u_bone_matrix[0]"
  if a_bone_indices ≥ 0 ∨ a_bone_weights ≥ 0 ∨ u_bone_matrices ≥ 0 then
    let nBones := getNumBones
    let nBones := if nBones > MAX_BONES then MAX_BONES else nBones
    [.setBoneLoc a_bone_indices a_bone_weights, .generateBoneArrayBuffers] ++
      (List.range nBones.toNat).map (fun (i : Nat) =>
        ShaderEvent.glUniformMatrix4fv (u_bone_matrices + (i : Int)) (.bone i))
  else []

/-- The block "Update vertex information" (lines 280-284). -/
def vertexCalls (program : Nat) (mesh : ShaderMesh) : ShaderMesh × List ShaderEvent :=
  if mesh.isVaoDirty then
    ({ mesh with isVaoDirty := false },
      [.bindVertexAttributes program, .unSetVaoDirty, .generateVAO])
  else (mesh, [.generateVAO])

/-- The loop over the uniform descriptors (lines 289-296): each bind function
runs inside a `try` that catches `std::string` and ignores it; another
exception ends the loop and is handed on with the calls made so far. -/
def uniformCalls (material : ShaderMaterial) :
    List Descriptor → List ShaderEvent × Option Thrown
  | [] => ([], none)
  | d :: rest =>
    match material.uniformBind d with
    | none =>
      let r := uniformCalls material rest
      (ShaderEvent.uniformBind d.key d.location :: r.1, r.2)
    | some (.string _) => uniformCalls material rest
    | some e => ([], some e)

/-- The uploads of the standard per-object uniforms (lines 299-313). -/
def standardUniformCalls (s : CustomShader) (u_right : Bool) : List ShaderEvent :=
  (if s.u_mvp_ ≠ -1 then [ShaderEvent.glUniformMatrix4fv s.u_mvp_ .u_mvp] else []) ++
  (if s.u_view_ ≠ -1 then [ShaderEvent.glUniformMatrix4fv s.u_view_ .u_view] else []) ++
  (if s.u_mv_ ≠ -1 then [ShaderEvent.glUniformMatrix4fv s.u_mv_ .u_mv] else []) ++
  (if s.u_mv_it_ ≠ -1 then [ShaderEvent.glUniformMatrix4fv s.u_mv_it_ .u_mv_it] else []) ++
  (if s.u_right_ ≠ 0 then [ShaderEvent.glUniform1i s.u_right_ (if u_right then 1 else 0)]
    else [])

/-- The loop over the texture descriptors that binds them (lines 315-322),
with the bind function of `addTextureKey` (lines 99-106); `texture_index` is
the running index. -/
def textureCalls (material : ShaderMaterial) :
    List Descriptor → Int → List ShaderEvent
  | [], _ => []
  | d :: rest, texture_index =>
    match material.getTextureNoError d.key with
    | some texture =>
      [.glActiveTexture (getGLTexture texture_index),
        .glBindTexture texture.getTarget texture.getId,
        .glUniform1i d.location texture_index] ++
        textureCalls material rest (texture_index + 1)
    | none =>
      .glActiveTexture (getGLTexture texture_index) ::
        textureCalls material rest texture_index

/-- The draw at the end of `render` (lines 324-328). -/
def drawCalls (draw_mode : Nat) (mesh : ShaderMesh) : List ShaderEvent :=
  [.glBindVertexArray mesh.getVAOId, .glDrawElements draw_mode mesh.indices_size,
    .glBindVertexArray 0, .checkGlError]

/-- `CustomShader::render` (lines 227-329). `MAX_BONES` is a constant of a
header outside this file and a parameter here; `u_right` is
`uniforms.u_right`, `mesh` and `draw_mode` are `render_data->mesh()` and
`render_data->draw_mode()`, a null light is `none`. -/
def render (gl : ProgramQueries) (MAX_BONES : Int) (s : CustomShader) (u_right : Bool)
    (mesh : Option ShaderMesh) (draw_mode : Nat) (lightList : List (Option Nat))
    (material : ShaderMaterial) : ShaderOutcome :=
  let created := if s.program_.isNone then [ShaderEvent.createProgram gl.createProgram]
    else []
  let s := initializeOnDemand gl s
  if s.textureVariables_.any (textureUnusable material) then
    .done ⟨s, mesh, created⟩
  else
    let program := s.program_.getD gl.createProgram
    let trace := created ++ [.glUseProgram program] ++ lightCalls program lightList
    match mesh with
    | none => .fault ⟨s, mesh, trace⟩
    | some m =>
      let trace := trace ++
        boneCalls gl MAX_BONES program m.getNumBones
      let v := vertexCalls program m
      let trace := trace ++ v.2
      let u := uniformCalls material s.uniformVariables_
      let trace := trace ++ u.1
      match u.2 with
      | some e => .thrown e ⟨s, some v.1, trace⟩
      | none =>
        let trace := trace ++ standardUniformCalls s u_right ++
          textureCalls material s.textureVariables_ 0 ++ drawCalls draw_mode v.1
        .done ⟨s, some v.1, trace⟩

end CustomShader

/-- The bone matrices that a trace uploads: location and bone index of each
`glUniformMatrix4fv` of a bone transform, in order. -/
def boneUploads (trace : List ShaderEvent) : List (Int × Nat) :=
  trace.filterMap (fun e =>
    match e with
    | .glUniformMatrix4fv location (.bone i) => some (location, i)
    | _ => none)

/-! ## Sample custom shader set-up -/

/-- A shader not yet initialised, with one declared texture under the key
"main". -/
def sampleCustomShader : CustomShader :=
  { program_ := none, vertexShader_ := "v", fragmentShader_ := "f", u_mvp_ := -1,
    u_right_ := -1, u_view_ := -1, u_mv_ := -1, u_mv_it_ := -1,
    textureVariables_ := [⟨"u_texture", "main", -1⟩], textureVariablesDirty_ := true,
    uniformVariables_ := [], uniformVariablesDirty_ := false,
    attributeVariables_ := [], attributeVariablesDirty_ := false }

/-- A GL whose new program has id 40 and declares `u_mvp` at location 1,
`u_right` at the given location and `u_texture` at location 2, and nothing
else. -/
def sampleQueries (u_right_location : Int) : ProgramQueries :=
  { createProgram := 40,
    glGetUniformLocation := fun _ name =>
      if name = "u_mvp" then 1 else if name = "u_right" then u_right_location
      else if name = "u_texture" then 2 else -1,
    glGetAttribLocation := fun _ _ => -1 }

/-- A GL whose new program has id 40 and declares the bone matrices at
location 20, `u_texture` at location 2, and nothing else. -/
def boneQueries : ProgramQueries :=
  { createProgram := 40,
    glGetUniformLocation := fun _ name =>
      if name = "u_bone_matrix[0]" then 20 else if name = "u_texture" then 2 else -1,
    glGetAttribLocation := fun _ _ => -1 }

/-- A material with a texture under "main" whose readiness is given, and no
throwing uniform. -/
def sampleShaderMaterial (ready : Bool) : ShaderMaterial :=
  ⟨[("main", ⟨800, ready, some 81, 3553⟩)], fun _ => none⟩

/-- A mesh with 5 bones, a clean VAO with id 9 and 6 indices. -/
def sampleShaderMesh : ShaderMesh := ⟨600, 5, false, 6, 9⟩

section culler

open SceneObject Renderer

/-! ## Lemmas on the scene tree -/

theorem CullRun.extend_extend (run : CullRun) (a b c d e f : List SceneObject) :
    (run.extend a b c).extend d e f = run.extend (a ++ d) (b ++ e) (c ++ f) := by
  simp [CullRun.extend, List.append_assoc]

theorem CullRun.extend_nil (run : CullRun) : run.extend [] [] [] = run := by
  cases run; simp [CullRun.extend]

section walk

variable {Pos Planes : Type}
  (frustumCull : SceneObject → Pos → Planes → Int → Int × Int)
  (camera_position : Pos) (frustum : Planes)

/-- The objects of a listing that pass the test `q` on arrival, in order. -/
theorem onArrival_below (q : Bool × Int → SceneObject → Bool) (o : SceneObject)
    (nc : Bool) (m : Int) (l : List (List SceneObject × SceneObject)) :
    ((l.map (fun x => (o :: x.1, x.2))).filter
        (onArrival frustumCull camera_position frustum q nc m)).map Prod.snd =
      match descend frustumCull camera_position frustum o nc m with
      | none => []
      | some s =>
        (l.filter (onArrival frustumCull camera_position frustum q s.1 s.2)).map Prod.snd := by
  induction l with
  | nil => cases descend frustumCull camera_position frustum o nc m <;> rfl
  | cons x rest ih =>
    cases h : descend frustumCull camera_position frustum o nc m with
    | none =>
      rw [h] at ih
      simp only [List.map_cons, List.filter_cons, onArrival, arrive, h]
      simpa [onArrival] using ih
    | some s =>
      rw [h] at ih
      simp only [List.map_cons, List.filter_cons, onArrival, arrive, h]
      split <;> simp_all [onArrival]

theorem walked_append (nc : Bool) (m : Int)
    (l₁ l₂ : List (List SceneObject × SceneObject)) (run : CullRun) :
    walked frustumCull camera_position frustum nc m (l₁ ++ l₂) run =
      walked frustumCull camera_position frustum nc m l₂
        (walked frustumCull camera_position frustum nc m l₁ run) := by
  simp [walked, CullRun.extend, List.filter_append, List.append_assoc]

theorem walked_cons (nc : Bool) (m : Int) (x : List SceneObject × SceneObject)
    (l : List (List SceneObject × SceneObject)) (run : CullRun) :
    walked frustumCull camera_position frustum nc m (x :: l) run =
      walked frustumCull camera_position frustum nc m l
        (walked frustumCull camera_position frustum nc m [x] run) :=
  walked_append frustumCull camera_position frustum nc m [x] l run

theorem walked_below (o : SceneObject) (nc : Bool) (m : Int)
    (l : List (List SceneObject × SceneObject)) (run : CullRun) :
    walked frustumCull camera_position frustum nc m
        (l.map (fun x => (o :: x.1, x.2))) run =
      match descend frustumCull camera_position frustum o nc m with
      | none => run
      | some s => walked frustumCull camera_position frustum s.1 s.2 l run := by
  unfold walked reaches tested emitted
  rw [onArrival_below, onArrival_below, onArrival_below]
  cases descend frustumCull camera_position frustum o nc m with
  | none => exact CullRun.extend_nil run
  | some s => rfl

theorem walked_root (o : SceneObject) (nc : Bool) (m : Int) (run : CullRun) :
    walked frustumCull camera_position frustum nc m [([], o)] run =
      run.extend
        (if o.enabled &&
            (!nc || decide ((frustumCull o camera_position frustum m).1 ≥ 2))
          then [o] else [])
        [o]
        (if o.enabled && nc then [o] else []) := by
  simp only [walked, reaches, tested, emitted, onArrival, arrive, List.filter_cons,
    List.filter_nil]
  congr 1
  · split <;> rfl
  · split <;> rfl

mutual
theorem frustum_cull_walked : ∀ (object : SceneObject) (run : CullRun)
    (nc : Bool) (m : Int),
    frustum_cull frustumCull camera_position object frustum run nc m =
      walked frustumCull camera_position frustum nc m (lineage object) run
  | .mk a en ch, run, nc, m => by
    have hch := frustum_cull_children_walked ch
    rw [lineage, walked_cons, walked_below, walked_root, frustum_cull]
    cases en with
    | false => simp [descend, SceneObject.enabled, CullRun.extend]
    | true =>
      cases nc with
      | false => simp [descend, SceneObject.enabled, CullRun.extend, hch]
      | true =>
        by_cases h0 : (frustumCull (.mk a true ch) camera_position frustum m).1 = 0
        · simp [descend, SceneObject.enabled, CullRun.extend, h0]
        · by_cases h3 : (frustumCull (.mk a true ch) camera_position frustum m).1 = 3
          · simp [descend, SceneObject.enabled, CullRun.extend, hch, h3]
          · by_cases h2 : (frustumCull (.mk a true ch) camera_position frustum m).1 ≥ 2
            · simp [descend, SceneObject.enabled, CullRun.extend, hch, h0, h3, h2]
            · simp [descend, SceneObject.enabled, CullRun.extend, hch, h0, h3, h2]
theorem frustum_cull_children_walked : ∀ (children : List SceneObject)
    (run : CullRun) (nc : Bool) (m : Int),
    frustum_cull_children frustumCull camera_position children frustum run nc m =
      walked frustumCull camera_position frustum nc m (lineageAll children) run
  | [], run, nc, m => by
    simp [frustum_cull_children, lineageAll, walked, CullRun.extend]
  | c :: rest, run, nc, m => by
    rw [frustum_cull_children, lineageAll, walked_append,
      frustum_cull_walked c, frustum_cull_children_walked rest]
end

theorem arrive_false (m : Int) : ∀ (anc : List SceneObject),
    arrive frustumCull camera_position frustum anc false m =
      if anc.all SceneObject.enabled then some (false, m) else none
  | [] => rfl
  | a :: rest => by
    cases h : a.enabled <;>
      simp [arrive, descend, h, arrive_false m rest]

theorem emitted_false (m : Int) (x : List SceneObject × SceneObject) :
    emitted frustumCull camera_position frustum false m x = enabledPath x := by
  simp only [emitted, onArrival, arrive_false, enabledPath]
  cases List.all x.1 SceneObject.enabled <;> simp

theorem tested_false (m : Int) (x : List SceneObject × SceneObject) :
    tested frustumCull camera_position frustum false m x = false := by
  simp only [tested, onArrival, arrive_false]
  cases List.all x.1 SceneObject.enabled <;> simp

theorem reaches_false (m : Int) (x : List SceneObject × SceneObject) :
    reaches frustumCull camera_position frustum false m x =
      x.1.all SceneObject.enabled := by
  simp only [reaches, onArrival, arrive_false]
  cases List.all x.1 SceneObject.enabled <;> simp

theorem walked_false (m : Int) (l : List (List SceneObject × SceneObject))
    (run : CullRun) :
    walked frustumCull camera_position frustum false m l run =
      run.extend ((l.filter enabledPath).map Prod.snd)
        ((l.filter (fun x => x.1.all SceneObject.enabled)).map Prod.snd) [] := by
  have h1 : emitted frustumCull camera_position frustum false m = enabledPath :=
    funext (emitted_false frustumCull camera_position frustum m)
  have h2 : tested frustumCull camera_position frustum false m = fun _ => false :=
    funext (tested_false frustumCull camera_position frustum m)
  have h3 : reaches frustumCull camera_position frustum false m =
      fun x => x.1.all SceneObject.enabled :=
    funext (reaches_false frustumCull camera_position frustum m)
  simp [walked, h1, h2, h3]

end walk

mutual
theorem lineage_map_snd : ∀ (o : SceneObject),
    (lineage o).map Prod.snd = preorder o
  | .mk a e ch => by
    simp [lineage, preorder, List.map_map, Function.comp_def, lineageAll_map_snd ch]
theorem lineageAll_map_snd : ∀ (l : List SceneObject),
    (lineageAll l).map Prod.snd = preorderAll l
  | [] => rfl
  | c :: rest => by
    simp [lineageAll, preorderAll, lineage_map_snd c, lineageAll_map_snd rest]
end

section steps

variable {Pos Planes : Type}
  (frustumCull : SceneObject → Pos → Planes → Int → Int × Int)
  (camera_position : Pos) (frustum : Planes)

theorem frustum_cull_disabled (object : SceneObject) (run : CullRun)
    (need_cull : Bool) (planeMask : Int) (hd : object.enabled = false) :
    frustum_cull frustumCull camera_position object frustum run need_cull planeMask =
      run.extend [] [object] [] := by
  cases object with
  | mk a en ch =>
    simp only [SceneObject.enabled] at hd
    subst hd
    simp [frustum_cull, CullRun.extend]

theorem frustum_cull_outside (object : SceneObject) (run : CullRun)
    (planeMask : Int) (he : object.enabled = true)
    (h0 : (frustumCull object camera_position frustum planeMask).1 = 0) :
    frustum_cull frustumCull camera_position object frustum run true planeMask =
      run.extend [] [object] [object] := by
  cases object with
  | mk a en ch =>
    simp only [SceneObject.enabled] at he
    subst he
    simp [frustum_cull, CullRun.extend, h0]

theorem frustum_cull_inside (object : SceneObject) (run : CullRun)
    (planeMask : Int) (he : object.enabled = true)
    (h3 : (frustumCull object camera_position frustum planeMask).1 = 3) :
    frustum_cull frustumCull camera_position object frustum run true planeMask =
      (run.extend [object] [object] [object]).extend
        (((lineageAll object.children).filter enabledPath).map Prod.snd)
        (((lineageAll object.children).filter
          (fun x => x.1.all SceneObject.enabled)).map Prod.snd) [] := by
  cases object with
  | mk a en ch =>
    simp only [SceneObject.enabled] at he
    subst he
    rw [frustum_cull_walked, lineage, walked_cons, walked_below, walked_root]
    simp [descend, SceneObject.enabled, SceneObject.children, h3, walked_false]

theorem mem_lineage (object : SceneObject) (x : List SceneObject × SceneObject)
    (hx : x ∈ lineage object) :
    x = ([], object) ∨
      ∃ y ∈ lineageAll object.children, x = (object :: y.1, y.2) := by
  cases object with
  | mk a en ch =>
    simp only [lineage, List.mem_cons, List.mem_map] at hx
    rcases hx with h | ⟨y, hy, rfl⟩
    · exact Or.inl h
    · exact Or.inr ⟨y, hy, rfl⟩

theorem enabledPath_mem_inside (object : SceneObject)
    (x : List SceneObject × SceneObject) (hx : x ∈ lineage object)
    (hp : enabledPath x = true) :
    x.2 ∈ object ::
      ((lineageAll object.children).filter enabledPath).map Prod.snd := by
  rcases mem_lineage object x hx with rfl | ⟨y, hy, rfl⟩
  · exact List.mem_cons_self _ _
  · refine List.mem_cons_of_mem _ (List.mem_map.2 ⟨y, List.mem_filter.2 ⟨hy, ?_⟩, rfl⟩)
    simp only [enabledPath, List.all_cons, Bool.and_eq_true] at hp ⊢
    exact ⟨hp.1.2, hp.2⟩

theorem emitted_sublist_preorder (object : SceneObject) (nc : Bool) (m : Int) :
    (((lineage object).filter
      (emitted frustumCull camera_position frustum nc m)).map Prod.snd).Sublist
      (preorder object) := by
  rw [← lineage_map_snd]
  exact (List.filter_sublist _).map _

end steps

theorem preorder_eq_cons (object : SceneObject) :
    preorder object = object :: preorderAll object.children := by
  cases object with
  | mk a en ch => simp [preorder, SceneObject.children]

theorem filter_lineageAll_subset (l : List SceneObject)
    (q : List SceneObject × SceneObject → Bool) :
    ((lineageAll l).filter q).map Prod.snd ⊆ preorderAll l := by
  rw [← lineageAll_map_snd]
  exact ((List.filter_sublist _).map _).subset

mutual
theorem preorder_eq_flatten : ∀ (object : SceneObject),
    preorder object = object :: (object.children.map preorder).flatten
  | .mk a e ch => by
    rw [preorder, preorderAll_eq_flatten ch]
    rfl
theorem preorderAll_eq_flatten : ∀ (l : List SceneObject),
    preorderAll l = (l.map preorder).flatten
  | [] => rfl
  | c :: rest => by
    rw [preorderAll, preorderAll_eq_flatten rest]
    simp
end

theorem cullFromCamera_two_children {Pos Planes : Type}
    (frustumCull : SceneObject → Pos → Planes → Int → Int × Int)
    (camera_position : Pos) (frustum : Planes) (root A B : SceneObject)
    (hR : root.enabled = true)
    (hch : root.children = [A, B] ∨ root.children = [B, A])
    (hA : A.enabled = true) (hB : B.enabled = true)
    (hroot : (frustumCull root camera_position frustum 0).1 = 1 ∨
      (frustumCull root camera_position frustum 0).1 = 2)
    (hAin : (frustumCull A camera_position frustum
      (frustumCull root camera_position frustum 0).2).1 = 3)
    (hBout : (frustumCull B camera_position frustum
      (frustumCull root camera_position frustum 0).2).1 = 0) :
    cullFromCamera frustumCull camera_position frustum root true =
      (if (frustumCull root camera_position frustum 0).1 = 2 then [root] else []) ++
      A :: ((lineageAll A.children).filter enabledPath).map Prod.snd := by
  have hne0 : (frustumCull root camera_position frustum 0).1 ≠ 0 := by
    rcases hroot with h | h <;> rw [h] <;> decide
  have hne3 : (frustumCull root camera_position frustum 0).1 ≠ 3 := by
    rcases hroot with h | h <;> rw [h] <;> decide
  cases root with
  | mk a en ch =>
    simp only [SceneObject.enabled] at hR
    simp only [SceneObject.children] at hch
    subst hR
    unfold cullFromCamera
    rw [frustum_cull]
    simp only [Bool.not_true, Bool.false_eq_true, if_false, if_true, hne0, hne3]
    rcases hch with rfl | rfl
    · simp only [frustum_cull_children]
      rw [frustum_cull_outside frustumCull camera_position frustum B _ _ hB hBout,
        frustum_cull_inside frustumCull camera_position frustum A _ _ hA hAin]
      rcases hroot with h | h <;> simp [h, CullRun.extend, CullRun.empty]
    · simp only [frustum_cull_children]
      rw [frustum_cull_inside frustumCull camera_position frustum A _ _ hA hAin,
        frustum_cull_outside frustumCull camera_position frustum B _ _ hB hBout]
      rcases hroot with h | h <;> simp [h, CullRun.extend, CullRun.empty]

theorem two_children_addr_disjoint (root A B : SceneObject)
    (hch : root.children = [A, B] ∨ root.children = [B, A])
    (hw : WellFormed root) :
    (∀ d ∈ preorder B, d.addr ≠ root.addr) ∧
      ∀ d ∈ preorder B, ∀ y ∈ preorder A, y.addr ≠ d.addr := by
  cases root with
  | mk a en ch =>
    simp only [SceneObject.children] at hch
    rcases hch with rfl | rfl
    · simp only [WellFormed, preorder, preorderAll, List.append_nil, List.map_cons,
        List.map_append, SceneObject.addr, List.nodup_cons, List.mem_append, not_or,
        List.nodup_append] at hw
      obtain ⟨⟨_, hrB⟩, _, _, hdisj⟩ := hw
      exact ⟨fun d hd h => hrB
          ((show d.addr = a from h) ▸ List.mem_map_of_mem SceneObject.addr hd),
        fun d hd y hy h => hdisj (List.mem_map_of_mem _ hy) (h ▸ List.mem_map_of_mem _ hd)⟩
    · simp only [WellFormed, preorder, preorderAll, List.append_nil, List.map_cons,
        List.map_append, SceneObject.addr, List.nodup_cons, List.mem_append, not_or,
        List.nodup_append] at hw
      obtain ⟨⟨hrB, _⟩, _, _, hdisj⟩ := hw
      exact ⟨fun d hd h => hrB
          ((show d.addr = a from h) ▸ List.mem_map_of_mem SceneObject.addr hd),
        fun d hd y hy h => hdisj (List.mem_map_of_mem _ hd) (h ▸ List.mem_map_of_mem _ hy)⟩

theorem arrive_some_all_enabled {Pos Planes : Type}
    (frustumCull : SceneObject → Pos → Planes → Int → Int × Int)
    (camera_position : Pos) (frustum : Planes) :
    ∀ (anc : List SceneObject) (nc : Bool) (m : Int),
      (arrive frustumCull camera_position frustum anc nc m).isSome = true →
        ∀ a ∈ anc, a.enabled = true
  | [], _, _, _, a, ha => by cases ha
  | b :: rest, nc, m, h, a, ha => by
    rw [arrive] at h
    cases hd : descend frustumCull camera_position frustum b nc m with
    | none => rw [hd] at h; cases h
    | some s =>
      rw [hd] at h
      rcases List.mem_cons.1 ha with rfl | hmem
      · cases he : a.enabled with
        | true => rfl
        | false => simp [descend, he] at hd
      · exact arrive_some_all_enabled frustumCull camera_position frustum rest s.1 s.2
          h a hmem

theorem reaches_eq_isSome {Pos Planes : Type}
    (frustumCull : SceneObject → Pos → Planes → Int → Int × Int)
    (camera_position : Pos) (frustum : Planes) (nc : Bool) (m : Int)
    (x : List SceneObject × SceneObject) :
    reaches frustumCull camera_position frustum nc m x =
      (arrive frustumCull camera_position frustum x.1 nc m).isSome := by
  unfold reaches onArrival
  cases arrive frustumCull camera_position frustum x.1 nc m <;> rfl

theorem lineage_addr_nodup (root : SceneObject) (hw : WellFormed root) :
    ((lineage root).map (fun x => x.2.addr)).Nodup := by
  have h : (lineage root).map (fun x => x.2.addr) =
      ((lineage root).map Prod.snd).map SceneObject.addr := by
    rw [List.map_map]; rfl
  rw [h, lineage_map_snd]
  exact hw

theorem walked_empty_entered {Pos Planes : Type}
    (frustumCull : SceneObject → Pos → Planes → Int → Int × Int)
    (camera_position : Pos) (frustum : Planes) (root : SceneObject)
    (nc : Bool) (m : Int) :
    (frustum_cull frustumCull camera_position root frustum CullRun.empty nc
        m).entered.map SceneObject.addr =
      ((lineage root).filter (reaches frustumCull camera_position frustum nc m)).map
        (fun x => x.2.addr) := by
  rw [frustum_cull_walked]
  simp [walked, CullRun.extend, CullRun.empty, List.map_map, Function.comp_def]

theorem walked_empty_output {Pos Planes : Type}
    (frustumCull : SceneObject → Pos → Planes → Int → Int × Int)
    (camera_position : Pos) (frustum : Planes) (root : SceneObject)
    (nc : Bool) (m : Int) :
    (frustum_cull frustumCull camera_position root frustum CullRun.empty nc
        m).scene_objects.map SceneObject.addr =
      ((lineage root).filter (emitted frustumCull camera_position frustum nc m)).map
        (fun x => x.2.addr) := by
  rw [frustum_cull_walked]
  simp [walked, CullRun.extend, CullRun.empty, List.map_map, Function.comp_def]

theorem mem_filter_map_addr_iff (root : SceneObject) (hw : WellFormed root)
    (q : List SceneObject × SceneObject → Bool)
    (x : List SceneObject × SceneObject) (hx : x ∈ lineage root) :
    x.2.addr ∈ ((lineage root).filter q).map (fun x => x.2.addr) ↔ q x = true := by
  constructor
  · intro h
    rcases List.mem_map.1 h with ⟨y, hy, hyx⟩
    rw [List.mem_filter] at hy
    have := List.inj_on_of_nodup_map (lineage_addr_nodup root hw) hy.1 hx hyx
    exact this ▸ hy.2
  · intro h
    exact List.mem_map.2 ⟨x, List.mem_filter.2 ⟨hx, h⟩, rfl⟩

/-! ## Hierarchical culler: the claims -/

/-- C1: called with culling active on an enabled object whose classification
is 0, `frustum_cull` returns the output list exactly as it was, whatever the
subtree below the object and whatever the list held before; the only object
entered is the object itself, no descendant is. -/
theorem C1_outside_leaves_output_unchanged {Pos Planes : Type}
    (frustumCull : SceneObject → Pos → Planes → Int → Int × Int)
    (camera_position : Pos) (frustum : Planes) (object : SceneObject)
    (run : CullRun) (planeMask : Int)
    (he : object.enabled = true)
    (h0 : (frustumCull object camera_position frustum planeMask).1 = 0) :
    (frustum_cull frustumCull camera_position object frustum run true
        planeMask).scene_objects = run.scene_objects ∧
      (frustum_cull frustumCull camera_position object frustum run true
        planeMask).entered = run.entered ++ [object] := by
  rw [frustum_cull_outside frustumCull camera_position frustum object run planeMask he h0]
  simp [CullRun.extend]

/-- Witness for C1 on `sceneTwoChildren` with every classification 0. -/
theorem C1_outside_witness :
    (frustum_cull (constantCull 0) () sceneTwoChildren () CullRun.empty true
        0).scene_objects = CullRun.empty.scene_objects ∧
      (frustum_cull (constantCull 0) () sceneTwoChildren () CullRun.empty true
        0).entered = CullRun.empty.entered ++ [sceneTwoChildren] :=
  C1_outside_leaves_output_unchanged (constantCull 0) () () sceneTwoChildren
    CullRun.empty 0 rfl rfl

/-- C2 as stated fails: in `sceneWithDisabledChild` the root is enabled and
classified 3, `hiddenLeaf` is an enabled descendant of the root, and the output
list holds the root only, so `hiddenLeaf` (address 2) is not in it. -/
theorem C2_enabled_descendant_below_disabled_is_missing :
    sceneWithDisabledChild.enabled = true ∧
      (constantCull 3 sceneWithDisabledChild () () 0).1 = 3 ∧
      hiddenLeaf ∈ preorderAll sceneWithDisabledChild.children ∧
      hiddenLeaf.enabled = true ∧
      (frustum_cull (constantCull 3) () sceneWithDisabledChild () CullRun.empty
        true 0).scene_objects = [sceneWithDisabledChild] ∧
      hiddenLeaf.addr ∉
        (frustum_cull (constantCull 3) () sceneWithDisabledChild () CullRun.empty
          true 0).scene_objects.map SceneObject.addr := by
  refine ⟨rfl, rfl, ?_, rfl, rfl, by decide⟩
  simp [sceneWithDisabledChild, hiddenLeaf, SceneObject.children, preorderAll, preorder]

/-- C2, amended: with culling active on an enabled object classified 3, every
object of the subtree that is enabled and whose ancestors up to that object are
all enabled is in the output list afterwards, whatever the classification
answers on the descendants; the classification is evaluated on the object
itself and on nothing else. -/
theorem C2_inside_includes_enabled_paths {Pos Planes : Type}
    (frustumCull : SceneObject → Pos → Planes → Int → Int × Int)
    (camera_position : Pos) (frustum : Planes) (object : SceneObject)
    (run : CullRun) (planeMask : Int)
    (he : object.enabled = true)
    (h3 : (frustumCull object camera_position frustum planeMask).1 = 3) :
    (∀ x ∈ lineage object, enabledPath x = true →
        x.2 ∈ (frustum_cull frustumCull camera_position object frustum run true
          planeMask).scene_objects) ∧
      (frustum_cull frustumCull camera_position object frustum run true
        planeMask).classified = run.classified ++ [object] := by
  rw [frustum_cull_inside frustumCull camera_position frustum object run planeMask he h3]
  refine ⟨fun x hx hp => ?_, by simp [CullRun.extend]⟩
  have := enabledPath_mem_inside object x hx hp
  simp only [CullRun.extend, List.append_assoc, List.mem_append]
  exact Or.inr (by simpa using this)

/-- Witness for the amended C2 on `sceneTwoChildren` with every classification 3. -/
theorem C2_inside_witness :
    (∀ x ∈ lineage sceneTwoChildren, enabledPath x = true →
        x.2 ∈ (frustum_cull (constantCull 3) () sceneTwoChildren () CullRun.empty
          true 0).scene_objects) ∧
      (frustum_cull (constantCull 3) () sceneTwoChildren () CullRun.empty true
        0).classified = CullRun.empty.classified ++ [sceneTwoChildren] :=
  C2_inside_includes_enabled_paths (constantCull 3) () () sceneTwoChildren
    CullRun.empty 0 rfl rfl

/-- C3: called on an object with `enabled() = false`, `frustum_cull` returns
with the output list unchanged for both values of `need_cull` and every plane
mask; no classification is evaluated, and the object is the only one entered,
so that nothing below it is appended. -/
theorem C3_disabled_is_skipped_with_subtree {Pos Planes : Type}
    (frustumCull : SceneObject → Pos → Planes → Int → Int × Int)
    (camera_position : Pos) (frustum : Planes) (object : SceneObject)
    (run : CullRun) (need_cull : Bool) (planeMask : Int)
    (hd : object.enabled = false) :
    (frustum_cull frustumCull camera_position object frustum run need_cull
        planeMask).scene_objects = run.scene_objects ∧
      (frustum_cull frustumCull camera_position object frustum run need_cull
        planeMask).classified = run.classified ∧
      (frustum_cull frustumCull camera_position object frustum run need_cull
        planeMask).entered = run.entered ++ [object] := by
  rw [frustum_cull_disabled frustumCull camera_position frustum object run need_cull
    planeMask hd]
  simp [CullRun.extend]

/-- Witness for C3 on a disabled object with an enabled child. -/
theorem C3_disabled_witness :
    (frustum_cull (constantCull 3) () (.mk 1 false [hiddenLeaf]) () CullRun.empty
        false 5).scene_objects = CullRun.empty.scene_objects ∧
      (frustum_cull (constantCull 3) () (.mk 1 false [hiddenLeaf]) () CullRun.empty
        false 5).classified = CullRun.empty.classified ∧
      (frustum_cull (constantCull 3) () (.mk 1 false [hiddenLeaf]) () CullRun.empty
        false 5).entered = CullRun.empty.entered ++ [.mk 1 false [hiddenLeaf]] :=
  C3_disabled_is_skipped_with_subtree (constantCull 3) () ()
    (.mk 1 false [hiddenLeaf]) CullRun.empty false 5 rfl

/-- C4: for a well-formed scene whose enabled root has exactly the two enabled
children `A` and `B` (in either order), with frustum culling switched on, the
root classified 1 or 2, `A` classified 3 and `B` classified 0, the list that
`cullFromCamera` obtains from `frustum_cull` contains `A` and every object
below `A` that is enabled along its whole path from `A`, and contains no object
of the subtree of `B` (neither `B` nor a descendant of `B`). -/
theorem C4_two_children_scenario {Pos Planes : Type}
    (frustumCull : SceneObject → Pos → Planes → Int → Int × Int)
    (camera_position : Pos) (frustum : Planes) (root A B : SceneObject)
    (hw : WellFormed root)
    (hR : root.enabled = true)
    (hch : root.children = [A, B] ∨ root.children = [B, A])
    (hA : A.enabled = true) (hB : B.enabled = true)
    (hroot : (frustumCull root camera_position frustum 0).1 = 1 ∨
      (frustumCull root camera_position frustum 0).1 = 2)
    (hAin : (frustumCull A camera_position frustum
      (frustumCull root camera_position frustum 0).2).1 = 3)
    (hBout : (frustumCull B camera_position frustum
      (frustumCull root camera_position frustum 0).2).1 = 0) :
    A ∈ cullFromCamera frustumCull camera_position frustum root true ∧
      (∀ x ∈ lineage A, enabledPath x = true →
        x.2 ∈ cullFromCamera frustumCull camera_position frustum root true) ∧
      (∀ d ∈ preorder B,
        d.addr ∉ (cullFromCamera frustumCull camera_position frustum
          root true).map SceneObject.addr) := by
  rw [cullFromCamera_two_children frustumCull camera_position frustum root A B hR hch
    hA hB hroot hAin hBout]
  refine ⟨?_, fun x hx hp => ?_, fun d hd hmem => ?_⟩
  · exact List.mem_append_right _ (List.mem_cons_self _ _)
  · exact List.mem_append_right _ (enabledPath_mem_inside A x hx hp)
  · obtain ⟨hrB, hdisj⟩ := two_children_addr_disjoint root A B hch hw
    rcases List.mem_map.1 hmem with ⟨y, hy, hyd⟩
    rcases List.mem_append.1 hy with hy | hy
    · split at hy
      · rw [List.mem_singleton] at hy
        subst hy
        exact hrB d hd hyd.symm
      · cases hy
    · have hyA : y ∈ preorder A := by
        rw [preorder_eq_cons]
        rcases List.mem_cons.1 hy with h | h
        · exact h ▸ List.mem_cons_self _ _
        · exact List.mem_cons_of_mem _ (filter_lineageAll_subset _ _ h)
      exact hdisj d hd y hyA hyd

/-- Witness for C4 on `sceneTwoChildren` with `cullTwoChildren`. -/
theorem C4_two_children_witness :
    childA ∈ cullFromCamera cullTwoChildren () () sceneTwoChildren true ∧
      (∀ x ∈ lineage childA, enabledPath x = true →
        x.2 ∈ cullFromCamera cullTwoChildren () () sceneTwoChildren true) ∧
      (∀ d ∈ preorder childB,
        d.addr ∉ (cullFromCamera cullTwoChildren () ()
          sceneTwoChildren true).map SceneObject.addr) :=
  C4_two_children_scenario cullTwoChildren () () sceneTwoChildren childA childB
    (by decide) rfl (Or.inl rfl) rfl rfl (Or.inl rfl) rfl rfl

/-- C5: called with `need_cull = false`, `frustum_cull` appends exactly the
objects of the subtree that are enabled and whose ancestors inside the subtree
are all enabled, in pre-order; this holds for every classification function,
and no classification is evaluated. -/
theorem C5_cull_disabled_appends_enabled_paths {Pos Planes : Type}
    (frustumCull : SceneObject → Pos → Planes → Int → Int × Int)
    (camera_position : Pos) (frustum : Planes) (object : SceneObject)
    (run : CullRun) (planeMask : Int) :
    (frustum_cull frustumCull camera_position object frustum run false
        planeMask).scene_objects =
        run.scene_objects ++ ((lineage object).filter enabledPath).map Prod.snd ∧
      (frustum_cull frustumCull camera_position object frustum run false
        planeMask).classified = run.classified := by
  rw [frustum_cull_walked, walked_false]
  simp [CullRun.extend]

/-- C6: for every tree, classification and initial output list, the output of
`frustum_cull` is the initial list followed by a sublist of the pre-order
listing of the tree rooted at the argument (an object before the objects below
it, the subtree of an earlier child before that of a later child). -/
theorem C6_output_is_sublist_of_preorder {Pos Planes : Type}
    (frustumCull : SceneObject → Pos → Planes → Int → Int × Int)
    (camera_position : Pos) (frustum : Planes) (object : SceneObject)
    (run : CullRun) (need_cull : Bool) (planeMask : Int) :
    (∃ l : List SceneObject,
      (frustum_cull frustumCull camera_position object frustum run need_cull
        planeMask).scene_objects = run.scene_objects ++ l ∧
      l.Sublist (preorder object)) ∧
      preorder object = object :: (object.children.map preorder).flatten := by
  refine ⟨⟨((lineage object).filter
    (emitted frustumCull camera_position frustum need_cull planeMask)).map Prod.snd,
    ?_, emitted_sublist_preorder frustumCull camera_position frustum object _ _⟩,
    preorder_eq_flatten object⟩
  rw [frustum_cull_walked]
  rfl

/-- C7: in a well-formed scene (a finite tree of distinct objects) one run of
`frustum_cull` from the root enters every object that the walk can reach (all
its proper ancestors enabled, none of them classified 0 while culling was
active) exactly once and every other object not at all; no object is appended
to the output list more than once; and no object below a disabled object is
entered. -/
theorem C7_reachable_objects_entered_exactly_once {Pos Planes : Type}
    (frustumCull : SceneObject → Pos → Planes → Int → Int × Int)
    (camera_position : Pos) (frustum : Planes) (root : SceneObject)
    (need_cull : Bool) (planeMask : Int) (hw : WellFormed root) :
    (∀ x ∈ lineage root,
        ((frustum_cull frustumCull camera_position root frustum CullRun.empty
          need_cull planeMask).entered.map SceneObject.addr).count x.2.addr =
        if reaches frustumCull camera_position frustum need_cull planeMask x
          then 1 else 0) ∧
      ((frustum_cull frustumCull camera_position root frustum CullRun.empty
        need_cull planeMask).scene_objects.map SceneObject.addr).Nodup ∧
      (∀ x ∈ lineage root, (∃ a ∈ x.1, a.enabled = false) →
        x.2.addr ∉ (frustum_cull frustumCull camera_position root frustum
          CullRun.empty need_cull planeMask).entered.map SceneObject.addr) := by
  rw [walked_empty_entered, walked_empty_output]
  have hnd := lineage_addr_nodup root hw
  have hsub : ∀ q : List SceneObject × SceneObject → Bool,
      (((lineage root).filter q).map (fun x => x.2.addr)).Nodup :=
    fun q => List.Nodup.sublist ((List.filter_sublist _).map _) hnd
  refine ⟨fun x hx => ?_, hsub _, fun x hx hdis hmem => ?_⟩
  · rw [List.count_eq_of_nodup (hsub _)]
    simp only [mem_filter_map_addr_iff root hw _ x hx]
  · rw [mem_filter_map_addr_iff root hw _ x hx] at hmem
    obtain ⟨a, ha, hfalse⟩ := hdis
    have hsome : (arrive frustumCull camera_position frustum x.1 need_cull
        planeMask).isSome = true := by
      rw [← hmem, reaches_eq_isSome]
    have := arrive_some_all_enabled frustumCull camera_position frustum x.1 need_cull
      planeMask hsome a ha
    rw [hfalse] at this
    cases this

/-- Witness for C7 on `sceneTwoChildren` with `cullTwoChildren`. -/
theorem C7_entered_once_witness :
    (∀ x ∈ lineage sceneTwoChildren,
        ((frustum_cull cullTwoChildren () sceneTwoChildren () CullRun.empty
          true 0).entered.map SceneObject.addr).count x.2.addr =
        if reaches cullTwoChildren () () true 0 x then 1 else 0) ∧
      ((frustum_cull cullTwoChildren () sceneTwoChildren () CullRun.empty
        true 0).scene_objects.map SceneObject.addr).Nodup ∧
      (∀ x ∈ lineage sceneTwoChildren, (∃ a ∈ x.1, a.enabled = false) →
        x.2.addr ∉ (frustum_cull cullTwoChildren () sceneTwoChildren ()
          CullRun.empty true 0).entered.map SceneObject.addr) :=
  C7_reachable_objects_entered_exactly_once cullTwoChildren () () sceneTwoChildren
    true 0 (by decide)

end culler

section reclaimer

open RunOnGlThread

/-! ## Lemmas on the reclaimer -/

theorem std_remove_eq_filter (value : Nat) : ∀ (l : List Nat),
    std_remove l value = l.filter (fun x => decide (x ≠ value))
  | [] => rfl
  | x :: rest => by
    by_cases h : x = value <;>
      simp [std_remove, List.filter_cons, h, std_remove_eq_filter value rest]

/-- One valid handle queued: the effect on every component. -/
theorem queue_valid (s : RunOnGlThread) (G : Nat) (k : ResourceKind) (h : Nat)
    (hv : h ≠ G) :
    (s.queue G k h).pending k = s.pending k ++ [h] ∧
      (∀ k2, k2 ≠ k → (s.queue G k h).pending k2 = s.pending k2) ∧
      (s.queue G k h).dirty = true ∧
      (s.queue G k h).runnables_ = s.runnables_ ∧
      (s.queue G k h).issued = s.issued ∧
      (s.queue G k h).warnings = s.warnings := by
  cases k <;>
    simp [queue, pending, queueBuffer, queueFrameBuffer, queueProgram,
      queueRenderBuffer, queueShader, queueTexture, queueVertexArray, hv] <;>
    intro k2 hk2 <;> cases k2 <;> simp_all

/-- One invalid handle queued: only a warning is logged. -/
theorem queue_invalid (s : RunOnGlThread) (G : Nat) (k : ResourceKind) :
    (∀ k2, (s.queue G k G).pending k2 = s.pending k2) ∧
      (s.queue G k G).dirty = s.dirty ∧
      (s.queue G k G).runnables_ = s.runnables_ ∧
      (s.queue G k G).issued = s.issued := by
  cases k <;>
    simp [queue, pending, queueBuffer, queueFrameBuffer, queueProgram,
      queueRenderBuffer, queueShader, queueTexture, queueVertexArray,
      logInvalidParameter]

theorem queueAll_valid (G : Nat) (k : ResourceKind) :
    ∀ (hs : List Nat) (s : RunOnGlThread), (∀ h ∈ hs, h ≠ G) →
      (s.queueAll G k hs).pending k = s.pending k ++ hs ∧
        (∀ k2, k2 ≠ k → (s.queueAll G k hs).pending k2 = s.pending k2) ∧
        (s.queueAll G k hs).dirty = (s.dirty || !hs.isEmpty) ∧
        (s.queueAll G k hs).runnables_ = s.runnables_ ∧
        (s.queueAll G k hs).issued = s.issued
  | [], s, _ => by simp [queueAll]
  | h :: rest, s, hv => by
    have h1 := queue_valid s G k h (hv h (List.mem_cons_self _ _))
    have h2 := queueAll_valid G k rest (s.queue G k h)
      (fun x hx => hv x (List.mem_cons_of_mem _ hx))
    have he : s.queueAll G k (h :: rest) = (s.queue G k h).queueAll G k rest := rfl
    rw [he]
    obtain ⟨a1, a2, a3, a4, a5, _⟩ := h1
    obtain ⟨b1, b2, b3, b4, b5⟩ := h2
    refine ⟨by rw [b1, a1]; simp, fun k2 hk => by rw [b2 k2 hk, a2 k2 hk],
      by rw [b3, a3]; simp, by rw [b4, a4], by rw [b5, a5]⟩

theorem processQueues_dirty (s : RunOnGlThread) (hd : s.dirty = true) :
    s.processQueues =
      { s with
        buffers_ := [], frame_buffers_ := [], programs_ := [], render_buffers_ := [],
        shaders_ := [], textures_ := [], vertex_arrays_ := [], runnables_ := [],
        dirty := false, issued := s.issued ++ flushCalls s } := by
  obtain ⟨b, f, p, r, sh, t, v, ru, d, i, w⟩ := s
  simp only at hd
  subst hd
  cases b <;> cases f <;> cases p <;> cases r <;> cases sh <;> cases t <;> cases v <;>
    simp [processQueues, flushCalls, bulk]

theorem processQueues_clean (s : RunOnGlThread) (hd : s.dirty = false) :
    s.processQueues = s := by
  simp [processQueues, hd]

theorem mem_bulk (call : Nat → List Nat → GlEvent) (l : List Nat) (e : GlEvent)
    (he : e ∈ bulk call l) : l ≠ [] ∧ e = call l.length l := by
  cases l with
  | nil => simp [bulk] at he
  | cons x rest => simpa [bulk] using he

theorem mem_flushCalls (s : RunOnGlThread) (e : GlEvent) (he : e ∈ flushCalls s) :
    (∃ k, s.pending k ≠ [] ∧ e.isDeletionOf k = true ∧
        ∀ k2, e.isDeletionOf k2 = true → k2 = k) ∨
      (∃ r ∈ s.runnables_, e = GlEvent.runOnGlThread r) := by
  simp only [flushCalls, List.mem_append, List.mem_map] at he
  rcases he with ((((((h | h) | h) | h) | h) | h) | h) | h
  · obtain ⟨hne, rfl⟩ := mem_bulk _ _ _ h
    exact Or.inl ⟨.buffer, hne, rfl, fun k2 hk => by cases k2 <;> first | rfl | cases hk⟩
  · obtain ⟨hne, rfl⟩ := mem_bulk _ _ _ h
    exact Or.inl ⟨.framebuffer, hne, rfl,
      fun k2 hk => by cases k2 <;> first | rfl | cases hk⟩
  · obtain ⟨x, hx, rfl⟩ := h
    exact Or.inl ⟨.program, List.ne_nil_of_mem hx, rfl,
      fun k2 hk => by cases k2 <;> first | rfl | cases hk⟩
  · obtain ⟨hne, rfl⟩ := mem_bulk _ _ _ h
    exact Or.inl ⟨.renderbuffer, hne, rfl,
      fun k2 hk => by cases k2 <;> first | rfl | cases hk⟩
  · obtain ⟨x, hx, rfl⟩ := h
    exact Or.inl ⟨.shader, List.ne_nil_of_mem hx, rfl,
      fun k2 hk => by cases k2 <;> first | rfl | cases hk⟩
  · obtain ⟨hne, rfl⟩ := mem_bulk _ _ _ h
    exact Or.inl ⟨.texture, hne, rfl, fun k2 hk => by cases k2 <;> first | rfl | cases hk⟩
  · obtain ⟨hne, rfl⟩ := mem_bulk _ _ _ h
    exact Or.inl ⟨.vertexArray, hne, rfl,
      fun k2 hk => by cases k2 <;> first | rfl | cases hk⟩
  · obtain ⟨x, hx, rfl⟩ := h
    exact Or.inr ⟨x, hx, rfl⟩

theorem flatMap_bulk (call : Nat → List Nat → GlEvent) (k : ResourceKind)
    (l : List Nat) :
    (bulk call l).flatMap (fun e => e.deletes k) =
      if l.length > 0 then (call l.length l).deletes k else [] := by
  unfold bulk
  split <;> simp

theorem flatMap_map_call (call : Nat → GlEvent) (k : ResourceKind) (l : List Nat) :
    (l.map call).flatMap (fun e => e.deletes k) =
      l.flatMap (fun h => (call h).deletes k) := by
  induction l with
  | nil => rfl
  | cons x rest ih => simp [List.flatMap_cons, ih]

theorem ite_length_pos (l : List Nat) : (if l.length > 0 then l else []) = l := by
  cases l <;> simp

theorem flatMap_singleton_id (l : List Nat) : l.flatMap (fun h => [h]) = l := by
  induction l with
  | nil => rfl
  | cons x rest ih => simp [List.flatMap_cons, ih]

theorem flatMap_const_nil (l : List Nat) :
    l.flatMap (fun _ => ([] : List Nat)) = [] := by
  induction l with
  | nil => rfl
  | cons x rest ih => simp [List.flatMap_cons, ih]

theorem flushCalls_deletes (s : RunOnGlThread) (k : ResourceKind) :
    (flushCalls s).flatMap (fun e => e.deletes k) = s.pending k := by
  simp only [flushCalls, List.flatMap_append, flatMap_bulk, flatMap_map_call]
  cases k <;>
    simp [GlEvent.deletes, pending, ite_length_pos, flatMap_singleton_id,
      flatMap_const_nil]

/-! ## Deferred reclaimer: the claims -/

/-- C8: round trip of the deferred reclaimer. For every resource kind `k`,
starting from a state whose queue of kind `k` is empty, queueing any list `hs`
of valid handles with the queue operation of `k` and then calling
`processQueues` once leaves the queue of `k` empty and issues deletions of
kind `k` for exactly the handles `hs`, in queue order; when `hs` is empty no
deletion call of kind `k` is issued; and when nothing else was pending, no
other call is issued at all. -/
theorem C8_queue_then_flush_round_trip (GVR_INVALID : Nat) (k : ResourceKind)
    (s : RunOnGlThread) (hs : List Nat)
    (hempty : s.pending k = [])
    (hvalid : ∀ h ∈ hs, h ≠ GVR_INVALID) :
    ((s.queueAll GVR_INVALID k hs).processQueues).pending k = [] ∧
      ∃ evs : List GlEvent,
        ((s.queueAll GVR_INVALID k hs).processQueues).issued = s.issued ++ evs ∧
        evs.flatMap (fun e => e.deletes k) = hs ∧
        (hs = [] → ∀ e ∈ evs, e.isDeletionOf k = false) ∧
        ((∀ k2, s.pending k2 = []) → s.runnables_ = [] →
          ∀ e ∈ evs, e.isDeletionOf k = true) := by
  obtain ⟨q1, q2, q3, q4, q5⟩ := queueAll_valid GVR_INVALID k hs s hvalid
  rw [hempty, List.nil_append] at q1
  cases hd : (s.queueAll GVR_INVALID k hs).dirty with
  | true =>
    rw [processQueues_dirty _ hd]
    refine ⟨by cases k <;> rfl, flushCalls (s.queueAll GVR_INVALID k hs),
      by rw [q5], by rw [flushCalls_deletes, q1], fun hnil e he => ?_,
      fun hall hrun e he => ?_⟩
    · rcases mem_flushCalls _ e he with ⟨k1, hne, _, huniq⟩ | ⟨r, _, rfl⟩
      · cases hk : e.isDeletionOf k with
        | false => rfl
        | true =>
          have := huniq k hk
          subst this
          rw [q1] at hne
          exact absurd hnil hne
      · cases k <;> rfl
    · rcases mem_flushCalls _ e he with ⟨k1, hne, hdel, _⟩ | ⟨r, hr, rfl⟩
      · by_cases hk : k1 = k
        · exact hk ▸ hdel
        · rw [q2 k1 hk, hall k1] at hne
          exact absurd rfl hne
      · rw [q4, hrun] at hr
        cases hr
  | false =>
    rw [processQueues_clean _ hd]
    rw [q3] at hd
    have hnil : hs = [] := by
      cases hs with
      | nil => rfl
      | cons x rest => simp at hd
    subst hnil
    exact ⟨q1, [], by rw [q5, List.append_nil], rfl, fun _ e he => (by cases he),
      fun _ _ e he => (by cases he)⟩

/-- Witness for C8: one `queueTexture` on a fresh reclaimer, then one
`processQueues`. -/
theorem C8_one_texture_witness :
    ((((RunOnGlThread.fresh false).queueAll 0 .texture [7]).processQueues).pending
        .texture = [] ∧
      ∃ evs : List GlEvent,
        (((RunOnGlThread.fresh false).queueAll 0 .texture [7]).processQueues).issued =
          (RunOnGlThread.fresh false).issued ++ evs ∧
        evs.flatMap (fun e => e.deletes .texture) = [7] ∧
        (([7] : List Nat) = [] → ∀ e ∈ evs, e.isDeletionOf .texture = false) ∧
        ((∀ k2, (RunOnGlThread.fresh false).pending k2 = []) →
          (RunOnGlThread.fresh false).runnables_ = [] →
          ∀ e ∈ evs, e.isDeletionOf .texture = true)) ∧
      (((RunOnGlThread.fresh false).queueTexture 0 7).processQueues).issued =
        [GlEvent.glDeleteTextures 1 [7]] ∧
      (((RunOnGlThread.fresh false).queueTexture 0 7).processQueues).textures_ = [] :=
  ⟨C8_queue_then_flush_round_trip 0 .texture (RunOnGlThread.fresh false) [7] rfl
    (by decide), by decide, by decide⟩

/-- C9: `cancelRunnable r` removes every occurrence of `r` from the pending
runnables and keeps the others in their order, so that the next
`processQueues` does not invoke `r`; and a `cancelRunnable` issued after a
`processQueues` that flushed (the reclaimer was dirty, so every pending
runnable has run) changes nothing. -/
theorem C9_cancel_runnable (s : RunOnGlThread) (r : Nat) :
    (s.cancelRunnable r).runnables_ =
        s.runnables_.filter (fun x => decide (x ≠ r)) ∧
      r ∉ (s.cancelRunnable r).runnables_ ∧
      (∃ evs : List GlEvent,
        ((s.cancelRunnable r).processQueues).issued = s.issued ++ evs ∧
        GlEvent.runOnGlThread r ∉ evs) ∧
      (s.dirty = true → (s.processQueues).cancelRunnable r = s.processQueues) := by
  have hf : (s.cancelRunnable r).runnables_ =
      s.runnables_.filter (fun x => decide (x ≠ r)) := std_remove_eq_filter r _
  have hnot : r ∉ (s.cancelRunnable r).runnables_ := by
    rw [hf]
    simp [List.mem_filter]
  refine ⟨hf, hnot, ?_, fun hd => ?_⟩
  · cases hd : (s.cancelRunnable r).dirty with
    | true =>
      rw [processQueues_dirty _ hd]
      refine ⟨flushCalls (s.cancelRunnable r), rfl, fun hmem => ?_⟩
      rcases mem_flushCalls _ _ hmem with ⟨k1, _, hdel, _⟩ | ⟨x, hx, hxr⟩
      · cases k1 <;> cases hdel
      · cases hxr
        exact hnot hx
    | false =>
      rw [processQueues_clean _ hd]
      exact ⟨[], by simp [cancelRunnable], fun h => by cases h⟩
  · rw [processQueues_dirty _ hd]
    rfl

/-- Witness for C9: runnable 4 is queued twice among others and cancelled;
the last part is applied to a dirty reclaimer. -/
theorem C9_cancel_runnable_witness :
    ((((RunOnGlThread.fresh false).queueRunnable 4).queueRunnable 9).queueRunnable
        4).dirty = true ∧
      (((((RunOnGlThread.fresh false).queueRunnable 4).queueRunnable 9).queueRunnable
        4).processQueues).cancelRunnable 4 =
      ((((RunOnGlThread.fresh false).queueRunnable 4).queueRunnable 9).queueRunnable
        4).processQueues :=
  ⟨rfl, (C9_cancel_runnable
    ((((RunOnGlThread.fresh false).queueRunnable 4).queueRunnable 9).queueRunnable 4)
    4).2.2.2 rfl⟩

/-- C10: each of the seven queue operations, called with `GVR_INVALID`, leaves
all seven queues, the runnables, the dirty flag and the issued calls unchanged
and only logs one warning; called with any other handle it appends the handle
at the end of the queue of its own kind, leaves the other queues unchanged and
sets `dirty`. -/
theorem C10_invalid_handle_dropped (GVR_INVALID : Nat) (k : ResourceKind)
    (s : RunOnGlThread) (h : Nat) :
    ((∀ k2, (s.queue GVR_INVALID k GVR_INVALID).pending k2 = s.pending k2) ∧
        (s.queue GVR_INVALID k GVR_INVALID).dirty = s.dirty ∧
        (s.queue GVR_INVALID k GVR_INVALID).runnables_ = s.runnables_ ∧
        (s.queue GVR_INVALID k GVR_INVALID).issued = s.issued ∧
        (s.queue GVR_INVALID k GVR_INVALID).warnings.length =
          s.warnings.length + 1) ∧
      (h ≠ GVR_INVALID →
        (s.queue GVR_INVALID k h).pending k = s.pending k ++ [h] ∧
        (∀ k2, k2 ≠ k → (s.queue GVR_INVALID k h).pending k2 = s.pending k2) ∧
        (s.queue GVR_INVALID k h).dirty = true ∧
        (s.queue GVR_INVALID k h).runnables_ = s.runnables_ ∧
        (s.queue GVR_INVALID k h).issued = s.issued ∧
        (s.queue GVR_INVALID k h).warnings = s.warnings) := by
  refine ⟨?_, fun hv => queue_valid s GVR_INVALID k h hv⟩
  obtain ⟨a1, a2, a3, a4⟩ := queue_invalid s GVR_INVALID k
  refine ⟨a1, a2, a3, a4, ?_⟩
  cases k <;>
    simp [queue, queueBuffer, queueFrameBuffer, queueProgram, queueRenderBuffer,
      queueShader, queueTexture, queueVertexArray, logInvalidParameter]

/-- Witness for C10: a valid texture handle queued on a fresh reclaimer. -/
theorem C10_valid_handle_witness :
    ((RunOnGlThread.fresh false).queue 0 .texture 7).pending .texture =
        (RunOnGlThread.fresh false).pending .texture ++ [7] ∧
      (∀ k2, k2 ≠ ResourceKind.texture →
        ((RunOnGlThread.fresh false).queue 0 .texture 7).pending k2 =
          (RunOnGlThread.fresh false).pending k2) ∧
      ((RunOnGlThread.fresh false).queue 0 .texture 7).dirty = true ∧
      ((RunOnGlThread.fresh false).queue 0 .texture 7).runnables_ =
        (RunOnGlThread.fresh false).runnables_ ∧
      ((RunOnGlThread.fresh false).queue 0 .texture 7).issued =
        (RunOnGlThread.fresh false).issued ∧
      ((RunOnGlThread.fresh false).queue 0 .texture 7).warnings =
        (RunOnGlThread.fresh false).warnings :=
  (C10_invalid_handle_dropped 0 .texture (RunOnGlThread.fresh false) 7).2 (by decide)

end reclaimer

section threadlocal

/-- C11: `getInstance` ends in the fatal error exactly when the thread-local
lookup of the calling thread yields the null pointer; in every other case it
returns exactly the pointer found by the lookup. -/
theorem C11_getInstance_fatal_iff_no_deleter (tls : Nat → Nat) (thread : Nat) :
    ((∃ msg, RunOnGlThread.getInstance tls thread = .error msg) ↔
        tls thread = nullptr) ∧
      (tls thread ≠ nullptr →
        RunOnGlThread.getInstance tls thread = .ok (tls thread)) := by
  unfold RunOnGlThread.getInstance
  by_cases h : nullptr = tls thread
  · rw [if_pos h]
    exact ⟨⟨fun _ => h.symm, fun _ => ⟨_, rfl⟩⟩, fun hne => absurd h.symm hne⟩
  · rw [if_neg h]
    refine ⟨⟨fun hex => ?_, fun e => absurd e.symm h⟩, fun _ => rfl⟩
    obtain ⟨msg, hmsg⟩ := hex
    cases hmsg

/-- Witness for C11: thread 1 has the reclaimer at address 64 associated. -/
theorem C11_getInstance_witness :
    RunOnGlThread.getInstance (fun t => if t = 1 then 64 else 0) 1 =
      .ok ((fun t => if t = 1 then 64 else 0) 1) :=
  (C11_getInstance_fatal_iff_no_deleter (fun t => if t = 1 then 64 else 0) 1).2
    (by decide)

end threadlocal

section frustum

open Renderer

theorem build_frustum_identity {K : Type} [Field K] (sqrt : K → K)
    (h1 : sqrt 1 = 1) :
    build_frustum sqrt (identity_matrix : Nat → K) = clip_cube_planes := by
  simp [build_frustum, extract_planes, normalize_plane, plane_norm, identity_matrix,
    clip_cube_planes, h1]

/-- C15: for the identity view-projection matrix `build_frustum`, computed
exactly in a field with a square root that maps 1 to 1 (the reals with
`Real.sqrt`, or the rationals), yields the planes (-1,0,0,1), (1,0,0,1),
(0,1,0,1), (0,-1,0,1), (0,0,-1,1), (0,0,1,1) in the order right, left, bottom,
top, far, near. -/
theorem C15_identity_gives_clip_cube :
    build_frustum Real.sqrt (identity_matrix : Nat → ℝ) = clip_cube_planes ∧
      ∀ (sqrt : ℚ → ℚ), sqrt 1 = 1 →
        build_frustum sqrt (identity_matrix : Nat → ℚ) = clip_cube_planes :=
  ⟨build_frustum_identity Real.sqrt Real.sqrt_one,
    fun sqrt h1 => build_frustum_identity sqrt h1⟩

/-- Witness for C15 over the rationals, the square root of 1 being 1. -/
theorem C15_identity_witness :
    build_frustum (fun x : ℚ => x) (identity_matrix : Nat → ℚ) = clip_cube_planes :=
  C15_identity_gives_clip_cube.2 (fun x => x) rfl

theorem mem_zip_map_self {α β : Type} (f : α → β) : ∀ (l : List α) (x : α × β),
    x ∈ l.zip (l.map f) → x.2 = f x.1
  | [], _, hx => by cases hx
  | a :: rest, x, hx => by
    rw [List.map_cons, List.zip_cons_cons, List.mem_cons] at hx
    rcases hx with rfl | hx
    · rfl
    · exact mem_zip_map_self f rest x hx

theorem normalize_plane_unit (p : Plane ℝ)
    (hn : p.a ≠ 0 ∨ p.b ≠ 0 ∨ p.c ≠ 0) :
    (normalize_plane Real.sqrt p).a ^ 2 + (normalize_plane Real.sqrt p).b ^ 2 +
        (normalize_plane Real.sqrt p).c ^ 2 = 1 ∧
      (normalize_plane Real.sqrt p).d =
        p.d / Real.sqrt (p.a * p.a + p.b * p.b + p.c * p.c) := by
  have hpos : 0 < p.a * p.a + p.b * p.b + p.c * p.c := by
    rcases hn with h | h | h
    · have := mul_self_pos.2 h
      nlinarith [mul_self_nonneg p.b, mul_self_nonneg p.c]
    · have := mul_self_pos.2 h
      nlinarith [mul_self_nonneg p.a, mul_self_nonneg p.c]
    · have := mul_self_pos.2 h
      nlinarith [mul_self_nonneg p.a, mul_self_nonneg p.b]
  have ht : 0 < Real.sqrt (p.a * p.a + p.b * p.b + p.c * p.c) := Real.sqrt_pos.2 hpos
  have hsq : Real.sqrt (p.a * p.a + p.b * p.b + p.c * p.c) ^ 2 =
      p.a * p.a + p.b * p.b + p.c * p.c := Real.sq_sqrt hpos.le
  refine ⟨?_, rfl⟩
  simp only [normalize_plane, plane_norm]
  rw [div_pow, div_pow, div_pow, ← add_div, ← add_div, hsq]
  rw [div_eq_one_iff_eq hpos.ne']
  ring

/-- C16: for every view-projection matrix, each plane produced by
`build_frustum` over the reals whose extracted normal (A, B, C) is not the zero
vector satisfies A^2 + B^2 + C^2 = 1, and its D is the extracted D divided by
the norm of the extracted normal; in particular this holds for all six planes
when all six extracted normals are non-zero. -/
theorem C16_planes_have_unit_normal (vp_matrix : Nat → ℝ) :
    (build_frustum Real.sqrt vp_matrix).length = 6 ∧
      ∀ x ∈ (extract_planes vp_matrix).zip (build_frustum Real.sqrt vp_matrix),
        (x.1.a ≠ 0 ∨ x.1.b ≠ 0 ∨ x.1.c ≠ 0) →
          x.2.a ^ 2 + x.2.b ^ 2 + x.2.c ^ 2 = 1 ∧
            x.2.d = x.1.d / Real.sqrt (x.1.a * x.1.a + x.1.b * x.1.b + x.1.c * x.1.c) := by
  refine ⟨rfl, fun x hx hn => ?_⟩
  have hx2 : x.2 = normalize_plane Real.sqrt x.1 :=
    mem_zip_map_self (normalize_plane Real.sqrt) _ x hx
  rw [hx2]
  exact normalize_plane_unit x.1 hn

/-- Witness for C16 at the identity matrix, whose six extracted normals are
non-zero. -/
theorem C16_unit_normal_witness :
    (build_frustum Real.sqrt (identity_matrix : Nat → ℝ)).length = 6 ∧
      ∀ x ∈ (extract_planes (identity_matrix : Nat → ℝ)).zip
          (build_frustum Real.sqrt identity_matrix),
        (x.1.a ≠ 0 ∨ x.1.b ≠ 0 ∨ x.1.c ≠ 0) →
          x.2.a ^ 2 + x.2.b ^ 2 + x.2.c ^ 2 = 1 ∧
            x.2.d = x.1.d / Real.sqrt (x.1.a * x.1.a + x.1.b * x.1.b + x.1.c * x.1.c) :=
  C16_planes_have_unit_normal identity_matrix

end frustum

section occlusion

open Renderer

theorem addRenderData_eq (render_data : Option RenderData) (v : List RenderData) :
    addRenderData render_data v =
      v ++ (render_data.filter RenderData.accepted).toList := by
  cases render_data with
  | none => simp [addRenderData]
  | some rd =>
    cases hm : rd.material0 <;> cases he : rd.enabled <;> cases hs : rd.mesh <;>
      by_cases hk : rd.render_mask = 0 <;>
      simp [addRenderData, RenderData.accepted, Option.filter, hm, he, hs, hk]

theorem foldl_addRenderData (l : List OcclusionObject) : ∀ (p : OcclusionPass),
    (l.foldl (fun p scene_object =>
        ({ render_data_vector :=
            addRenderData scene_object.render_data p.render_data_vector,
           objects := p.objects ++ [scene_object],
           trace := p.trace ++ [OcclusionEvent.pick scene_object.addr] } :
          OcclusionPass)) p).render_data_vector =
      p.render_data_vector ++
        l.filterMap (fun o => o.render_data.filter RenderData.accepted) := by
  induction l with
  | nil => intro p; simp
  | cons o rest ih =>
    intro p
    rw [List.foldl_cons, ih, addRenderData_eq]
    cases h : Option.filter RenderData.accepted o.render_data <;>
      simp [List.filterMap_cons, h]

/-- The candidates whose render data the pass with occlusion culling hands to
`addRenderData`: a query in flight whose result is available. -/
theorem occlusion_cull_object_vector (gl : QueryResults) (o : OcclusionObject)
    (p : OcclusionPass) :
    (occlusion_cull_object gl o p).render_data_vector =
      p.render_data_vector ++
        (if o.query_issued && decide (gl.available o.query ≠ 0)
          then o.render_data.filter RenderData.accepted else none).toList := by
  unfold occlusion_cull_object
  cases hr : o.render_data with
  | none => simp
  | some rd =>
    cases hm : rd.material0 with
    | none => simp [Option.filter, RenderData.accepted, hm]
    | some m =>
      cases hq : o.query_issued with
      | false => simp
      | true =>
        by_cases ha : gl.available o.query = 0
        · simp [ha, hm]
        · simp [ha, hr, hm, addRenderData_eq]

theorem foldl_occlusion_cull_object (gl : QueryResults) (l : List OcclusionObject) :
    ∀ (p : OcclusionPass),
      (l.foldl (fun p scene_object => occlusion_cull_object gl scene_object p)
        p).render_data_vector =
      p.render_data_vector ++
        l.filterMap (fun o =>
          if o.query_issued && decide (gl.available o.query ≠ 0)
            then o.render_data.filter RenderData.accepted else none) := by
  induction l with
  | nil => intro p; simp
  | cons o rest ih =>
    intro p
    rw [List.foldl_cons, ih, occlusion_cull_object_vector, List.filterMap_cons]
    cases (if o.query_issued && decide (gl.available o.query ≠ 0)
        then o.render_data.filter RenderData.accepted else none) <;>
      simp

/-- C12 as stated fails: with occlusion culling off and an empty batch list,
a candidate whose render data has a material, a mesh and is enabled but has
render mask 0 passes the filter of the claim and is not in the batch list. -/
theorem C12_zero_render_mask_is_left_out :
    [(⟨1, some (sampleRenderData 10 0 0 0), false, true, 5⟩ :
        OcclusionObject)].filterMap
        (fun o => o.render_data.filter RenderData.acceptedBySpec) =
        [sampleRenderData 10 0 0 0] ∧
      (occlusion_cull false noSamplesPassed
        [⟨1, some (sampleRenderData 10 0 0 0), false, true, 5⟩]
        []).render_data_vector = [] := by
  constructor <;> rfl

/-- C12, amended: with occlusion culling off, for every candidate list the
batch list after `occlusion_cull` is the batch list before it followed by the
render data of the candidates, in candidate order, filtered by: render data
non-null, first-pass material non-null, enabled, mesh non-null and render mask
different from 0; nothing else decides membership. -/
theorem C12_disabled_occlusion_filters_candidates (gl : QueryResults)
    (scene_objects : List OcclusionObject) (render_data_vector : List RenderData) :
    (occlusion_cull false gl scene_objects render_data_vector).render_data_vector =
      render_data_vector ++
        scene_objects.filterMap (fun o => o.render_data.filter RenderData.accepted) := by
  simp only [occlusion_cull, Bool.not_false, if_true]
  exact foldl_addRenderData scene_objects _

/-- C13 as stated fails: with occlusion culling on, a candidate with a query
in flight whose result is available and reports zero samples is marked
invisible and its render data is added to the batch list all the same. -/
theorem C13_zero_samples_is_still_added :
    noSamplesPassed.available 5 ≠ 0 ∧ noSamplesPassed.result 5 = 0 ∧
      (occlusion_cull true noSamplesPassed
        [⟨1, some (sampleRenderData 10 1 0 0), true, true, 5⟩]
        []).render_data_vector = [sampleRenderData 10 1 0 0] ∧
      (occlusion_cull true noSamplesPassed
        [⟨1, some (sampleRenderData 10 1 0 0), true, true, 5⟩]
        []).objects = [⟨1, some (sampleRenderData 10 1 0 0), false, false, 5⟩] := by
  refine ⟨by decide, rfl, rfl, rfl⟩

/-- C13, amended: with occlusion culling on, a candidate with render data and
first-pass material that has a query in flight whose result is available gets
the reported visibility stored (false when no sample passed) and its
query-in-flight flag cleared, and its render data is handed to `addRenderData`
whatever the sample count; over a whole pass the batch list grows by the render
data, accepted by `addRenderData`, of exactly the candidates with an available
result of a query in flight. -/
theorem C13_available_result_is_added (gl : QueryResults) (o : OcclusionObject)
    (rd : RenderData) (p : OcclusionPass)
    (hr : o.render_data = some rd) (hm : rd.material0.isSome = true)
    (hq : o.query_issued = true) (ha : gl.available o.query ≠ 0) :
    (occlusion_cull_object gl o p).render_data_vector =
        addRenderData (some rd) p.render_data_vector ∧
      (occlusion_cull_object gl o p).objects =
        p.objects ++ [{ o with
          visible := decide (gl.result o.query &&& GL_TRUE = GL_TRUE),
          query_issued := false }] ∧
      ∀ (scene_objects : List OcclusionObject) (v : List RenderData),
        (occlusion_cull true gl scene_objects v).render_data_vector =
          v ++ scene_objects.filterMap (fun o =>
            if o.query_issued && decide (gl.available o.query ≠ 0)
              then o.render_data.filter RenderData.accepted else none) := by
  refine ⟨?_, ?_, fun scene_objects v => ?_⟩
  · unfold occlusion_cull_object
    cases hm2 : rd.material0 with
    | none => rw [hm2] at hm; cases hm
    | some m => simp [hr, hm2, hq, ha]
  · unfold occlusion_cull_object
    cases hm2 : rd.material0 with
    | none => rw [hm2] at hm; cases hm
    | some m => simp [hr, hm2, hq, ha]
  · simp only [occlusion_cull, Bool.not_true, Bool.false_eq_true, if_false]
    exact foldl_occlusion_cull_object gl scene_objects _

/-- Witness for the amended C13: the candidate of the counterexample. -/
theorem C13_available_result_witness :
    (occlusion_cull_object noSamplesPassed
        ⟨1, some (sampleRenderData 10 1 0 0), true, true, 5⟩
        ⟨[], [], []⟩).render_data_vector =
        addRenderData (some (sampleRenderData 10 1 0 0)) [] :=
  (C13_available_result_is_added noSamplesPassed
    ⟨1, some (sampleRenderData 10 1 0 0), true, true, 5⟩
    (sampleRenderData 10 1 0 0) ⟨[], [], []⟩ rfl rfl rfl (by decide)).1

/-- With occlusion culling on, an object without a query in flight leaves the
loop body at the `continue` of lines 369-371, whatever else holds of it: the
batch list and the trace are unchanged and the object keeps its flags. -/
theorem occlusion_cull_object_without_query (gl : QueryResults)
    (o : OcclusionObject) (p : OcclusionPass) (hq : o.query_issued = false) :
    occlusion_cull_object gl o p = { p with objects := p.objects ++ [o] } := by
  unfold occlusion_cull_object
  cases hr : o.render_data with
  | none => rfl
  | some rd =>
    cases hm : rd.material0 with
    | none => simp [hm]
    | some m => simp [hm, hq]

/-- C14 fails on the code: with occlusion culling on, a candidate with render
data and first-pass material and no query in flight is skipped by the
`continue` of lines 369-371: no `glBeginQuery` is issued for it (the trace
holds the collider calls only) and its query-in-flight flag stays false. -/
theorem C14_no_query_is_issued :
    (occlusion_cull true noSamplesPassed
        [⟨1, some (sampleRenderData 10 1 0 0), false, true, 5⟩] []).objects =
        [⟨1, some (sampleRenderData 10 1 0 0), false, true, 5⟩] ∧
      (occlusion_cull true noSamplesPassed
        [⟨1, some (sampleRenderData 10 1 0 0), false, true, 5⟩] []).trace =
        [.lockColliders, .clearVisibleColliders, .unlockColliders] := by
  constructor <;> rfl

end occlusion

section sorter

open Renderer

theorem compare_eq_true_iff (i j : RenderData) :
    compareRenderDataByOrderShaderDistance i j = true ↔ i.sortKey < j.sortKey := by
  unfold compareRenderDataByOrderShaderDistance RenderData.sortKey
  rw [Prod.Lex.lt_iff, Prod.Lex.lt_iff]
  by_cases h1 : i.rendering_order = j.rendering_order
  · by_cases h2 : i.shader_type0 = j.shader_type0
    · simp [h1, h2]
    · simp [h1, h2]
  · simp [h1]

theorem compare_eq_false_iff (i j : RenderData) :
    compareRenderDataByOrderShaderDistance j i = false ↔ i.sortKey ≤ j.sortKey := by
  rw [← not_lt, ← compare_eq_true_iff]
  simp

theorem state_sort_iff (v result : List RenderData) :
    state_sort v result ↔
      result.Perm v ∧ result.Pairwise (fun a b => a.sortKey ≤ b.sortKey) := by
  unfold state_sort std_sort
  simp only [compare_eq_false_iff]

theorem state_sort_exists (v : List RenderData) : ∃ result, state_sort v result := by
  refine ⟨v.insertionSort (fun a b => a.sortKey ≤ b.sortKey), ?_⟩
  rw [state_sort_iff]
  haveI : IsTotal RenderData (fun a b => a.sortKey ≤ b.sortKey) :=
    ⟨fun a b => le_total _ _⟩
  haveI : IsTrans RenderData (fun a b => a.sortKey ≤ b.sortKey) :=
    ⟨fun a b c => le_trans⟩
  exact ⟨List.perm_insertionSort _ _, List.sorted_insertionSort _ _⟩

theorem sorted_perm_same_keys (v result : List RenderData)
    (hp : result.Perm v)
    (hr : result.Pairwise (fun a b => a.sortKey ≤ b.sortKey))
    (hv : v.Pairwise (fun a b => a.sortKey ≤ b.sortKey)) :
    result.map RenderData.sortKey = v.map RenderData.sortKey := by
  apply List.eq_of_perm_of_sorted (r := (· ≤ ·)) (hp.map _)
  · exact List.pairwise_map.2 hr
  · exact List.pairwise_map.2 hv

theorem eq_of_map_eq_of_perm {α β : Type} (f : α → β) :
    ∀ (l₁ l₂ : List α), l₁.map f = l₂.map f → (∀ x ∈ l₁, x ∈ l₂) →
      (l₂.map f).Nodup → l₁ = l₂
  | [], [], _, _, _ => rfl
  | [], _ :: _, h, _, _ => by cases h
  | _ :: _, [], h, _, _ => by cases h
  | a :: l₁, b :: l₂, h, hmem, hnd => by
    rw [List.map_cons, List.map_cons, List.cons.injEq] at h
    have hab : a = b :=
      List.inj_on_of_nodup_map hnd (hmem a (List.mem_cons_self _ _))
        (List.mem_cons_self _ _) h.1
    subst hab
    rw [List.map_cons, List.nodup_cons] at hnd
    congr 1
    refine eq_of_map_eq_of_perm f l₁ l₂ h.2 (fun x hx => ?_) hnd.2
    rcases List.mem_cons.1 (hmem x (List.mem_cons_of_mem _ hx)) with rfl | hx2
    · exact absurd (h.2 ▸ List.mem_map_of_mem f hx) hnd.1
    · exact hx2

/-- C17: `state_sort` (with the comparison modelled from the specification)
always has a result, and every result is a rearrangement of the batch list in
which each batch has a key (rendering order, shader type, camera distance) that
is, in the lexicographic order, not greater than the key of the batch after
it. -/
theorem C17_state_sort_orders_by_key (render_data_vector : List RenderData) :
    (∃ result, state_sort render_data_vector result) ∧
      ∀ result, state_sort render_data_vector result →
        result.Perm render_data_vector ∧
          result.Chain' (fun a b => a.sortKey ≤ b.sortKey) := by
  refine ⟨state_sort_exists render_data_vector, fun result h => ?_⟩
  rw [state_sort_iff] at h
  exact ⟨h.1, h.2.chain'⟩

/-- Witness for C17: two batches given in descending rendering order. -/
theorem C17_state_sort_witness :
    [sampleRenderData 2 1 1 0, sampleRenderData 1 1 3 0].Perm
        [sampleRenderData 1 1 3 0, sampleRenderData 2 1 1 0] ∧
      [sampleRenderData 2 1 1 0, sampleRenderData 1 1 3 0].Chain'
        (fun a b => a.sortKey ≤ b.sortKey) :=
  (C17_state_sort_orders_by_key
    [sampleRenderData 1 1 3 0, sampleRenderData 2 1 1 0]).2
    [sampleRenderData 2 1 1 0, sampleRenderData 1 1 3 0] (by decide)

/-- C18 as stated fails: `std::sort` does not fix the order of equivalent
elements. For two distinct batches with equal keys, already in sorted order,
the list with the two exchanged is a result that `state_sort` admits, and it
differs from the input. -/
theorem C18_equal_keys_may_be_exchanged :
    (sampleRenderData 1 1 0 0).sortKey = (sampleRenderData 2 1 0 0).sortKey ∧
      state_sort [sampleRenderData 1 1 0 0, sampleRenderData 2 1 0 0]
        [sampleRenderData 1 1 0 0, sampleRenderData 2 1 0 0] ∧
      state_sort [sampleRenderData 1 1 0 0, sampleRenderData 2 1 0 0]
        [sampleRenderData 2 1 0 0, sampleRenderData 1 1 0 0] ∧
      [sampleRenderData 2 1 0 0, sampleRenderData 1 1 0 0] ≠
        [sampleRenderData 1 1 0 0, sampleRenderData 2 1 0 0] := by
  refine ⟨rfl, by decide, by decide, by decide⟩

/-- C18, amended: every result of `state_sort` is a rearrangement of the batch
list sorted by key, the order among batches with equal keys being whatever
`std::sort` leaves; applied to a list that is already sorted, every result has
the same sequence of keys as the input, and is the same list when no two
batches of the list have equal keys. -/
theorem C18_state_sort_on_sorted_input (render_data_vector result : List RenderData)
    (hs : state_sort render_data_vector result)
    (hsorted : render_data_vector.Pairwise (fun a b => a.sortKey ≤ b.sortKey)) :
    result.Perm render_data_vector ∧
      result.map RenderData.sortKey = render_data_vector.map RenderData.sortKey ∧
      ((render_data_vector.map RenderData.sortKey).Nodup →
        result = render_data_vector) := by
  rw [state_sort_iff] at hs
  have hk := sorted_perm_same_keys render_data_vector result hs.1 hs.2 hsorted
  exact ⟨hs.1, hk, fun hnd =>
    eq_of_map_eq_of_perm RenderData.sortKey result render_data_vector hk
      (fun x hx => hs.1.subset hx) hnd⟩

/-- Witness for the amended C18: a sorted list of two batches with distinct
keys is returned as it is. -/
theorem C18_sorted_input_witness :
    [sampleRenderData 1 1 1 0, sampleRenderData 2 1 3 0].Perm
        [sampleRenderData 1 1 1 0, sampleRenderData 2 1 3 0] ∧
      [sampleRenderData 1 1 1 0, sampleRenderData 2 1 3 0].map RenderData.sortKey =
        [sampleRenderData 1 1 1 0, sampleRenderData 2 1 3 0].map RenderData.sortKey ∧
      (([sampleRenderData 1 1 1 0, sampleRenderData 2 1 3 0].map
          RenderData.sortKey).Nodup →
        [sampleRenderData 1 1 1 0, sampleRenderData 2 1 3 0] =
          [sampleRenderData 1 1 1 0, sampleRenderData 2 1 3 0]) :=
  C18_state_sort_on_sorted_input
    [sampleRenderData 1 1 1 0, sampleRenderData 2 1 3 0]
    [sampleRenderData 1 1 1 0, sampleRenderData 2 1 3 0] (by decide)
    (by
      simp only [List.pairwise_cons, List.mem_singleton, forall_eq, List.not_mem_nil,
        false_implies, implies_true, List.Pairwise.nil, and_true]
      rw [← compare_eq_false_iff]
      rfl)

end sorter

section renderstep

open Renderer

/-- C19: when the render mask of the camera and the render mask of the batch
have no bit in common, `renderRenderData` returns with the frame as it was: no
call is added to the trace (no graphics-state change, no shader dispatch, no
draw call) and the draw-call and triangle counters keep their values. -/
theorem C19_disjoint_render_mask_skips_batch (M : MaterialDecls)
    (R : RenderDataDecls) (sm : ShaderManager) (render_data : RenderData)
    (f : Frame)
    (hmask : Int.land f.rstate.render_mask render_data.render_mask = 0) :
    renderRenderData M R sm render_data f = .done f := by
  unfold renderRenderData
  rw [if_pos hmask]

/-- Witness for C19: a camera with mask 1 and a batch with mask 2. -/
theorem C19_disjoint_mask_witness :
    renderRenderData sampleMaterialDecls sampleRenderDataDecls sampleShaderManager
        (sampleRenderData 10 2 0 0) (sampleFrame 1) = .done (sampleFrame 1) :=
  C19_disjoint_render_mask_skips_batch sampleMaterialDecls sampleRenderDataDecls
    sampleShaderManager (sampleRenderData 10 2 0 0) (sampleFrame 1) (by decide)

/-- C20: `checkTextureReady` returns true for every material whose shader type
is below 0 or at least `BUILTIN_SHADER_SIZE`, whatever the readiness of its
textures; for a shader type inside the built-in range it returns
`isMainTextureReady()` when the type is not `ASSIMP_SHADER` or the diffuse
texture feature is set; and whenever it returns false `renderMaterialShader`
returns with the frame as it was, so no shader is dispatched and no draw call
is issued. -/
theorem C20_texture_readiness_gate (M : MaterialDecls) (R : RenderDataDecls)
    (sm : ShaderManager) (render_data : RenderData) (material : Material)
    (f : Frame) :
    ((material.shader_type < 0 ∨ material.shader_type ≥ M.BUILTIN_SHADER_SIZE) →
        checkTextureReady M material = true) ∧
      ((0 ≤ material.shader_type ∧ material.shader_type < M.BUILTIN_SHADER_SIZE) →
        (material.shader_type ≠ M.ASSIMP_SHADER ∨
          M.ISSET material.get_shader_feature_set M.AS_DIFFUSE_TEXTURE = true) →
        checkTextureReady M material = material.isMainTextureReady) ∧
      (checkTextureReady M material = false →
        renderMaterialShader M R sm render_data material f = .done f) := by
  refine ⟨fun hout => ?_, fun hin hreq => ?_, fun hgate => ?_⟩
  · simp only [checkTextureReady]
    rw [if_pos hout]
  · simp only [checkTextureReady]
    have hnot : ¬ (material.shader_type < 0 ∨
        material.shader_type ≥ M.BUILTIN_SHADER_SIZE) := by
      rintro (h | h)
      · exact absurd hin.1 (not_le.2 h)
      · exact absurd hin.2 (not_lt.2 h)
    rw [if_neg hnot]
    by_cases ha : material.shader_type ≠ M.ASSIMP_SHADER
    · rw [if_pos ha]
    · rw [if_neg ha]
      rcases hreq with h | h
      · exact absurd h ha
      · rw [if_pos h]
  · unfold renderMaterialShader
    by_cases hb : M.BEING_GENERATED = material.shader_type
    · rw [if_pos hb]
    · rw [if_neg hb, hgate]
      rfl

/-- Witness for C20: a built-in texture shader material whose main texture is
not ready is not rendered. -/
theorem C20_unready_texture_witness :
    checkTextureReady sampleMaterialDecls unreadyMaterial = false ∧
      renderMaterialShader sampleMaterialDecls sampleRenderDataDecls
        sampleShaderManager (sampleRenderData 10 1 0 0) unreadyMaterial
        (sampleFrame 1) = .done (sampleFrame 1) :=
  ⟨by decide, (C20_texture_readiness_gate sampleMaterialDecls sampleRenderDataDecls
    sampleShaderManager (sampleRenderData 10 1 0 0) unreadyMaterial
    (sampleFrame 1)).2.2 (by decide)⟩

end renderstep

section culler_more

open SceneObject Renderer

theorem child_mem_lineage (a : Nat) (en : Bool) (ch : List SceneObject)
    (c : SceneObject) (hc : c ∈ ch) :
    ([SceneObject.mk a en ch], c) ∈ lineage (SceneObject.mk a en ch) := by
  have hall : ∀ (l : List SceneObject), c ∈ l → ([], c) ∈ lineageAll l := by
    intro l
    induction l with
    | nil => intro h; cases h
    | cons d rest ih =>
      intro h
      rw [lineageAll, List.mem_append]
      rcases List.mem_cons.1 h with rfl | h
      · left
        cases c with
        | mk a2 e2 ch2 => exact List.mem_cons_self _ _
      · exact Or.inr (ih h)
  rw [lineage]
  exact List.mem_cons_of_mem _ (List.mem_map.2 ⟨([], c), hall ch hc, rfl⟩)

theorem frustum_cull_intersecting {Pos Planes : Type}
    (frustumCull : SceneObject → Pos → Planes → Int → Int × Int)
    (camera_position : Pos) (frustum : Planes) (object : SceneObject)
    (run : CullRun) (planeMask : Int) (he : object.enabled = true)
    (hv : (frustumCull object camera_position frustum planeMask).1 = 1 ∨
      (frustumCull object camera_position frustum planeMask).1 = 2) :
    frustum_cull frustumCull camera_position object frustum run true planeMask =
      frustum_cull_children frustumCull camera_position object.children frustum
        (run.extend
          (if (frustumCull object camera_position frustum planeMask).1 = 2
            then [object] else [])
          [object] [object])
        true (frustumCull object camera_position frustum planeMask).2 := by
  cases object with
  | mk a en ch =>
    simp only [SceneObject.enabled] at he
    subst he
    rw [frustum_cull]
    rcases hv with h | h <;> simp [h, CullRun.extend, SceneObject.children]

theorem tested_child_of_intersecting {Pos Planes : Type}
    (frustumCull : SceneObject → Pos → Planes → Int → Int × Int)
    (camera_position : Pos) (frustum : Planes) (object c : SceneObject)
    (planeMask : Int) (he : object.enabled = true)
    (hv : (frustumCull object camera_position frustum planeMask).1 = 1 ∨
      (frustumCull object camera_position frustum planeMask).1 = 2)
    (hc : c.enabled = true) :
    tested frustumCull camera_position frustum true planeMask ([object], c) = true := by
  have h0 : (frustumCull object camera_position frustum planeMask).1 ≠ 0 := by
    rcases hv with h | h <;> rw [h] <;> decide
  have h3 : (frustumCull object camera_position frustum planeMask).1 ≠ 3 := by
    rcases hv with h | h <;> rw [h] <;> decide
  simp [tested, onArrival, arrive, descend, he, h0, h3, hc]

/-- C25: with culling active on an enabled object classified 1 the object is
not appended, classified 2 it is appended; in both cases the call continues
with the loop over the children, in their order, with `need_cull` still true
and with the plane mask variable as the classification left it, which is the
mask passed in when the classification does not change it; so the
classification is evaluated on every enabled child. -/
theorem C25_intersecting_recurses_with_culling {Pos Planes : Type}
    (frustumCull : SceneObject → Pos → Planes → Int → Int × Int)
    (camera_position : Pos) (frustum : Planes) (object : SceneObject)
    (run : CullRun) (planeMask : Int) (he : object.enabled = true)
    (hv : (frustumCull object camera_position frustum planeMask).1 = 1 ∨
      (frustumCull object camera_position frustum planeMask).1 = 2) :
    frustum_cull frustumCull camera_position object frustum run true planeMask =
        frustum_cull_children frustumCull camera_position object.children frustum
          (run.extend
            (if (frustumCull object camera_position frustum planeMask).1 = 2
              then [object] else [])
            [object] [object])
          true (frustumCull object camera_position frustum planeMask).2 ∧
      ((frustumCull object camera_position frustum planeMask).2 = planeMask →
        frustum_cull frustumCull camera_position object frustum run true planeMask =
          frustum_cull_children frustumCull camera_position object.children frustum
            (run.extend
              (if (frustumCull object camera_position frustum planeMask).1 = 2
                then [object] else [])
              [object] [object])
            true planeMask) ∧
      (∀ c ∈ object.children, c.enabled = true →
        c ∈ (frustum_cull frustumCull camera_position object frustum run true
          planeMask).classified) := by
  have hmain := frustum_cull_intersecting frustumCull camera_position frustum object
    run planeMask he hv
  refine ⟨hmain, fun hm => ?_, fun c hc hce => ?_⟩
  · rw [hmain, hm]
  · rw [frustum_cull_walked]
    simp only [walked, CullRun.extend]
    refine List.mem_append_right _ (List.mem_map.2 ⟨([object], c), ?_, rfl⟩)
    rw [List.mem_filter]
    refine ⟨?_, tested_child_of_intersecting frustumCull camera_position frustum
      object c planeMask he hv hce⟩
    cases object with
    | mk a en ch => exact child_mem_lineage a en ch c hc

/-- Witness for C25: the root of `sceneTwoChildren` is classified 1 by
`cullTwoChildren`. -/
theorem C25_intersecting_witness :
    frustum_cull cullTwoChildren () sceneTwoChildren () CullRun.empty true 0 =
      frustum_cull_children cullTwoChildren () sceneTwoChildren.children ()
        (CullRun.empty.extend
          (if (cullTwoChildren sceneTwoChildren () () 0).1 = 2
            then [sceneTwoChildren] else [])
          [sceneTwoChildren] [sceneTwoChildren])
        true (cullTwoChildren sceneTwoChildren () () 0).2 :=
  (C25_intersecting_recurses_with_culling cullTwoChildren () () sceneTwoChildren
    CullRun.empty 0 rfl (Or.inl rfl)).1

end culler_more

section frustum_guard

open Renderer

theorem plane_norm_eq_zero_iff (p : Plane ℝ) :
    plane_norm Real.sqrt p = 0 ↔ (p.a = 0 ∧ p.b = 0 ∧ p.c = 0) := by
  unfold plane_norm
  rw [Real.sqrt_eq_zero']
  constructor
  · intro h
    have ha := mul_self_nonneg p.a
    have hb := mul_self_nonneg p.b
    have hc := mul_self_nonneg p.c
    refine ⟨mul_self_eq_zero.1 (by linarith), mul_self_eq_zero.1 (by linarith),
      mul_self_eq_zero.1 (by linarith)⟩
  · rintro ⟨ha, hb, hc⟩
    rw [ha, hb, hc]
    simp

/-- C27: `build_frustum` divides the four coefficients of every plane by `t`
whatever `t` is; for the all-zero matrix every extracted normal is the zero
vector and `t` is 0 for all six planes; and, over the reals, all six divisors
are non-zero exactly when all six extracted normals are non-zero. -/
theorem C27_no_zero_norm_guard :
    (∀ (sqrt : ℝ → ℝ) (vp_matrix : Nat → ℝ),
        build_frustum sqrt vp_matrix = (extract_planes vp_matrix).map (fun p =>
          ⟨p.a / plane_norm sqrt p, p.b / plane_norm sqrt p, p.c / plane_norm sqrt p,
            p.d / plane_norm sqrt p⟩)) ∧
      (∀ p ∈ extract_planes (fun _ => (0 : ℝ)),
        (p.a = 0 ∧ p.b = 0 ∧ p.c = 0) ∧ plane_norm Real.sqrt p = 0) ∧
      (∀ vp_matrix : Nat → ℝ,
        (∀ p ∈ extract_planes vp_matrix, plane_norm Real.sqrt p ≠ 0) ↔
          (∀ p ∈ extract_planes vp_matrix, p.a ≠ 0 ∨ p.b ≠ 0 ∨ p.c ≠ 0)) := by
  refine ⟨fun sqrt vp => rfl, fun p hp => ?_, fun vp => ?_⟩
  · have h : p.a = 0 ∧ p.b = 0 ∧ p.c = 0 := by
      simp only [extract_planes, List.mem_cons, List.mem_singleton, List.not_mem_nil,
        or_false] at hp
      rcases hp with rfl | rfl | rfl | rfl | rfl | rfl <;> simp
    exact ⟨h, (plane_norm_eq_zero_iff p).2 h⟩
  · constructor
    · intro h p hp
      have := h p hp
      rw [Ne, plane_norm_eq_zero_iff] at this
      by_contra hc
      push_neg at hc
      exact this hc
    · intro h p hp hz
      rw [plane_norm_eq_zero_iff] at hz
      rcases h p hp with ha | hb | hc
      · exact ha hz.1
      · exact hb hz.2.1
      · exact hc hz.2.2

end frustum_guard

section reclaimer_invariant

open RunOnGlThread

theorem std_remove_nil_of_nil (l : List Nat) (r : Nat) (h : l = []) :
    std_remove l r = [] := by
  subst h
  rfl

theorem step_keeps_cleanIsEmpty (G : Nat) (s : RunOnGlThread) (op : ReclaimerOp)
    (hs : s.CleanIsEmpty) : (s.step G op).CleanIsEmpty := by
  cases op with
  | queue k h =>
    intro hd
    by_cases hv : h = G
    · subst hv
      obtain ⟨a1, a2, a3, _⟩ := queue_invalid s h k
      simp only [step] at hd ⊢
      rw [a2] at hd
      obtain ⟨b1, b2⟩ := hs hd
      exact ⟨fun k2 => by rw [a1, b1], by rw [a3, b2]⟩
    · obtain ⟨_, _, a3, _⟩ := queue_valid s G k h hv
      simp only [step] at hd
      rw [a3] at hd
      cases hd
  | queueRunnable r =>
    intro hd
    simp [step, queueRunnable] at hd
  | cancelRunnable r =>
    intro hd
    have hd2 : s.dirty = false := hd
    obtain ⟨b1, b2⟩ := hs hd2
    refine ⟨fun k2 => ?_, std_remove_nil_of_nil _ _ b2⟩
    have : (s.cancelRunnable r).pending k2 = s.pending k2 := by cases k2 <;> rfl
    simp only [step]
    rw [this, b1]
  | processQueues =>
    intro hd
    simp only [step] at hd ⊢
    cases hdirty : s.dirty with
    | true =>
      rw [processQueues_dirty s hdirty]
      exact ⟨fun k2 => by cases k2 <;> rfl, rfl⟩
    | false =>
      rw [processQueues_clean s hdirty]
      exact hs hdirty

theorem runOps_keeps_cleanIsEmpty (G : Nat) (ops : List ReclaimerOp) :
    ∀ (s : RunOnGlThread), s.CleanIsEmpty → (s.runOps G ops).CleanIsEmpty := by
  induction ops with
  | nil => intro s hs; exact hs
  | cons op rest ih =>
    intro s hs
    exact ih (s.step G op) (step_keeps_cleanIsEmpty G s op hs)

theorem processQueues_empties (s : RunOnGlThread) (hs : s.CleanIsEmpty) :
    (∀ k, s.processQueues.pending k = []) ∧ s.processQueues.runnables_ = [] := by
  cases hdirty : s.dirty with
  | true =>
    rw [processQueues_dirty s hdirty]
    exact ⟨fun k2 => by cases k2 <;> rfl, rfl⟩
  | false =>
    rw [processQueues_clean s hdirty]
    exact hs hdirty

/-- C29: in every state reached from the initial state (nothing queued,
`dirty` false) by any sequence of queue operations, `queueRunnable`,
`cancelRunnable` and `processQueues`, `dirty = false` implies that the seven
handle queues and the runnable list are empty; in such a state `processQueues`
changes nothing and issues no call; and after `processQueues` in any reached
state nothing is left queued, so the early-out on `dirty` never strands a
handle or a runnable. -/
theorem C29_clean_reclaimer_is_empty (GVR_INVALID : Nat) (ops : List ReclaimerOp) :
    (((RunOnGlThread.fresh false).runOps GVR_INVALID ops).dirty = false →
        (∀ k, ((RunOnGlThread.fresh false).runOps GVR_INVALID ops).pending k = []) ∧
          ((RunOnGlThread.fresh false).runOps GVR_INVALID ops).runnables_ = [] ∧
          ((RunOnGlThread.fresh false).runOps GVR_INVALID ops).processQueues =
            (RunOnGlThread.fresh false).runOps GVR_INVALID ops) ∧
      ((∀ k, (((RunOnGlThread.fresh false).runOps GVR_INVALID
          ops).processQueues).pending k = []) ∧
        (((RunOnGlThread.fresh false).runOps GVR_INVALID
          ops).processQueues).runnables_ = []) := by
  have hinit : (RunOnGlThread.fresh false).CleanIsEmpty :=
    fun _ => ⟨fun k => by cases k <;> rfl, rfl⟩
  have hinv := runOps_keeps_cleanIsEmpty GVR_INVALID ops _ hinit
  refine ⟨fun hd => ?_, processQueues_empties _ hinv⟩
  obtain ⟨h1, h2⟩ := hinv hd
  exact ⟨h1, h2, processQueues_clean _ hd⟩

/-- Witness for C29: a texture is queued, flushed, and a runnable is
cancelled; the reclaimer is clean and empty afterwards. -/
theorem C29_clean_reclaimer_witness :
    (∀ k, ((RunOnGlThread.fresh false).runOps 0
        [.queue .texture 7, .processQueues, .cancelRunnable 3]).pending k = []) ∧
      ((RunOnGlThread.fresh false).runOps 0
        [.queue .texture 7, .processQueues, .cancelRunnable 3]).runnables_ = [] ∧
      ((RunOnGlThread.fresh false).runOps 0
        [.queue .texture 7, .processQueues, .cancelRunnable 3]).processQueues =
        (RunOnGlThread.fresh false).runOps 0
          [.queue .texture 7, .processQueues, .cancelRunnable 3] :=
  (C29_clean_reclaimer_is_empty 0
    [.queue .texture 7, .processQueues, .cancelRunnable 3]).1 rfl

end reclaimer_invariant

section render_errors

open Renderer

theorem Frame.emit_rstate (f : Frame) (e : RenderEvent) :
    (f.emit e).rstate = f.rstate := rfl

theorem Frame.emit_trace (f : Frame) (e : RenderEvent) :
    (f.emit e).trace = f.trace ++ [e] := rfl

theorem Frame.emit_numberDrawCalls (f : Frame) (e : RenderEvent) :
    (f.emit e).numberDrawCalls = f.numberDrawCalls := rfl

theorem Frame.emit_numberTriangles (f : Frame) (e : RenderEvent) :
    (f.emit e).numberTriangles = f.numberTriangles := rfl

/-- C21 as stated fails: the `catch` of `renderMaterialShader` handles
`std::string` only. When the `render` of the selected shader (the texture
shader, address 107) throws anything else, no error shader is rendered, no draw
call is issued and the exception leaves `renderMaterialShader`. -/
theorem C21_other_exception_is_not_caught :
    renderMaterialShader sampleMaterialDecls sampleRenderDataDecls
        (throwingShaderManager .other) (sampleRenderData 10 1 0 0) sampleMaterial
        (sampleFrame 1) =
      .thrown .other
        { rstate := ⟨1, none, ⟨some 700, false, 0⟩⟩, numberDrawCalls := 3,
          numberTriangles := 8,
          trace := [.generateVAO 600, .shaderRender 107 10 500] } := by
  rfl

/-- C21, amended: when the `render` of the selected shader throws a
`std::string`, `renderMaterialShader` catches it, logs it with the name of the
owner, renders the error shader instead and, the error shader not throwing,
issues the draw call and returns normally. The material `m` that selects the
shader and is handed to both `render` calls is the material override of the
render state when there is one and `curr_material` otherwise. (An exception of
another type is not caught.) -/
theorem C21_string_error_is_caught (M : MaterialDecls) (R : RenderDataDecls)
    (sm : ShaderManager) (render_data : RenderData) (curr_material m : Material)
    (f : Frame) (t : Nat) (mesh : Mesh) (shader : Nat) (error : String)
    (hgen : M.BEING_GENERATED ≠ curr_material.shader_type)
    (hready : checkTextureReady M curr_material = true)
    (ht : render_data.owner_transform = some t)
    (hmesh : render_data.mesh = some mesh)
    (hm : f.rstate.material_override.getD curr_material = m)
    (hsel : selectShader sm m.shader_type (shaderCase M m.shader_type) = some shader)
    (hthrow : sm.render shader render_data m = some (.string error))
    (herr : sm.render sm.getErrorShader render_data m = none) :
    ∃ f1 : Frame,
      renderMaterialShader M R sm render_data curr_material f =
        .done (drawMesh render_data mesh
          ((f1.emit (.LOGE ("Error detected in Renderer::renderRenderData; name : " ++
            render_data.owner_name ++ ", error : " ++ error))).emit
            (.shaderRender sm.getErrorShader render_data.addr m.addr))) ∧
      RenderEvent.shaderRender shader render_data.addr m.addr ∈ f1.trace ∧
      f1.numberDrawCalls = f.numberDrawCalls ∧
      f1.numberTriangles = f.numberTriangles := by
  have hm2 : (match f.rstate.material_override with
      | some o => o
      | none => curr_material) = m := by
    rw [← hm]
    cases f.rstate.material_override <;> rfl
  unfold renderMaterialShader
  rw [if_neg hgen, hready]
  simp only [Bool.not_true, Bool.false_eq_true, if_false, ht, hmesh, Frame.emit_rstate,
    hm2, hsel, hthrow, catchAndDraw, herr]
  refine ⟨_, rfl, ?_, ?_, ?_⟩
  · rw [Frame.emit_trace]
    exact List.mem_append_right _ (List.mem_singleton_self _)
  · rw [Frame.emit_numberDrawCalls]
    split <;> (try split) <;> (try split) <;> rfl
  · rw [Frame.emit_numberTriangles]
    split <;> (try split) <;> (try split) <;> rfl

/-- Witness for the amended C21: the texture shader throws the string "x",
once for a frame without material override and once for a frame whose
material override is `sampleMaterial` while the pass has material 502. -/
theorem C21_string_error_witness :
    (∃ f1 : Frame,
      renderMaterialShader sampleMaterialDecls sampleRenderDataDecls
          (throwingShaderManager (.string "x")) (sampleRenderData 10 1 0 0)
          sampleMaterial (sampleFrame 1) =
        .done (drawMesh (sampleRenderData 10 1 0 0) sampleMesh
          ((f1.emit (.LOGE ("Error detected in Renderer::renderRenderData; name : " ++
            (sampleRenderData 10 1 0 0).owner_name ++ ", error : " ++ "x"))).emit
            (.shaderRender (throwingShaderManager (.string "x")).getErrorShader
              (sampleRenderData 10 1 0 0).addr sampleMaterial.addr))) ∧
      RenderEvent.shaderRender 107 (sampleRenderData 10 1 0 0).addr
        sampleMaterial.addr ∈ f1.trace ∧
      f1.numberDrawCalls = (sampleFrame 1).numberDrawCalls ∧
      f1.numberTriangles = (sampleFrame 1).numberTriangles) ∧
    (∃ f1 : Frame,
      renderMaterialShader sampleMaterialDecls sampleRenderDataDecls
          (throwingShaderManager (.string "x")) (sampleRenderData 10 1 0 0)
          ⟨502, 7, true, 0, none⟩
          { sampleFrame 1 with rstate := ⟨1, some sampleMaterial, ⟨none, false, 0⟩⟩ } =
        .done (drawMesh (sampleRenderData 10 1 0 0) sampleMesh
          ((f1.emit (.LOGE ("Error detected in Renderer::renderRenderData; name : " ++
            (sampleRenderData 10 1 0 0).owner_name ++ ", error : " ++ "x"))).emit
            (.shaderRender (throwingShaderManager (.string "x")).getErrorShader
              (sampleRenderData 10 1 0 0).addr sampleMaterial.addr))) ∧
      RenderEvent.shaderRender 107 (sampleRenderData 10 1 0 0).addr
        sampleMaterial.addr ∈ f1.trace ∧
      f1.numberDrawCalls = 3 ∧
      f1.numberTriangles = 8) :=
  ⟨C21_string_error_is_caught sampleMaterialDecls sampleRenderDataDecls
    (throwingShaderManager (.string "x")) (sampleRenderData 10 1 0 0) sampleMaterial
    sampleMaterial (sampleFrame 1) 700 sampleMesh 107 "x" (by decide) rfl rfl rfl rfl
    rfl rfl rfl,
  C21_string_error_is_caught sampleMaterialDecls sampleRenderDataDecls
    (throwingShaderManager (.string "x")) (sampleRenderData 10 1 0 0)
    ⟨502, 7, true, 0, none⟩ sampleMaterial
    { sampleFrame 1 with rstate := ⟨1, some sampleMaterial, ⟨none, false, 0⟩⟩ }
    700 sampleMesh 107 "x" (by decide) rfl rfl rfl rfl rfl rfl rfl⟩

end render_errors

section restore_flags

open Renderer

theorem EnableFlags.run_append (s : EnableFlags) (l₁ l₂ : List RenderEvent) :
    s.run (l₁ ++ l₂) = (s.run l₁).run l₂ := by
  simp [EnableFlags.run, List.foldl_append]

theorem EnableFlags.run_emit (s : EnableFlags) (f : Frame) (e : RenderEvent) :
    s.run (f.emit e).trace = (s.run f.trace).apply e := by
  simp [Frame.emit, EnableFlags.run, List.foldl_append]

theorem KeepsFour.refl (f : Frame) : KeepsFour f f := fun _ => rfl

theorem KeepsFour.trans {f f1 f2 : Frame} (h1 : KeepsFour f f1) (h2 : KeepsFour f1 f2) :
    KeepsFour f f2 := fun s => (h2 s).trans (h1 s)

theorem KeepsFour.emit (f : Frame) (e : RenderEvent)
    (he : ∀ s : EnableFlags, (s.apply e).four = s.four) : KeepsFour f (f.emit e) := by
  intro s
  rw [EnableFlags.run_emit, he]

theorem keepsFour_set_face_culling (R : RenderDataDecls) (cull_face : Int) (f : Frame) :
    KeepsFour f (set_face_culling R cull_face f) := by
  unfold set_face_culling
  split
  · exact (KeepsFour.emit f _ (by intro s; rfl)).trans
      (KeepsFour.emit _ _ (by intro s; rfl))
  · split
    · exact KeepsFour.emit f _ (by intro s; rfl)
    · exact (KeepsFour.emit f _ (by intro s; rfl)).trans
        (KeepsFour.emit _ _ (by intro s; rfl))

theorem keepsFour_renderMaterialShader (M : MaterialDecls) (R : RenderDataDecls)
    (sm : ShaderManager) (render_data : RenderData) (curr_material : Material)
    (f f1 : Frame)
    (h : renderMaterialShader M R sm render_data curr_material f = .done f1) :
    KeepsFour f f1 := by
  intro s
  unfold renderMaterialShader at h
  by_cases hgen : M.BEING_GENERATED = curr_material.shader_type
  · rw [if_pos hgen] at h; cases h; rfl
  rw [if_neg hgen] at h
  cases hready : checkTextureReady M curr_material
  · rw [hready] at h; cases h; rfl
  rw [hready] at h
  cases ht : render_data.owner_transform with
  | none => rw [ht] at h; cases h; rfl
  | some t =>
    cases hmesh : render_data.mesh with
    | none => rw [ht, hmesh] at h; cases h
    | some mesh =>
      simp only [Bool.not_true, Bool.false_eq_true, if_false, ht, hmesh,
        Frame.emit_rstate] at h
      generalize hcm : (match f.rstate.material_override with
        | some m => m
        | none => curr_material) = cm at h
      cases hsel : selectShader sm cm.shader_type (shaderCase M cm.shader_type) with
      | none =>
        rw [hsel] at h
        cases herr : sm.render sm.getErrorShader render_data cm with
        | none =>
          simp only [herr] at h
          cases h
          split <;>
            simp [Frame.emit, EnableFlags.run, List.foldl_append, EnableFlags.apply]
        | some e =>
          cases e with
          | string error =>
            simp only [herr, catchAndDraw] at h
            cases h
          | other =>
            simp only [herr] at h
            cases h
      | some shader =>
        rw [hsel] at h
        cases hr : sm.render shader render_data cm with
        | none =>
          simp only [hr] at h
          cases h
          unfold drawMesh
          (repeat' split) <;>
            simp [Frame.emit, EnableFlags.run, List.foldl_append, EnableFlags.apply]
        | some e =>
          cases e with
          | string error =>
            simp only [hr, catchAndDraw] at h
            cases herr : sm.render sm.getErrorShader render_data cm with
            | none =>
              simp only [herr] at h
              cases h
              unfold drawMesh
              (repeat' split) <;>
                simp [Frame.emit, EnableFlags.run, List.foldl_append, EnableFlags.apply]
            | some e2 =>
              simp only [herr] at h
              cases h
          | other =>
            simp only [hr] at h
            cases h

theorem keepsFour_renderMesh (M : MaterialDecls) (R : RenderDataDecls)
    (sm : ShaderManager) (render_data : RenderData) :
    ∀ (passes : List RenderPass) (f f1 : Frame),
      renderMesh M R sm render_data passes f = .done f1 → KeepsFour f f1
  | [], f, f1, h => by
    rw [renderMesh] at h
    cases h
    exact KeepsFour.refl f
  | pass :: rest, f, f1, h => by
    rw [renderMesh] at h
    cases hmesh : render_data.mesh with
    | none => rw [hmesh] at h; cases h
    | some mesh =>
      simp only [hmesh] at h
      have hk0 : KeepsFour f (set_face_culling R pass.cull_face
          { f with
            numberTriangles := f.numberTriangles + mesh.getNumTriangles,
            numberDrawCalls := f.numberDrawCalls + 1 }) :=
        KeepsFour.trans
          (show KeepsFour f { f with
            numberTriangles := f.numberTriangles + mesh.getNumTriangles,
            numberDrawCalls := f.numberDrawCalls + 1 } from fun _ => rfl)
          (keepsFour_set_face_culling R pass.cull_face _)
      generalize set_face_culling R pass.cull_face
          { f with
            numberTriangles := f.numberTriangles + mesh.getNumTriangles,
            numberDrawCalls := f.numberDrawCalls + 1 } = g at h hk0
      split at h
      · exact hk0.trans (keepsFour_renderMesh M R sm render_data rest g f1 h)
      · split at h
        · rename_i f2 hms
          exact (hk0.trans (keepsFour_renderMaterialShader M R sm render_data _ g f2
            hms)).trans (keepsFour_renderMesh M R sm render_data rest f2 f1 h)
        · rename_i r hnot
          cases hres : renderMaterialShader M R sm render_data _ g with
          | done f2 => exact absurd hres (hnot f2)
          | thrown e f2 => rw [hres] at h; cases h
          | fault f2 => rw [hres] at h; cases h

theorem four_after_restore (R : RenderDataDecls) (render_data : RenderData)
    (s : EnableFlags) (f2 : Frame) :
    (s.run (restoreDefaults R render_data f2).trace).four =
      ((s.run f2.trace).depth_test || !render_data.depth_test,
        (s.run f2.trace).blend || !render_data.alpha_blend,
        (s.run f2.trace).polygon_offset_fill && !render_data.offset,
        (s.run f2.trace).sample_alpha_to_coverage && !render_data.alpha_to_coverage) := by
  unfold restoreDefaults
  cases render_data.offset <;> cases render_data.depth_test <;>
    cases render_data.alpha_blend <;> cases render_data.alpha_to_coverage <;>
    by_cases hc : render_data.cull_face = R.CullBack <;>
    simp [hc, EnableFlags.run_emit, EnableFlags.apply, EnableFlags.set, EnableFlags.four]

theorem four_after_overrides (render_data : RenderData) (s : EnableFlags) (f : Frame) :
    (s.run (applyOverrides render_data f).trace).four =
      ((s.run f.trace).depth_test && render_data.depth_test,
        (s.run f.trace).blend && render_data.alpha_blend,
        (s.run f.trace).polygon_offset_fill || render_data.offset,
        (s.run f.trace).sample_alpha_to_coverage || render_data.alpha_to_coverage) := by
  unfold applyOverrides
  cases render_data.offset <;> cases render_data.depth_test <;>
    cases render_data.alpha_blend <;> cases render_data.alpha_to_coverage <;>
    simp [EnableFlags.run_emit, EnableFlags.apply, EnableFlags.set, EnableFlags.four]

theorem renderRenderData_eq (M : MaterialDecls) (R : RenderDataDecls)
    (sm : ShaderManager) (render_data : RenderData) (f : Frame) :
    renderRenderData M R sm render_data f =
      if Int.land f.rstate.render_mask render_data.render_mask = 0 then .done f
      else
        match (match render_data.mesh with
          | some _ =>
            renderMesh M R sm render_data render_data.passes
              (applyOverrides render_data f)
          | none => .done (applyOverrides render_data f)) with
        | .done f2 => .done (restoreDefaults R render_data f2)
        | r => r := rfl

/-- C26: when `renderRenderData` returns, the flags of depth test, blending,
polygon offset fill and sample alpha to coverage, if they were on, on, off and
off on entry (the baseline that `renderCamera` sets), have these values again,
whatever `offset`, `depth_test`, `alpha_blend` and `alpha_to_coverage` of the
batch are; in between only `glEnable` and `glDisable` are taken to change a
flag. -/
theorem C26_overrides_are_restored (M : MaterialDecls) (R : RenderDataDecls)
    (sm : ShaderManager) (render_data : RenderData) (f f1 : Frame) (s : EnableFlags)
    (hret : renderRenderData M R sm render_data f = .done f1)
    (hd : (s.run f.trace).depth_test = true)
    (hb : (s.run f.trace).blend = true)
    (hp : (s.run f.trace).polygon_offset_fill = false)
    (ha : (s.run f.trace).sample_alpha_to_coverage = false) :
    (s.run f1.trace).depth_test = true ∧ (s.run f1.trace).blend = true ∧
      (s.run f1.trace).polygon_offset_fill = false ∧
      (s.run f1.trace).sample_alpha_to_coverage = false := by
  have hgoal : ∀ g : Frame, (s.run g.trace).four = (true, true, false, false) →
      (s.run g.trace).depth_test = true ∧ (s.run g.trace).blend = true ∧
        (s.run g.trace).polygon_offset_fill = false ∧
        (s.run g.trace).sample_alpha_to_coverage = false := by
    intro g hg
    simp only [EnableFlags.four, Prod.mk.injEq] at hg
    exact hg
  apply hgoal
  rw [renderRenderData_eq] at hret
  by_cases hm : Int.land f.rstate.render_mask render_data.render_mask = 0
  · rw [if_pos hm] at hret
    cases hret
    simp [EnableFlags.four, hd, hb, hp, ha]
  · rw [if_neg hm] at hret
    have hrest : ∀ f2 : Frame, KeepsFour (applyOverrides render_data f) f2 →
        (s.run (restoreDefaults R render_data f2).trace).four =
          (true, true, false, false) := by
      intro f2 hk
      have h2 := hk s
      rw [four_after_overrides, hd, hb, hp, ha] at h2
      rw [four_after_restore]
      simp only [EnableFlags.four, Prod.mk.injEq] at h2
      obtain ⟨e1, e2, e3, e4⟩ := h2
      rw [e1, e2, e3, e4]
      cases render_data.offset <;> cases render_data.depth_test <;>
        cases render_data.alpha_blend <;> cases render_data.alpha_to_coverage <;> rfl
    cases hmesh : render_data.mesh with
    | none =>
      simp only [hmesh] at hret
      cases hret
      exact hrest _ (KeepsFour.refl _)
    | some mesh =>
      simp only [hmesh] at hret
      cases hres : renderMesh M R sm render_data render_data.passes
          (applyOverrides render_data f) with
      | done f2 =>
        rw [hres] at hret
        cases hret
        exact hrest f2 (keepsFour_renderMesh M R sm render_data _ _ f2 hres)
      | thrown e f2 => rw [hres] at hret; cases hret
      | fault f2 => rw [hres] at hret; cases hret

/-- Witness for C26: a batch with all four overrides set, rendered for a
camera whose mask it shares, from the baseline flags. -/
theorem C26_overrides_restored_witness :
    ∃ f1 : Frame,
      renderRenderData sampleMaterialDecls sampleRenderDataDecls sampleShaderManager
        { sampleRenderData 10 1 0 0 with
          offset := true, depth_test := false, alpha_blend := false,
          alpha_to_coverage := true } (sampleFrame 1) = .done f1 ∧
      ((⟨true, true, true, false, false⟩ : EnableFlags).run f1.trace).depth_test = true ∧
      ((⟨true, true, true, false, false⟩ : EnableFlags).run f1.trace).blend = true ∧
      ((⟨true, true, true, false, false⟩ : EnableFlags).run
        f1.trace).polygon_offset_fill = false ∧
      ((⟨true, true, true, false, false⟩ : EnableFlags).run
        f1.trace).sample_alpha_to_coverage = false :=
  ⟨_, rfl, C26_overrides_are_restored sampleMaterialDecls sampleRenderDataDecls
    sampleShaderManager
    { sampleRenderData 10 1 0 0 with
      offset := true, depth_test := false, alpha_blend := false,
      alpha_to_coverage := true } (sampleFrame 1) _ ⟨true, true, true, false, false⟩
    rfl rfl rfl rfl rfl⟩

end restore_flags

section dirty_flag

open PassLink

theorem set_dirty_flag_linked (material : Nat) (s : PassLink) (flag : Option Nat)
    (h : s.Linked material) : (s.set_dirty_flag flag).Linked material := by
  obtain ⟨h1, _⟩ := h
  simp [set_dirty_flag, material_set_dirty_flag, Linked, h1]

theorem foldl_set_dirty_flag_linked (material : Nat) (flags : List (Option Nat)) :
    ∀ (s : PassLink), s.Linked material →
      (flags.foldl set_dirty_flag s).Linked material := by
  induction flags with
  | nil => intro s h; exact h
  | cons fl rest ih =>
    intro s h
    exact ih _ (set_dirty_flag_linked material s fl h)

/-- C23: `set_material(m)` on a pass whose dirty flag is non-null succeeds,
leaves the material `m` holding the flag cell of the pass and sets that cell to
true; and after any later sequence of `set_dirty_flag` calls on the pass the
material `m` is still the material of the pass and holds the same flag cell as
the pass. -/
theorem C23_dirty_flag_linkage (s : PassLink) (material cell : Nat)
    (flags : List (Option Nat)) (hflag : s.renderdata_dirty_flag_ = some cell) :
    ∃ s1 : PassLink, s.set_material material = some s1 ∧
      s1.renderdata_dirty_flag_ = some cell ∧
      s1.material_flag material = some cell ∧
      s1.cells cell = true ∧
      (flags.foldl set_dirty_flag s1).material_ = some material ∧
      (flags.foldl set_dirty_flag s1).material_flag material =
        (flags.foldl set_dirty_flag s1).renderdata_dirty_flag_ := by
  have h1 : s.set_material material = some
      { material_ := some material, renderdata_dirty_flag_ := some cell,
        material_flag := fun m => if m = material then some cell else s.material_flag m,
        cells := fun c => if c = cell then true else s.cells c } := by
    simp [set_material, material_set_dirty_flag, hflag]
  refine ⟨_, h1, rfl, by simp, by simp, ?_⟩
  exact foldl_set_dirty_flag_linked material flags _ ⟨rfl, by simp⟩

/-- Witness for C23: material 9 is attached to the sample pass with flag cell
5, then the flag of the pass is replaced twice. -/
theorem C23_dirty_flag_witness :
    ∃ s1 : PassLink, (PassLink.sample 5).set_material 9 = some s1 ∧
      s1.renderdata_dirty_flag_ = some 5 ∧
      s1.material_flag 9 = some 5 ∧
      s1.cells 5 = true ∧
      ([some 6, some 8].foldl set_dirty_flag s1).material_ = some 9 ∧
      ([some 6, some 8].foldl set_dirty_flag s1).material_flag 9 =
        ([some 6, some 8].foldl set_dirty_flag s1).renderdata_dirty_flag_ :=
  C23_dirty_flag_linkage (PassLink.sample 5) 9 5 [some 6, some 8] rfl

end dirty_flag

section post_effects

open Renderer

/-- C22 fails on the code: for a camera with two post-effects, target
framebuffer 5, intermediate textures A (address 1, framebuffer 11) and B
(address 2, framebuffer 12) and no batch, `renderCamera` binds framebuffer 11
for the main pass, then for the intermediate pass 0 binds framebuffer 5, not
12, and renders post-effect 31 from texture 1, and for the last pass binds
framebuffer 5 and renders post-effect 32 from texture 1 again, not from
texture 2. Texture B is neither written nor read. -/
theorem C22_intermediate_pass_renders_into_target :
    renderCamera sampleMaterialDecls sampleRenderDataDecls samplePostEffectDecls
        cameraTwoEffects 5 0 0 100 100 sampleShaderManager
        samplePostEffectShaderManager textureA textureB [] =
      .done
        { rstate := ⟨1, none, ⟨none, false, 0⟩⟩, numberDrawCalls := 0,
          numberTriangles := 0,
          trace :=
            [.glEnable .GL_DEPTH_TEST, .glDepthFunc_LEQUAL, .glEnable .GL_CULL_FACE,
              .glFrontFace_CCW, .glCullFace_BACK, .glEnable .GL_BLEND,
              .glDisable .GL_SAMPLE_ALPHA_TO_COVERAGE, .glBlendEquation_FUNC_ADD,
              .glBlendFunc_ONE_ONE_MINUS_SRC_ALPHA, .glDisable .GL_POLYGON_OFFSET_FILL,
              .glLineWidth_1,
              .glBindFramebuffer 11, .glViewport 0 0 64 64, .glClearColor 0 0 0 1,
              .glClear,
              .glDisable .GL_DEPTH_TEST, .glDisable .GL_CULL_FACE,
              .glBindFramebuffer 5, .glViewport 0 0 100 100, .glClear,
              .postEffectRender .colorBlend 1 31,
              .glBindFramebuffer 5, .glViewport 0 0 100 100, .glClear,
              .postEffectRender .horizontalFlip 1 32,
              .glDisable .GL_DEPTH_TEST, .glDisable .GL_CULL_FACE,
              .glDisable .GL_BLEND] } := by
  decide

end post_effects

section custom_shader

open CustomShader

theorem initializeOnDemand_program (gl : ProgramQueries) (s : CustomShader) :
    (initializeOnDemand gl s).program_ = some (s.program_.getD gl.createProgram) := by
  unfold initializeOnDemand
  cases hp : s.program_ <;> dsimp only <;> (repeat' split) <;> simp [hp]

theorem initializeOnDemand_textureVariables (gl : ProgramQueries) (s : CustomShader) :
    (initializeOnDemand gl s).textureVariables_ =
      if s.textureVariablesDirty_ then
        resolveLocations (gl.glGetUniformLocation (s.program_.getD gl.createProgram))
          s.textureVariables_
      else s.textureVariables_ := by
  unfold initializeOnDemand
  cases hp : s.program_ <;> dsimp only <;> (repeat' split) <;> simp_all

theorem any_textureUnusable_resolveLocations (material : ShaderMaterial)
    (g : String → Int) (l : List Descriptor) :
    (resolveLocations g l).any (textureUnusable material) =
      l.any (textureUnusable material) := by
  unfold resolveLocations
  rw [List.any_map]
  congr 1
  funext d
  simp only [Function.comp]
  split <;> rfl

theorem any_textureUnusable_initializeOnDemand (gl : ProgramQueries) (s : CustomShader)
    (material : ShaderMaterial) :
    (initializeOnDemand gl s).textureVariables_.any (textureUnusable material) =
      s.textureVariables_.any (textureUnusable material) := by
  rw [initializeOnDemand_textureVariables]
  split
  · exact any_textureUnusable_resolveLocations material _ _
  · rfl

theorem uniformCalls_no_throw (material : ShaderMaterial)
    (hstr : ∀ d e, material.uniformBind d = some e → ∃ msg, e = Thrown.string msg)
    (l : List Descriptor) : (uniformCalls material l).2 = none := by
  induction l with
  | nil => rfl
  | cons d rest ih =>
    unfold uniformCalls
    cases hb : material.uniformBind d with
    | none => simpa using ih
    | some e =>
      obtain ⟨msg, rfl⟩ := hstr d e hb
      simpa using ih

/-- The trace of a `render` that passed the texture check with a mesh: the
calls up to and including the uniform descriptors, and the rest when no
exception leaves the uniform loop. -/
theorem render_trace (gl : ProgramQueries) (MAX_BONES : Int) (s : CustomShader)
    (u_right : Bool) (m : ShaderMesh) (draw_mode : Nat) (lightList : List (Option Nat))
    (material : ShaderMaterial)
    (husable : s.textureVariables_.any (textureUnusable material) = false) :
    ∃ rest,
      (render gl MAX_BONES s u_right (some m) draw_mode lightList material).run.trace =
        (if s.program_.isNone then [ShaderEvent.createProgram gl.createProgram] else []) ++
          [.glUseProgram (s.program_.getD gl.createProgram)] ++
          lightCalls (s.program_.getD gl.createProgram) lightList ++
          boneCalls gl MAX_BONES (s.program_.getD gl.createProgram) m.getNumBones ++
          (vertexCalls (s.program_.getD gl.createProgram) m).2 ++
          (uniformCalls material (initializeOnDemand gl s).uniformVariables_).1 ++ rest ∧
      (rest = [] ∨
        rest = standardUniformCalls (initializeOnDemand gl s) u_right ++
          textureCalls material (initializeOnDemand gl s).textureVariables_ 0 ++
          drawCalls draw_mode (vertexCalls (s.program_.getD gl.createProgram) m).1) := by
  have hany := any_textureUnusable_initializeOnDemand gl s material
  rw [husable] at hany
  have hp := initializeOnDemand_program gl s
  unfold render
  simp only [hany, hp, Option.getD_some, Bool.false_eq_true, if_false]
  cases hu : (uniformCalls material (initializeOnDemand gl s).uniformVariables_).2 with
  | some e => exact ⟨[], by simp [ShaderOutcome.run], Or.inl rfl⟩
  | none => exact ⟨_, by simp [ShaderOutcome.run, List.append_assoc], Or.inr rfl⟩

theorem boneUploads_append (a b : List ShaderEvent) :
    boneUploads (a ++ b) = boneUploads a ++ boneUploads b := by
  simp [boneUploads, List.filterMap_append]

theorem boneUploads_lightCalls (program : Nat) (lightList : List (Option Nat)) :
    boneUploads (lightCalls program lightList) = [] := by
  induction lightList with
  | nil => rfl
  | cons l rest ih =>
    cases l with
    | none => simpa [lightCalls, boneUploads] using ih
    | some a => simpa [lightCalls, boneUploads] using ih

theorem boneUploads_vertexCalls (program : Nat) (m : ShaderMesh) :
    boneUploads (vertexCalls program m).2 = [] := by
  unfold vertexCalls
  split <;> rfl

theorem boneUploads_uniformCalls (material : ShaderMaterial) (l : List Descriptor) :
    boneUploads (uniformCalls material l).1 = [] := by
  induction l with
  | nil => rfl
  | cons d rest ih =>
    unfold uniformCalls
    cases hb : material.uniformBind d with
    | none => simpa [boneUploads] using ih
    | some e =>
      cases e with
      | string msg => simpa using ih
      | other => rfl

theorem boneUploads_standardUniformCalls (s : CustomShader) (u_right : Bool) :
    boneUploads (standardUniformCalls s u_right) = [] := by
  unfold standardUniformCalls
  simp only [boneUploads_append]
  (repeat' split) <;> rfl

theorem boneUploads_textureCalls (material : ShaderMaterial) (l : List Descriptor) :
    ∀ texture_index, boneUploads (textureCalls material l texture_index) = [] := by
  induction l with
  | nil => intro _; rfl
  | cons d rest ih =>
    intro texture_index
    unfold textureCalls
    cases material.getTextureNoError d.key with
    | none => simpa [boneUploads] using ih texture_index
    | some t => simpa [boneUploads] using ih (texture_index + 1)

theorem boneUploads_range (u : Int) (n : Nat) :
    boneUploads ((List.range n).map (fun (i : Nat) =>
      ShaderEvent.glUniformMatrix4fv (u + (i : Int)) (.bone i))) =
      (List.range n).map (fun (i : Nat) => (u + (i : Int), i)) := by
  induction (List.range n) with
  | nil => rfl
  | cons a rest ih => simpa [boneUploads] using ih

theorem boneUploads_boneCalls (gl : ProgramQueries) (MAX_BONES : Int) (program : Nat)
    (getNumBones : Int)
    (hdecl : gl.glGetAttribLocation program "a_bone_indices" ≥ 0 ∨
      gl.glGetAttribLocation program "a_bone_weights" ≥ 0 ∨
      gl.glGetUniformLocation program "u_bone_matrix[0]" ≥ 0) :
    boneUploads (boneCalls gl MAX_BONES program getNumBones) =
      (List.range (min getNumBones MAX_BONES).toNat).map (fun (i : Nat) =>
        (gl.glGetUniformLocation program "u_bone_matrix[0]" + (i : Int), i)) := by
  unfold boneCalls
  simp only [hdecl, if_true]
  rw [boneUploads_append, boneUploads_range]
  have hmin : (if getNumBones > MAX_BONES then MAX_BONES else getNumBones) =
      min getNumBones MAX_BONES := by
    split
    · rw [min_eq_right]; omega
    · rw [min_eq_left]; omega
  rw [hmin]
  rfl

/-- The bone uploads of a `render` that passed the texture check with a mesh
are those of the bone block. -/
theorem boneUploads_render (gl : ProgramQueries) (MAX_BONES : Int) (s : CustomShader)
    (u_right : Bool) (m : ShaderMesh) (draw_mode : Nat) (lightList : List (Option Nat))
    (material : ShaderMaterial)
    (husable : s.textureVariables_.any (textureUnusable material) = false) :
    boneUploads
        (render gl MAX_BONES s u_right (some m) draw_mode lightList material).run.trace =
      boneUploads (boneCalls gl MAX_BONES (s.program_.getD gl.createProgram)
        m.getNumBones) := by
  obtain ⟨rest, htrace, hrest⟩ :=
    render_trace gl MAX_BONES s u_right m draw_mode lightList material husable
  have hrest0 : boneUploads rest = [] := by
    rcases hrest with h | h
    · rw [h]; rfl
    · rw [h]
      simp only [boneUploads_append, boneUploads_standardUniformCalls,
        boneUploads_textureCalls]
      rfl
  have hcreated : boneUploads (if s.program_.isNone then
      [ShaderEvent.createProgram gl.createProgram] else []) = [] := by
    split <;> rfl
  rw [htrace]
  simp only [boneUploads_append, boneUploads_lightCalls, boneUploads_vertexCalls,
    boneUploads_uniformCalls, hrest0, hcreated, List.append_nil, List.nil_append]
  simp [boneUploads]

/-- C24: `CustomShader::render` aborts silently when a declared texture is
unusable. If the material has no texture under the key of some declared
texture descriptor, or that texture is not ready, `render` returns after
`initializeOnDemand` with no call but the creation of the program that
`initializeOnDemand` may make: the program is not bound, nothing is bound to
it and nothing is drawn. If every declared texture is present and ready, the
mesh is not null and the uniform bind functions throw nothing but
`std::string`, `render` returns after binding the program and issuing
`glDrawElements` for the indices of the mesh. -/
theorem C24_unusable_texture_aborts (gl : ProgramQueries) (MAX_BONES : Int)
    (s : CustomShader) (u_right : Bool) (mesh : Option ShaderMesh) (draw_mode : Nat)
    (lightList : List (Option Nat)) (material : ShaderMaterial) :
    ((∃ d ∈ s.textureVariables_, material.getTextureNoError d.key = none ∨
        ∃ texture, material.getTextureNoError d.key = some texture ∧
          texture.isReady = false) →
      render gl MAX_BONES s u_right mesh draw_mode lightList material =
        .done ⟨initializeOnDemand gl s, mesh,
          if s.program_.isNone then [.createProgram gl.createProgram] else []⟩) ∧
    ((∀ d ∈ s.textureVariables_, ∃ texture,
        material.getTextureNoError d.key = some texture ∧ texture.isReady = true) →
      ∀ m, mesh = some m →
      (∀ d e, material.uniformBind d = some e → ∃ msg, e = Thrown.string msg) →
      ∃ r, render gl MAX_BONES s u_right mesh draw_mode lightList material = .done r ∧
        ShaderEvent.glUseProgram (s.program_.getD gl.createProgram) ∈ r.trace ∧
        ShaderEvent.glDrawElements draw_mode m.indices_size ∈ r.trace) := by
  have hany := any_textureUnusable_initializeOnDemand gl s material
  constructor
  · rintro ⟨d, hd, hbad⟩
    have hun : s.textureVariables_.any (textureUnusable material) = true := by
      rw [List.any_eq_true]
      refine ⟨d, hd, ?_⟩
      unfold textureUnusable
      rcases hbad with h | ⟨t, h, hr⟩
      · rw [h]
      · rw [h]; simp [hr]
    rw [hun] at hany
    unfold render
    simp only [hany, if_true]
  · intro hall m hm hstr
    have hun : s.textureVariables_.any (textureUnusable material) = false := by
      rw [List.any_eq_false]
      intro d hd
      obtain ⟨t, h, hr⟩ := hall d hd
      unfold textureUnusable
      rw [h]; simp [hr]
    rw [hun] at hany
    have hp := initializeOnDemand_program gl s
    have hu := uniformCalls_no_throw material hstr (initializeOnDemand gl s).uniformVariables_
    subst hm
    unfold render
    simp only [hany, hp, hu, Option.getD_some, Bool.false_eq_true, if_false]
    refine ⟨_, rfl, ?_, ?_⟩
    · simp
    · simp [drawCalls, vertexCalls]
      split <;> simp

/-- Witness for C24 at the sample shader: with the texture under "main" not
ready nothing but the program creation happens; with it ready the program 40
is bound and the 6 indices are drawn. -/
theorem C24_unusable_texture_witness :
    render (sampleQueries 3) 60 sampleCustomShader true (some sampleShaderMesh) 4 []
        (sampleShaderMaterial false) =
      .done ⟨initializeOnDemand (sampleQueries 3) sampleCustomShader, some sampleShaderMesh,
        [.createProgram 40]⟩ ∧
    ∃ r, render (sampleQueries 3) 60 sampleCustomShader true (some sampleShaderMesh) 4 []
        (sampleShaderMaterial true) = .done r ∧
      ShaderEvent.glUseProgram 40 ∈ r.trace ∧ ShaderEvent.glDrawElements 4 6 ∈ r.trace :=
  ⟨(C24_unusable_texture_aborts (sampleQueries 3) 60 sampleCustomShader true
      (some sampleShaderMesh) 4 [] (sampleShaderMaterial false)).1
      ⟨⟨"u_texture", "main", -1⟩, by decide, Or.inr ⟨⟨800, false, some 81, 3553⟩,
        by decide, by decide⟩⟩,
    (C24_unusable_texture_aborts (sampleQueries 3) 60 sampleCustomShader true
      (some sampleShaderMesh) 4 [] (sampleShaderMaterial true)).2
      (by decide) sampleShaderMesh rfl (fun _ _ h => by cases h)⟩

/-- C28: the bone-matrix cap of `CustomShader::render`. When every declared
texture is usable, the mesh is not null and the program declares one of
`a_bone_indices`, `a_bone_weights` and `u_bone_matrix[0]`, then for a bone
count `numBones >= 0` and `MAX_BONES >= 0` the bone matrices uploaded by
`render`, however it ends, are exactly matrix `i` at location
`u_bone_matrices + i` for `i` from 0 up to `min(numBones, MAX_BONES)`, in this
order; their number is `min(numBones, MAX_BONES)` and none has an index of
`MAX_BONES` or more. -/
theorem C28_bone_matrix_cap (gl : ProgramQueries) (MAX_BONES : Int) (s : CustomShader)
    (u_right : Bool) (m : ShaderMesh) (draw_mode : Nat) (lightList : List (Option Nat))
    (material : ShaderMaterial)
    (husable : ∀ d ∈ s.textureVariables_, textureUnusable material d = false)
    (hdecl : gl.glGetAttribLocation (s.program_.getD gl.createProgram) "a_bone_indices" ≥ 0 ∨
      gl.glGetAttribLocation (s.program_.getD gl.createProgram) "a_bone_weights" ≥ 0 ∨
      gl.glGetUniformLocation (s.program_.getD gl.createProgram) "u_bone_matrix[0]" ≥ 0)
    (hn : 0 ≤ m.getNumBones) (hmax : 0 ≤ MAX_BONES) :
    boneUploads
        (render gl MAX_BONES s u_right (some m) draw_mode lightList material).run.trace =
      (List.range (min m.getNumBones MAX_BONES).toNat).map (fun (i : Nat) =>
        (gl.glGetUniformLocation (s.program_.getD gl.createProgram) "u_bone_matrix[0]" +
          (i : Int), i)) ∧
    ((boneUploads
        (render gl MAX_BONES s u_right (some m) draw_mode lightList
          material).run.trace).length : Int) = min m.getNumBones MAX_BONES ∧
    ∀ p ∈ boneUploads
        (render gl MAX_BONES s u_right (some m) draw_mode lightList material).run.trace,
      (p.2 : Int) < MAX_BONES := by
  have hun : s.textureVariables_.any (textureUnusable material) = false := by
    rw [List.any_eq_false]
    intro d hd
    simp [husable d hd]
  have h := boneUploads_render gl MAX_BONES s u_right m draw_mode lightList material hun
  rw [boneUploads_boneCalls gl MAX_BONES _ _ hdecl] at h
  have hmin : 0 ≤ min m.getNumBones MAX_BONES := le_min hn hmax
  refine ⟨h, ?_, ?_⟩
  · rw [h, List.length_map, List.length_range, Int.toNat_of_nonneg hmin]
  · intro p hp
    rw [h, List.mem_map] at hp
    obtain ⟨i, hi, rfl⟩ := hp
    rw [List.mem_range] at hi
    have : (i : Int) < min m.getNumBones MAX_BONES := by omega
    exact lt_of_lt_of_le this (min_le_right _ _)

/-- Witness for C28: a mesh with 5 bones and `MAX_BONES` = 3 on a program with
the bone matrices at location 20 uploads the matrices 0, 1, 2 to the locations
20, 21, 22. -/
theorem C28_bone_matrix_witness :
    boneUploads
        (render boneQueries 3 sampleCustomShader true (some sampleShaderMesh) 4 []
          (sampleShaderMaterial true)).run.trace = [(20, 0), (21, 1), (22, 2)] ∧
    ∀ p ∈ boneUploads
        (render boneQueries 3 sampleCustomShader true (some sampleShaderMesh) 4 []
          (sampleShaderMaterial true)).run.trace, (p.2 : Int) < 3 :=
  ⟨(C28_bone_matrix_cap boneQueries 3 sampleCustomShader true sampleShaderMesh 4 []
      (sampleShaderMaterial true) (by decide) (by decide) (by decide) (by decide)).1,
    (C28_bone_matrix_cap boneQueries 3 sampleCustomShader true sampleShaderMesh 4 []
      (sampleShaderMaterial true) (by decide) (by decide) (by decide) (by decide)).2.2⟩

/-- C30: the upload of `u_right` in `CustomShader::render` tests the location
against 0, not against -1. On a program that declares `u_right` at the valid
location 0 (and `u_mvp` at 1), `render` uploads `u_mvp` and never writes
`u_right`; on a program that does not declare `u_right` (location -1),
`render` calls `glUniform1i` with the location -1. -/
theorem C30_u_right_tested_against_zero :
    (render (sampleQueries 0) 60 sampleCustomShader true (some sampleShaderMesh) 4 []
        (sampleShaderMaterial true)).run.trace =
      [.createProgram 40, .glUseProgram 40, .generateVAO,
        .glUniformMatrix4fv 1 .u_mvp,
        .glActiveTexture 33984, .glBindTexture 3553 81, .glUniform1i 2 0,
        .glBindVertexArray 9, .glDrawElements 4 6, .glBindVertexArray 0, .checkGlError] ∧
    (render (sampleQueries (-1)) 60 sampleCustomShader true (some sampleShaderMesh) 4 []
        (sampleShaderMaterial true)).run.trace =
      [.createProgram 40, .glUseProgram 40, .generateVAO,
        .glUniformMatrix4fv 1 .u_mvp, .glUniform1i (-1) 1,
        .glActiveTexture 33984, .glBindTexture 3553 81, .glUniform1i 2 0,
        .glBindVertexArray 9, .glDrawElements 4 6, .glBindVertexArray 0, .checkGlError] ∧
    (initializeOnDemand (sampleQueries 0) sampleCustomShader).u_right_ = 0 ∧
    (initializeOnDemand (sampleQueries (-1)) sampleCustomShader).u_right_ = -1 := by
  decide

end custom_shader

end gvr
